import Mathlib

/-!
# Shallow embedding of `invertible_bloom_filter.hpp`

This file embeds the two C++ class templates `ibf::InvertibleBloomFilter`
(set variant) and `ibf::InvertibleBloomDictionary` (dictionary variant) and
proves properties of the embedding.

Modelling conventions:

* `Key`, `Value`, `Seed` and hash values are modelled as `Nat`.  The only
  arithmetic performed on them by the source is `^` (xor) and `%`, neither of
  which can overflow, so no width reduction is needed.
* `BucketCounter` is a template parameter (`std::uint16_t` by default); its
  unsigned wrap-around is observable, so bucket counters are modelled as `Nat`
  with explicit `% m` where `m = 2 ^ (bits of BucketCounter)` is carried in
  the configuration (`m = 65536` for the default `uint16_t`, `m = 256` for a
  `uint8_t` instantiation).  `count++` becomes `(c + 1) % m` and `count--`
  becomes `(c + (m - 1)) % m`, which agrees with unsigned wrap-around for all
  `c < m`.
* The global `size_t count` is modelled as a plain `Nat`: it is only ever
  incremented once per `insert` call, so it cannot reach `2^64` in any
  physically realizable execution, and no claim distinguishes the two.
* `assert` is modelled as a no-op (`NDEBUG` / release semantics).
* `hash % buckets.size()` with `buckets.size() == 0` is undefined behaviour in
  C++; `contains` models this by returning `none` (the out-of-range bucket
  access fails).  The mutating operations are only ever reasoned about under
  the hypothesis `0 < directory size`, where no undefined behaviour arises.
* The decode loop of `listAll` is a `while` loop; it is embedded with an
  explicit pass counter (`decodeGo` fuel).  `listAll` supplies fuel
  `n * (m - 1) + 2`, and the termination theorem for claim C9 shows the loop
  reaches its exit condition within that fuel, so the embedding computes the
  same result as the C++ loop whenever the C++ loop terminates.
-/

namespace ibf

/-- `enum ContainsResult { not_found, might_exist, exists }`. -/
inductive ContainsResult where
  | not_found
  | might_exist
  | found
  deriving DecidableEq, Repr

/-- Bucket of the set variant: `{ Key cumulative_key; BucketCounter count; }`. -/
structure Bucket where
  cumulative_key : Nat
  count : Nat
  deriving DecidableEq, Repr

/-- The fields of an `InvertibleBloomFilter` object: the seed array, the
bucket directory and the global logical count. -/
structure IBF where
  seeds : List Nat
  buckets : List Bucket
  count : Nat
  deriving DecidableEq, Repr

/-- Compile-time configuration of the template: the injected hash function
`HashFn` and the modulus `m = 2 ^ (bits of BucketCounter)` of the bucket
counter type. -/
structure Cfg where
  hasher : Nat → Nat
  m : Nat

/-- `hash_index`: `(hasher(key) ^ seed) % buckets.size()`.  (For `n = 0` the
C++ expression is undefined behaviour; callers that can hit that case model
the failure separately.) -/
def hash_index (cfg : Cfg) (n : Nat) (key seed : Nat) : Nat :=
  (cfg.hasher key ^^^ seed) % n

/-- The probe indices of `key`, one per seed, in seed order. -/
def probeList (cfg : Cfg) (n : Nat) (seeds : List Nat) (key : Nat) : List Nat :=
  seeds.map fun s => hash_index cfg n key s

/-- Read bucket `i` (total, with a default; all reasoning supplies `i` in
range). -/
def bget (bs : List Bucket) (i : Nat) : Bucket :=
  bs.getD i ⟨0, 0⟩

/-- The common mutation loop of `insert` and `remove`: walk the probe index
list, skipping indices already in `seen_indices`, and apply `f` to each bucket
visited for the first time. -/
def touchLoop (f : Bucket → Bucket) : List Nat → List Nat → List Bucket → List Bucket
  | [], _, bs => bs
  | i :: rest, seen, bs =>
      if i ∈ seen then touchLoop f rest seen bs
      else touchLoop f rest (i :: seen) (bs.set i (f (bget bs i)))

/-- `InvertibleBloomFilter::insert`: xor the key into each distinct probe
bucket, increment its counter (mod `m`), then increment the global count. -/
def insert (cfg : Cfg) (key : Nat) (S : IBF) : IBF :=
  { S with
    buckets := touchLoop
      (fun b => ⟨b.cumulative_key ^^^ key, (b.count + 1) % cfg.m⟩)
      (probeList cfg S.buckets.length S.seeds key) [] S.buckets
    count := S.count + 1 }

/-- The seed-scanning loop of `contains`: `mi` accumulates
`might_exist |= bucket.count > 1`.  A failed bucket access (only possible when
the directory is empty, where the C++ `%` is undefined behaviour) yields
`none`. -/
def containsGo (cfg : Cfg) (n : Nat) (bs : List Bucket) (key : Nat) :
    List Nat → Bool → Option ContainsResult
  | [], mi => some (if mi then .might_exist else .not_found)
  | s :: rest, mi =>
      match bs[hash_index cfg n key s]? with
      | none => none
      | some b =>
          if b.count = 1 then
            some (if key = b.cumulative_key then .found else .not_found)
          else
            containsGo cfg n bs key rest (mi || decide (b.count > 1))

/-- `InvertibleBloomFilter::contains`. -/
def contains (cfg : Cfg) (S : IBF) (key : Nat) : Option ContainsResult :=
  containsGo cfg S.buckets.length S.buckets key S.seeds false

/-- `InvertibleBloomFilter::remove`: fail (without mutating) unless
`contains` returns `exists`; otherwise xor the key back out of each distinct
probe bucket and decrement its counter (unsigned wrap: `(c + (m-1)) % m`),
then decrement the global count. -/
def remove (cfg : Cfg) (key : Nat) (S : IBF) : Bool × IBF :=
  if contains cfg S key = some .found then
    (true,
      { S with
        buckets := touchLoop
          (fun b => ⟨b.cumulative_key ^^^ key, (b.count + (cfg.m - 1)) % cfg.m⟩)
          (probeList cfg S.buckets.length S.seeds key) [] S.buckets
        count := S.count - 1 })
  else (false, S)

/-- `std::unordered_set::insert` on the result accumulator. -/
def resInsert (res : List Nat) (k : Nat) : List Nat :=
  if k ∈ res then res else res ++ [k]

/-- One bucket visit of the peeling scan of `listAll`, folded over the bucket
indices: carries the working copy, the accumulated result and the
`finished` / `has_changed` flags. -/
def scanGo (cfg : Cfg) : List Nat → IBF → List Nat → Bool → Bool →
    IBF × List Nat × Bool × Bool
  | [], S, res, fin, ch => (S, res, fin, ch)
  | i :: rest, S, res, fin, ch =>
      let b := bget S.buckets i
      if b.count = 0 then scanGo cfg rest S res fin ch
      else if b.count > 1 then scanGo cfg rest S res false ch
      else
        let res' := resInsert res b.cumulative_key
        let p := remove cfg b.cumulative_key S
        scanGo cfg rest p.2 res' fin p.1

/-- The `while (!finished && has_changed)` loop of `listAll`, with an explicit
pass budget.  Returns the final working copy, the accumulated result, the
`finished` flag and whether the loop exited (rather than ran out of budget;
the termination theorem shows the budget used by `listAll` always suffices
for well-formed instantiations). -/
def decodeGo (cfg : Cfg) : Nat → IBF → List Nat → IBF × List Nat × Bool × Bool
  | 0, S, res => (S, res, false, false)
  | fuel + 1, S, res =>
      match scanGo cfg (List.range S.buckets.length) S res true false with
      | (S', res', fin, ch) =>
          if fin || !ch then (S', res', fin, true)
          else decodeGo cfg fuel S' res'

/-- `InvertibleBloomFilter::listAll`: peel a private copy; on loop exit,
succeed only if `finished` and the recovered count matches the logical
count. -/
def listAll (cfg : Cfg) (S : IBF) : Option (List Nat) :=
  let r := decodeGo cfg (S.buckets.length * (cfg.m - 1) + 2) S []
  if !r.2.2.1 || r.2.1.length ≠ S.count then none else some r.2.1

/-- `size()`. -/
def size (S : IBF) : Nat := S.count

/-- `directory_size()`. -/
def directory_size (S : IBF) : Nat := S.buckets.length

/-- `listSeeds()`. -/
def listSeeds (S : IBF) : List Nat := S.seeds

/-- A freshly constructed filter: `buckets(size)` value-initializes every
bucket to `{0, 0}`, `count` starts at `0`. -/
def empty (seeds : List Nat) (n : Nat) : IBF :=
  ⟨seeds, List.replicate n ⟨0, 0⟩, 0⟩

/-- Client operations on a filter: `insert(k)` or `remove(k)`.  A `rem` whose
`remove` call fails leaves the state unchanged, so every sequence of inserts
and *successful* removes is the run of some `Op` list and vice versa. -/
inductive Op where
  | ins (k : Nat)
  | rem (k : Nat)
  deriving DecidableEq, Repr

/-- One client operation, executed on the state paired with the abstract
multiset (as a list) of keys currently inserted and not yet removed. -/
def step (cfg : Cfg) : IBF × List Nat → Op → IBF × List Nat
  | (S, P), .ins k => (insert cfg k S, k :: P)
  | (S, P), .rem k =>
      let p := remove cfg k S
      (p.2, if p.1 then P.erase k else P)

/-- Run a trace of client operations from a freshly constructed filter,
returning the final state and the list of currently-inserted keys. -/
def runP (cfg : Cfg) (S₀ : IBF) (t : List Op) : IBF × List Nat :=
  t.foldl (step cfg) (S₀, [])

/-- The keys of the insert operations of a trace, in order. -/
def insKeys : List Op → List Nat
  | [] => []
  | .ins k :: t => k :: insKeys t
  | .rem _ :: t => insKeys t

/-- Folding a list of inserts over a state. -/
def insFold (cfg : Cfg) (S : IBF) (ks : List Nat) : IBF :=
  ks.foldl (fun s k => insert cfg k s) S

/-! ## Abstract view: the multiset of currently-inserted keys

`Inv cfg n seeds S P` says the concrete bucket state `S` is exactly the
encoding of the abstract key list `P` (the keys inserted and not yet
removed, with multiplicity): every bucket holds the xor and the number of
the present keys routed to it.  It holds on every state reachable by a
trace with fewer than `cfg.m` inserts (no counter wrap-around). -/

/-- xor of a list of keys. -/
def xorSum (l : List Nat) : Nat := l.foldr (fun a b => a ^^^ b) 0

/-- The keys of `P` (with multiplicity) having `i` among their probe
indices. -/
def routedKeys (cfg : Cfg) (n : Nat) (seeds : List Nat) (i : Nat) (P : List Nat) :
    List Nat :=
  P.filter (fun k => decide (i ∈ probeList cfg n seeds k))

/-- The abstraction invariant relating a bucket state to the abstract list
of present keys. -/
def Inv (cfg : Cfg) (n : Nat) (seeds : List Nat) (S : IBF) (P : List Nat) : Prop :=
  S.seeds = seeds ∧ S.buckets.length = n ∧ S.count = P.length ∧
  P.length < cfg.m ∧
  ∀ i, i < n →
    bget S.buckets i =
      ⟨xorSum (routedKeys cfg n seeds i P), (routedKeys cfg n seeds i P).length⟩

/-- Number of insert operations in a trace. -/
def insCount (t : List Op) : Nat := (insKeys t).length

/-- Termination potential of the decode loop: each bucket contributes
`(m - count) % m`, the number of decrements until its counter next reaches
zero.  Every successful `remove` strictly decreases it (when the probe
count is below `m`). -/
def psi (m : Nat) (bs : List Bucket) : Nat :=
  ∑ i ∈ Finset.range bs.length, (m - (bget bs i).count) % m

/-! ## Concrete instantiations used by the counterexamples

The claims quantify over every structure reachable in an instantiation of the
class template.  The counterexamples below use the `BucketCounter =
std::uint8_t` instantiation (`m = 256`), which keeps the witnessing traces
256–257 operations long; the default `uint16_t` instantiation fails in
exactly the same way after `2^16` inserts. -/

/-- `uint8_t` bucket counters, identity hash (`HashFn` is an arbitrary
injected deterministic function). -/
def cfg8 : Cfg := { hasher := id, m := 256 }

/-- 256 distinct inserts into a 1-bucket directory: every probe of every key
lands in bucket 0, whose counter wraps to 0 while its key accumulator xors
out to 0. -/
def c2trace : List Op := (List.range 256).map .ins

/-- State and present-key list after `c2trace`. -/
def c2state : IBF × List Nat := runP cfg8 (empty [0, 1, 2] 1) c2trace

/-- 257 distinct inserts into a 1-bucket directory: bucket 0 ends with
`count = 1` and `cumulative_key = 256`, a wrapped phantom singleton. -/
def c6trace : List Op := (List.range 257).map .ins

/-- State and present-key list after `c6trace`. -/
def c6state : IBF × List Nat := runP cfg8 (empty [0, 1, 2] 1) c6trace

/-- Configuration for the decode counterexample: `uint8_t` counters, `K = 2`,
and hash function `k ↦ 257 * k`, so that with directory size 257 the probe
under seed 0 is bucket 0 for every key. -/
def c3cfg : Cfg := { hasher := fun k => 257 * k, m := 256 }

/-- Seeds of the decode counterexample (pairwise distinct, as produced by the
constructor). -/
def c3seeds : List Nat := [0, 777777]

/-- 257 pairwise-distinct keys.  Key number `t` (for `t = 1..256`) has second
probe bucket `t`; the last key has both probes in bucket 0.  Bucket 0 receives
all 257 keys, so its `uint8_t` counter wraps to 1 and its accumulator holds
the phantom value 1358, which is not an inserted key but has both of its own
probes in bucket 0. -/
def c3keys : List Nat := [
  4338, 9854, 7152, 13680, 13253, 14145, 4855, 13126, 4087, 8051, 5877, 4472, 12488, 13177, 14023, 8038,
  13259, 13179, 7144, 5448, 4812, 6780, 12543, 6255, 14335, 12926, 5116, 13421, 5629, 2736, 8674, 2739,
  7679, 13422, 2355, 9329, 3360, 3505, 2100, 3986, 9203, 8551, 295, 2472, 8185, 9573, 2329, 3751,
  10219, 3495, 10220, 9849, 1848, 1465, 2076, 446, 2862, 686, 12013, 9309, 1565, 7073, 3357, 12387,
  1822, 11886, 13280, 13409, 4388, 6549, 5393, 14423, 12759, 14179, 5395, 4504, 13540, 6053, 13035, 6299,
  5398, 6555, 5927, 13929, 5145, 13912, 12270, 4526, 5914, 13151, 14029, 657, 2832, 8093, 5148, 5518,
  8978, 10643, 8210, 10373, 517, 1921, 1281, 9363, 9219, 9111, 775, 153, 264, 9605, 9477, 3510,
  3127, 1174, 9991, 908, 8221, 3465, 540, 9610, 10303, 654, 8975, 11405, 4097, 3517, 9533, 1470,
  6659, 5043, 4658, 4532, 5121, 8097, 14388, 6279, 14130, 13747, 4614, 6841, 5940, 12472, 13065, 7351,
  14395, 8103, 14394, 7592, 14088, 7101, 12300, 13230, 6462, 5039, 4654, 5548, 625, 7868, 8736, 8626,
  8243, 738, 5423, 2032, 1392, 8868, 3441, 502, 9267, 3031, 1891, 9652, 10281, 8376, 3156, 2522,
  2155, 3286, 1399, 2524, 2157, 748, 10268, 2799, 1147, 8623, 1626, 9885, 12305, 9884, 11549, 11439,
  3950, 3294, 4451, 5841, 8032, 6884, 13344, 5859, 12582, 7394, 13330, 6857, 12841, 14488, 14360, 4315,
  6219, 7894, 4698, 5608, 13592, 4573, 8025, 6622, 6751, 5087, 4686, 6108, 8273, 2256, 2112, 9154,
  8771, 6111, 10579, 4048, 2117, 8404, 2373, 2263, 2374, 3826, 9047, 984, 1093, 9924, 9557, 1478,
  3703, 1479, 2170, 8413, 2637, 1752, 3656, 8399, 2175, 8703, 1658, 6385, 3661, 6129, 4208, 3582,
  6211]

/-- Insert the 257 keys, then remove the phantom value 1358.  The remove
*succeeds* (bucket 0 is a wrapped singleton holding 1358), so this trace is a
sequence of pairwise-distinct inserts and successful removes; it leaves all
257 keys present while bucket 0 reads empty and the logical count drops to
256. -/
def c3trace : List Op := c3keys.map .ins ++ [.rem 1358]

/-- State and present-key list after `c3trace`. -/
def c3state : IBF × List Nat := runP c3cfg (empty c3seeds 257) c3trace

-- GEN_DEFS_BEGIN
def c2r1 : List Nat := [0, 1, 2, 3, 4, 5, 6, 7, 8, 9, 10, 11, 12, 13, 14, 15, 16, 17, 18, 19, 20, 21, 22, 23, 24, 25, 26, 27, 28, 29, 30, 31, 32, 33, 34, 35, 36, 37, 38, 39, 40, 41, 42, 43, 44, 45, 46, 47, 48, 49, 50, 51, 52, 53, 54, 55, 56, 57, 58, 59, 60, 61, 62, 63]
def c2r2 : List Nat := [64, 65, 66, 67, 68, 69, 70, 71, 72, 73, 74, 75, 76, 77, 78, 79, 80, 81, 82, 83, 84, 85, 86, 87, 88, 89, 90, 91, 92, 93, 94, 95, 96, 97, 98, 99, 100, 101, 102, 103, 104, 105, 106, 107, 108, 109, 110, 111, 112, 113, 114, 115, 116, 117, 118, 119, 120, 121, 122, 123, 124, 125, 126, 127]
def c2r3 : List Nat := [128, 129, 130, 131, 132, 133, 134, 135, 136, 137, 138, 139, 140, 141, 142, 143, 144, 145, 146, 147, 148, 149, 150, 151, 152, 153, 154, 155, 156, 157, 158, 159, 160, 161, 162, 163, 164, 165, 166, 167, 168, 169, 170, 171, 172, 173, 174, 175, 176, 177, 178, 179, 180, 181, 182, 183, 184, 185, 186, 187, 188, 189, 190, 191]
def c2r4 : List Nat := [192, 193, 194, 195, 196, 197, 198, 199, 200, 201, 202, 203, 204, 205, 206, 207, 208, 209, 210, 211, 212, 213, 214, 215, 216, 217, 218, 219, 220, 221, 222, 223, 224, 225, 226, 227, 228, 229, 230, 231, 232, 233, 234, 235, 236, 237, 238, 239, 240, 241, 242, 243, 244, 245, 246, 247, 248, 249, 250, 251, 252, 253, 254, 255]
def c2st1 : IBF := IBF.mk [0, 1, 2] [Bucket.mk 0 64] 64
def c2st2 : IBF := IBF.mk [0, 1, 2] [Bucket.mk 0 128] 128
def c2st3 : IBF := IBF.mk [0, 1, 2] [Bucket.mk 0 192] 192
def c2st4 : IBF := IBF.mk [0, 1, 2] [Bucket.mk 0 0] 256
def c6stF : IBF := IBF.mk [0, 1, 2] [Bucket.mk 256 1] 257
def c3k1 : List Nat := [4338, 9854, 7152, 13680, 13253, 14145, 4855, 13126, 4087, 8051, 5877, 4472, 12488, 13177, 14023, 8038, 13259, 13179, 7144, 5448, 4812, 6780, 12543, 6255, 14335, 12926, 5116, 13421, 5629, 2736, 8674, 2739, 7679, 13422, 2355, 9329, 3360, 3505, 2100, 3986, 9203, 8551, 295, 2472, 8185, 9573, 2329, 3751, 10219, 3495, 10220, 9849, 1848, 1465, 2076, 446, 2862, 686, 12013, 9309, 1565, 7073, 3357, 12387]
def c3k2 : List Nat := [1822, 11886, 13280, 13409, 4388, 6549, 5393, 14423, 12759, 14179, 5395, 4504, 13540, 6053, 13035, 6299, 5398, 6555, 5927, 13929, 5145, 13912, 12270, 4526, 5914, 13151, 14029, 657, 2832, 8093, 5148, 5518, 8978, 10643, 8210, 10373, 517, 1921, 1281, 9363, 9219, 9111, 775, 153, 264, 9605, 9477, 3510, 3127, 1174, 9991, 908, 8221, 3465, 540, 9610, 10303, 654, 8975, 11405, 4097, 3517, 9533, 1470]
def c3k3 : List Nat := [6659, 5043, 4658, 4532, 5121, 8097, 14388, 6279, 14130, 13747, 4614, 6841, 5940, 12472, 13065, 7351, 14395, 8103, 14394, 7592, 14088, 7101, 12300, 13230, 6462, 5039, 4654, 5548, 625, 7868, 8736, 8626, 8243, 738, 5423, 2032, 1392, 8868, 3441, 502, 9267, 3031, 1891, 9652, 10281, 8376, 3156, 2522, 2155, 3286, 1399, 2524, 2157, 748, 10268, 2799, 1147, 8623, 1626, 9885, 12305, 9884, 11549, 11439]
def c3k4 : List Nat := [3950, 3294, 4451, 5841, 8032, 6884, 13344, 5859, 12582, 7394, 13330, 6857, 12841, 14488, 14360, 4315, 6219, 7894, 4698, 5608, 13592, 4573, 8025, 6622, 6751, 5087, 4686, 6108, 8273, 2256, 2112, 9154, 8771, 6111, 10579, 4048, 2117, 8404, 2373, 2263, 2374, 3826, 9047, 984, 1093, 9924, 9557, 1478, 3703, 1479, 2170, 8413, 2637, 1752, 3656, 8399, 2175, 8703, 1658, 6385, 3661, 6129, 4208, 3582]
def c3k5 : List Nat := [6211]
def c3stI1 : IBF := IBF.mk [0, 777777] [Bucket.mk 4041 64, Bucket.mk 4338 1, Bucket.mk 9854 1, Bucket.mk 7152 1, Bucket.mk 13680 1, Bucket.mk 13253 1, Bucket.mk 14145 1, Bucket.mk 4855 1, Bucket.mk 13126 1, Bucket.mk 4087 1, Bucket.mk 8051 1, Bucket.mk 5877 1, Bucket.mk 4472 1, Bucket.mk 12488 1, Bucket.mk 13177 1, Bucket.mk 14023 1, Bucket.mk 8038 1, Bucket.mk 13259 1, Bucket.mk 13179 1, Bucket.mk 7144 1, Bucket.mk 5448 1, Bucket.mk 4812 1, Bucket.mk 6780 1, Bucket.mk 12543 1, Bucket.mk 6255 1, Bucket.mk 14335 1, Bucket.mk 12926 1, Bucket.mk 5116 1, Bucket.mk 13421 1, Bucket.mk 5629 1, Bucket.mk 2736 1, Bucket.mk 8674 1, Bucket.mk 2739 1, Bucket.mk 7679 1, Bucket.mk 13422 1, Bucket.mk 2355 1, Bucket.mk 9329 1, Bucket.mk 3360 1, Bucket.mk 3505 1, Bucket.mk 2100 1, Bucket.mk 3986 1, Bucket.mk 9203 1, Bucket.mk 8551 1, Bucket.mk 295 1, Bucket.mk 2472 1, Bucket.mk 8185 1, Bucket.mk 9573 1, Bucket.mk 2329 1, Bucket.mk 3751 1, Bucket.mk 10219 1, Bucket.mk 3495 1, Bucket.mk 10220 1, Bucket.mk 9849 1, Bucket.mk 1848 1, Bucket.mk 1465 1, Bucket.mk 2076 1, Bucket.mk 446 1, Bucket.mk 2862 1, Bucket.mk 686 1, Bucket.mk 12013 1, Bucket.mk 9309 1, Bucket.mk 1565 1, Bucket.mk 7073 1, Bucket.mk 3357 1, Bucket.mk 12387 1, Bucket.mk 0 0, Bucket.mk 0 0, Bucket.mk 0 0, Bucket.mk 0 0, Bucket.mk 0 0, Bucket.mk 0 0, Bucket.mk 0 0, Bucket.mk 0 0, Bucket.mk 0 0, Bucket.mk 0 0, Bucket.mk 0 0, Bucket.mk 0 0, Bucket.mk 0 0, Bucket.mk 0 0, Bucket.mk 0 0, Bucket.mk 0 0, Bucket.mk 0 0, Bucket.mk 0 0, Bucket.mk 0 0, Bucket.mk 0 0, Bucket.mk 0 0, Bucket.mk 0 0, Bucket.mk 0 0, Bucket.mk 0 0, Bucket.mk 0 0, Bucket.mk 0 0, Bucket.mk 0 0, Bucket.mk 0 0, Bucket.mk 0 0, Bucket.mk 0 0, Bucket.mk 0 0, Bucket.mk 0 0, Bucket.mk 0 0, Bucket.mk 0 0, Bucket.mk 0 0, Bucket.mk 0 0, Bucket.mk 0 0, Bucket.mk 0 0, Bucket.mk 0 0, Bucket.mk 0 0, Bucket.mk 0 0, Bucket.mk 0 0, Bucket.mk 0 0, Bucket.mk 0 0, Bucket.mk 0 0, Bucket.mk 0 0, Bucket.mk 0 0, Bucket.mk 0 0, Bucket.mk 0 0, Bucket.mk 0 0, Bucket.mk 0 0, Bucket.mk 0 0, Bucket.mk 0 0, Bucket.mk 0 0, Bucket.mk 0 0, Bucket.mk 0 0, Bucket.mk 0 0, Bucket.mk 0 0, Bucket.mk 0 0, Bucket.mk 0 0, Bucket.mk 0 0, Bucket.mk 0 0, Bucket.mk 0 0, Bucket.mk 0 0, Bucket.mk 0 0, Bucket.mk 0 0, Bucket.mk 0 0, Bucket.mk 0 0, Bucket.mk 0 0, Bucket.mk 0 0, Bucket.mk 0 0, Bucket.mk 0 0, Bucket.mk 0 0, Bucket.mk 0 0, Bucket.mk 0 0, Bucket.mk 0 0, Bucket.mk 0 0, Bucket.mk 0 0, Bucket.mk 0 0, Bucket.mk 0 0, Bucket.mk 0 0, Bucket.mk 0 0, Bucket.mk 0 0, Bucket.mk 0 0, Bucket.mk 0 0, Bucket.mk 0 0, Bucket.mk 0 0, Bucket.mk 0 0, Bucket.mk 0 0, Bucket.mk 0 0, Bucket.mk 0 0, Bucket.mk 0 0, Bucket.mk 0 0, Bucket.mk 0 0, Bucket.mk 0 0, Bucket.mk 0 0, Bucket.mk 0 0, Bucket.mk 0 0, Bucket.mk 0 0, Bucket.mk 0 0, Bucket.mk 0 0, Bucket.mk 0 0, Bucket.mk 0 0, Bucket.mk 0 0, Bucket.mk 0 0, Bucket.mk 0 0, Bucket.mk 0 0, Bucket.mk 0 0, Bucket.mk 0 0, Bucket.mk 0 0, Bucket.mk 0 0, Bucket.mk 0 0, Bucket.mk 0 0, Bucket.mk 0 0, Bucket.mk 0 0, Bucket.mk 0 0, Bucket.mk 0 0, Bucket.mk 0 0, Bucket.mk 0 0, Bucket.mk 0 0, Bucket.mk 0 0, Bucket.mk 0 0, Bucket.mk 0 0, Bucket.mk 0 0, Bucket.mk 0 0, Bucket.mk 0 0, Bucket.mk 0 0, Bucket.mk 0 0, Bucket.mk 0 0, Bucket.mk 0 0, Bucket.mk 0 0, Bucket.mk 0 0, Bucket.mk 0 0, Bucket.mk 0 0, Bucket.mk 0 0, Bucket.mk 0 0, Bucket.mk 0 0, Bucket.mk 0 0, Bucket.mk 0 0, Bucket.mk 0 0, Bucket.mk 0 0, Bucket.mk 0 0, Bucket.mk 0 0, Bucket.mk 0 0, Bucket.mk 0 0, Bucket.mk 0 0, Bucket.mk 0 0, Bucket.mk 0 0, Bucket.mk 0 0, Bucket.mk 0 0, Bucket.mk 0 0, Bucket.mk 0 0, Bucket.mk 0 0, Bucket.mk 0 0, Bucket.mk 0 0, Bucket.mk 0 0, Bucket.mk 0 0, Bucket.mk 0 0, Bucket.mk 0 0, Bucket.mk 0 0, Bucket.mk 0 0, Bucket.mk 0 0, Bucket.mk 0 0, Bucket.mk 0 0, Bucket.mk 0 0, Bucket.mk 0 0, Bucket.mk 0 0, Bucket.mk 0 0, Bucket.mk 0 0, Bucket.mk 0 0, Bucket.mk 0 0, Bucket.mk 0 0, Bucket.mk 0 0, Bucket.mk 0 0, Bucket.mk 0 0, Bucket.mk 0 0, Bucket.mk 0 0, Bucket.mk 0 0, Bucket.mk 0 0, Bucket.mk 0 0, Bucket.mk 0 0, Bucket.mk 0 0, Bucket.mk 0 0, Bucket.mk 0 0, Bucket.mk 0 0, Bucket.mk 0 0, Bucket.mk 0 0, Bucket.mk 0 0, Bucket.mk 0 0, Bucket.mk 0 0, Bucket.mk 0 0, Bucket.mk 0 0] 64
def c3stI2 : IBF := IBF.mk [0, 777777] [Bucket.mk 11029 128, Bucket.mk 4338 1, Bucket.mk 9854 1, Bucket.mk 7152 1, Bucket.mk 13680 1, Bucket.mk 13253 1, Bucket.mk 14145 1, Bucket.mk 4855 1, Bucket.mk 13126 1, Bucket.mk 4087 1, Bucket.mk 8051 1, Bucket.mk 5877 1, Bucket.mk 4472 1, Bucket.mk 12488 1, Bucket.mk 13177 1, Bucket.mk 14023 1, Bucket.mk 8038 1, Bucket.mk 13259 1, Bucket.mk 13179 1, Bucket.mk 7144 1, Bucket.mk 5448 1, Bucket.mk 4812 1, Bucket.mk 6780 1, Bucket.mk 12543 1, Bucket.mk 6255 1, Bucket.mk 14335 1, Bucket.mk 12926 1, Bucket.mk 5116 1, Bucket.mk 13421 1, Bucket.mk 5629 1, Bucket.mk 2736 1, Bucket.mk 8674 1, Bucket.mk 2739 1, Bucket.mk 7679 1, Bucket.mk 13422 1, Bucket.mk 2355 1, Bucket.mk 9329 1, Bucket.mk 3360 1, Bucket.mk 3505 1, Bucket.mk 2100 1, Bucket.mk 3986 1, Bucket.mk 9203 1, Bucket.mk 8551 1, Bucket.mk 295 1, Bucket.mk 2472 1, Bucket.mk 8185 1, Bucket.mk 9573 1, Bucket.mk 2329 1, Bucket.mk 3751 1, Bucket.mk 10219 1, Bucket.mk 3495 1, Bucket.mk 10220 1, Bucket.mk 9849 1, Bucket.mk 1848 1, Bucket.mk 1465 1, Bucket.mk 2076 1, Bucket.mk 446 1, Bucket.mk 2862 1, Bucket.mk 686 1, Bucket.mk 12013 1, Bucket.mk 9309 1, Bucket.mk 1565 1, Bucket.mk 7073 1, Bucket.mk 3357 1, Bucket.mk 12387 1, Bucket.mk 1822 1, Bucket.mk 11886 1, Bucket.mk 13280 1, Bucket.mk 13409 1, Bucket.mk 4388 1, Bucket.mk 6549 1, Bucket.mk 5393 1, Bucket.mk 14423 1, Bucket.mk 12759 1, Bucket.mk 14179 1, Bucket.mk 5395 1, Bucket.mk 4504 1, Bucket.mk 13540 1, Bucket.mk 6053 1, Bucket.mk 13035 1, Bucket.mk 6299 1, Bucket.mk 5398 1, Bucket.mk 6555 1, Bucket.mk 5927 1, Bucket.mk 13929 1, Bucket.mk 5145 1, Bucket.mk 13912 1, Bucket.mk 12270 1, Bucket.mk 4526 1, Bucket.mk 5914 1, Bucket.mk 13151 1, Bucket.mk 14029 1, Bucket.mk 657 1, Bucket.mk 2832 1, Bucket.mk 8093 1, Bucket.mk 5148 1, Bucket.mk 5518 1, Bucket.mk 8978 1, Bucket.mk 10643 1, Bucket.mk 8210 1, Bucket.mk 10373 1, Bucket.mk 517 1, Bucket.mk 1921 1, Bucket.mk 1281 1, Bucket.mk 9363 1, Bucket.mk 9219 1, Bucket.mk 9111 1, Bucket.mk 775 1, Bucket.mk 153 1, Bucket.mk 264 1, Bucket.mk 9605 1, Bucket.mk 9477 1, Bucket.mk 3510 1, Bucket.mk 3127 1, Bucket.mk 1174 1, Bucket.mk 9991 1, Bucket.mk 908 1, Bucket.mk 8221 1, Bucket.mk 3465 1, Bucket.mk 540 1, Bucket.mk 9610 1, Bucket.mk 10303 1, Bucket.mk 654 1, Bucket.mk 8975 1, Bucket.mk 11405 1, Bucket.mk 4097 1, Bucket.mk 3517 1, Bucket.mk 9533 1, Bucket.mk 1470 1, Bucket.mk 0 0, Bucket.mk 0 0, Bucket.mk 0 0, Bucket.mk 0 0, Bucket.mk 0 0, Bucket.mk 0 0, Bucket.mk 0 0, Bucket.mk 0 0, Bucket.mk 0 0, Bucket.mk 0 0, Bucket.mk 0 0, Bucket.mk 0 0, Bucket.mk 0 0, Bucket.mk 0 0, Bucket.mk 0 0, Bucket.mk 0 0, Bucket.mk 0 0, Bucket.mk 0 0, Bucket.mk 0 0, Bucket.mk 0 0, Bucket.mk 0 0, Bucket.mk 0 0, Bucket.mk 0 0, Bucket.mk 0 0, Bucket.mk 0 0, Bucket.mk 0 0, Bucket.mk 0 0, Bucket.mk 0 0, Bucket.mk 0 0, Bucket.mk 0 0, Bucket.mk 0 0, Bucket.mk 0 0, Bucket.mk 0 0, Bucket.mk 0 0, Bucket.mk 0 0, Bucket.mk 0 0, Bucket.mk 0 0, Bucket.mk 0 0, Bucket.mk 0 0, Bucket.mk 0 0, Bucket.mk 0 0, Bucket.mk 0 0, Bucket.mk 0 0, Bucket.mk 0 0, Bucket.mk 0 0, Bucket.mk 0 0, Bucket.mk 0 0, Bucket.mk 0 0, Bucket.mk 0 0, Bucket.mk 0 0, Bucket.mk 0 0, Bucket.mk 0 0, Bucket.mk 0 0, Bucket.mk 0 0, Bucket.mk 0 0, Bucket.mk 0 0, Bucket.mk 0 0, Bucket.mk 0 0, Bucket.mk 0 0, Bucket.mk 0 0, Bucket.mk 0 0, Bucket.mk 0 0, Bucket.mk 0 0, Bucket.mk 0 0, Bucket.mk 0 0, Bucket.mk 0 0, Bucket.mk 0 0, Bucket.mk 0 0, Bucket.mk 0 0, Bucket.mk 0 0, Bucket.mk 0 0, Bucket.mk 0 0, Bucket.mk 0 0, Bucket.mk 0 0, Bucket.mk 0 0, Bucket.mk 0 0, Bucket.mk 0 0, Bucket.mk 0 0, Bucket.mk 0 0, Bucket.mk 0 0, Bucket.mk 0 0, Bucket.mk 0 0, Bucket.mk 0 0, Bucket.mk 0 0, Bucket.mk 0 0, Bucket.mk 0 0, Bucket.mk 0 0, Bucket.mk 0 0, Bucket.mk 0 0, Bucket.mk 0 0, Bucket.mk 0 0, Bucket.mk 0 0, Bucket.mk 0 0, Bucket.mk 0 0, Bucket.mk 0 0, Bucket.mk 0 0, Bucket.mk 0 0, Bucket.mk 0 0, Bucket.mk 0 0, Bucket.mk 0 0, Bucket.mk 0 0, Bucket.mk 0 0, Bucket.mk 0 0, Bucket.mk 0 0, Bucket.mk 0 0, Bucket.mk 0 0, Bucket.mk 0 0, Bucket.mk 0 0, Bucket.mk 0 0, Bucket.mk 0 0, Bucket.mk 0 0, Bucket.mk 0 0, Bucket.mk 0 0, Bucket.mk 0 0, Bucket.mk 0 0, Bucket.mk 0 0, Bucket.mk 0 0, Bucket.mk 0 0, Bucket.mk 0 0, Bucket.mk 0 0, Bucket.mk 0 0, Bucket.mk 0 0, Bucket.mk 0 0, Bucket.mk 0 0, Bucket.mk 0 0, Bucket.mk 0 0, Bucket.mk 0 0, Bucket.mk 0 0] 128
def c3stI3 : IBF := IBF.mk [0, 777777] [Bucket.mk 7760 192, Bucket.mk 4338 1, Bucket.mk 9854 1, Bucket.mk 7152 1, Bucket.mk 13680 1, Bucket.mk 13253 1, Bucket.mk 14145 1, Bucket.mk 4855 1, Bucket.mk 13126 1, Bucket.mk 4087 1, Bucket.mk 8051 1, Bucket.mk 5877 1, Bucket.mk 4472 1, Bucket.mk 12488 1, Bucket.mk 13177 1, Bucket.mk 14023 1, Bucket.mk 8038 1, Bucket.mk 13259 1, Bucket.mk 13179 1, Bucket.mk 7144 1, Bucket.mk 5448 1, Bucket.mk 4812 1, Bucket.mk 6780 1, Bucket.mk 12543 1, Bucket.mk 6255 1, Bucket.mk 14335 1, Bucket.mk 12926 1, Bucket.mk 5116 1, Bucket.mk 13421 1, Bucket.mk 5629 1, Bucket.mk 2736 1, Bucket.mk 8674 1, Bucket.mk 2739 1, Bucket.mk 7679 1, Bucket.mk 13422 1, Bucket.mk 2355 1, Bucket.mk 9329 1, Bucket.mk 3360 1, Bucket.mk 3505 1, Bucket.mk 2100 1, Bucket.mk 3986 1, Bucket.mk 9203 1, Bucket.mk 8551 1, Bucket.mk 295 1, Bucket.mk 2472 1, Bucket.mk 8185 1, Bucket.mk 9573 1, Bucket.mk 2329 1, Bucket.mk 3751 1, Bucket.mk 10219 1, Bucket.mk 3495 1, Bucket.mk 10220 1, Bucket.mk 9849 1, Bucket.mk 1848 1, Bucket.mk 1465 1, Bucket.mk 2076 1, Bucket.mk 446 1, Bucket.mk 2862 1, Bucket.mk 686 1, Bucket.mk 12013 1, Bucket.mk 9309 1, Bucket.mk 1565 1, Bucket.mk 7073 1, Bucket.mk 3357 1, Bucket.mk 12387 1, Bucket.mk 1822 1, Bucket.mk 11886 1, Bucket.mk 13280 1, Bucket.mk 13409 1, Bucket.mk 4388 1, Bucket.mk 6549 1, Bucket.mk 5393 1, Bucket.mk 14423 1, Bucket.mk 12759 1, Bucket.mk 14179 1, Bucket.mk 5395 1, Bucket.mk 4504 1, Bucket.mk 13540 1, Bucket.mk 6053 1, Bucket.mk 13035 1, Bucket.mk 6299 1, Bucket.mk 5398 1, Bucket.mk 6555 1, Bucket.mk 5927 1, Bucket.mk 13929 1, Bucket.mk 5145 1, Bucket.mk 13912 1, Bucket.mk 12270 1, Bucket.mk 4526 1, Bucket.mk 5914 1, Bucket.mk 13151 1, Bucket.mk 14029 1, Bucket.mk 657 1, Bucket.mk 2832 1, Bucket.mk 8093 1, Bucket.mk 5148 1, Bucket.mk 5518 1, Bucket.mk 8978 1, Bucket.mk 10643 1, Bucket.mk 8210 1, Bucket.mk 10373 1, Bucket.mk 517 1, Bucket.mk 1921 1, Bucket.mk 1281 1, Bucket.mk 9363 1, Bucket.mk 9219 1, Bucket.mk 9111 1, Bucket.mk 775 1, Bucket.mk 153 1, Bucket.mk 264 1, Bucket.mk 9605 1, Bucket.mk 9477 1, Bucket.mk 3510 1, Bucket.mk 3127 1, Bucket.mk 1174 1, Bucket.mk 9991 1, Bucket.mk 908 1, Bucket.mk 8221 1, Bucket.mk 3465 1, Bucket.mk 540 1, Bucket.mk 9610 1, Bucket.mk 10303 1, Bucket.mk 654 1, Bucket.mk 8975 1, Bucket.mk 11405 1, Bucket.mk 4097 1, Bucket.mk 3517 1, Bucket.mk 9533 1, Bucket.mk 1470 1, Bucket.mk 6659 1, Bucket.mk 5043 1, Bucket.mk 4658 1, Bucket.mk 4532 1, Bucket.mk 5121 1, Bucket.mk 8097 1, Bucket.mk 14388 1, Bucket.mk 6279 1, Bucket.mk 14130 1, Bucket.mk 13747 1, Bucket.mk 4614 1, Bucket.mk 6841 1, Bucket.mk 5940 1, Bucket.mk 12472 1, Bucket.mk 13065 1, Bucket.mk 7351 1, Bucket.mk 14395 1, Bucket.mk 8103 1, Bucket.mk 14394 1, Bucket.mk 7592 1, Bucket.mk 14088 1, Bucket.mk 7101 1, Bucket.mk 12300 1, Bucket.mk 13230 1, Bucket.mk 6462 1, Bucket.mk 5039 1, Bucket.mk 4654 1, Bucket.mk 5548 1, Bucket.mk 625 1, Bucket.mk 7868 1, Bucket.mk 8736 1, Bucket.mk 8626 1, Bucket.mk 8243 1, Bucket.mk 738 1, Bucket.mk 5423 1, Bucket.mk 2032 1, Bucket.mk 1392 1, Bucket.mk 8868 1, Bucket.mk 3441 1, Bucket.mk 502 1, Bucket.mk 9267 1, Bucket.mk 3031 1, Bucket.mk 1891 1, Bucket.mk 9652 1, Bucket.mk 10281 1, Bucket.mk 8376 1, Bucket.mk 3156 1, Bucket.mk 2522 1, Bucket.mk 2155 1, Bucket.mk 3286 1, Bucket.mk 1399 1, Bucket.mk 2524 1, Bucket.mk 2157 1, Bucket.mk 748 1, Bucket.mk 10268 1, Bucket.mk 2799 1, Bucket.mk 1147 1, Bucket.mk 8623 1, Bucket.mk 1626 1, Bucket.mk 9885 1, Bucket.mk 12305 1, Bucket.mk 9884 1, Bucket.mk 11549 1, Bucket.mk 11439 1, Bucket.mk 0 0, Bucket.mk 0 0, Bucket.mk 0 0, Bucket.mk 0 0, Bucket.mk 0 0, Bucket.mk 0 0, Bucket.mk 0 0, Bucket.mk 0 0, Bucket.mk 0 0, Bucket.mk 0 0, Bucket.mk 0 0, Bucket.mk 0 0, Bucket.mk 0 0, Bucket.mk 0 0, Bucket.mk 0 0, Bucket.mk 0 0, Bucket.mk 0 0, Bucket.mk 0 0, Bucket.mk 0 0, Bucket.mk 0 0, Bucket.mk 0 0, Bucket.mk 0 0, Bucket.mk 0 0, Bucket.mk 0 0, Bucket.mk 0 0, Bucket.mk 0 0, Bucket.mk 0 0, Bucket.mk 0 0, Bucket.mk 0 0, Bucket.mk 0 0, Bucket.mk 0 0, Bucket.mk 0 0, Bucket.mk 0 0, Bucket.mk 0 0, Bucket.mk 0 0, Bucket.mk 0 0, Bucket.mk 0 0, Bucket.mk 0 0, Bucket.mk 0 0, Bucket.mk 0 0, Bucket.mk 0 0, Bucket.mk 0 0, Bucket.mk 0 0, Bucket.mk 0 0, Bucket.mk 0 0, Bucket.mk 0 0, Bucket.mk 0 0, Bucket.mk 0 0, Bucket.mk 0 0, Bucket.mk 0 0, Bucket.mk 0 0, Bucket.mk 0 0, Bucket.mk 0 0, Bucket.mk 0 0, Bucket.mk 0 0, Bucket.mk 0 0, Bucket.mk 0 0, Bucket.mk 0 0, Bucket.mk 0 0, Bucket.mk 0 0, Bucket.mk 0 0, Bucket.mk 0 0, Bucket.mk 0 0, Bucket.mk 0 0] 192
def c3stI4 : IBF := IBF.mk [0, 777777] [Bucket.mk 7437 0, Bucket.mk 4338 1, Bucket.mk 9854 1, Bucket.mk 7152 1, Bucket.mk 13680 1, Bucket.mk 13253 1, Bucket.mk 14145 1, Bucket.mk 4855 1, Bucket.mk 13126 1, Bucket.mk 4087 1, Bucket.mk 8051 1, Bucket.mk 5877 1, Bucket.mk 4472 1, Bucket.mk 12488 1, Bucket.mk 13177 1, Bucket.mk 14023 1, Bucket.mk 8038 1, Bucket.mk 13259 1, Bucket.mk 13179 1, Bucket.mk 7144 1, Bucket.mk 5448 1, Bucket.mk 4812 1, Bucket.mk 6780 1, Bucket.mk 12543 1, Bucket.mk 6255 1, Bucket.mk 14335 1, Bucket.mk 12926 1, Bucket.mk 5116 1, Bucket.mk 13421 1, Bucket.mk 5629 1, Bucket.mk 2736 1, Bucket.mk 8674 1, Bucket.mk 2739 1, Bucket.mk 7679 1, Bucket.mk 13422 1, Bucket.mk 2355 1, Bucket.mk 9329 1, Bucket.mk 3360 1, Bucket.mk 3505 1, Bucket.mk 2100 1, Bucket.mk 3986 1, Bucket.mk 9203 1, Bucket.mk 8551 1, Bucket.mk 295 1, Bucket.mk 2472 1, Bucket.mk 8185 1, Bucket.mk 9573 1, Bucket.mk 2329 1, Bucket.mk 3751 1, Bucket.mk 10219 1, Bucket.mk 3495 1, Bucket.mk 10220 1, Bucket.mk 9849 1, Bucket.mk 1848 1, Bucket.mk 1465 1, Bucket.mk 2076 1, Bucket.mk 446 1, Bucket.mk 2862 1, Bucket.mk 686 1, Bucket.mk 12013 1, Bucket.mk 9309 1, Bucket.mk 1565 1, Bucket.mk 7073 1, Bucket.mk 3357 1, Bucket.mk 12387 1, Bucket.mk 1822 1, Bucket.mk 11886 1, Bucket.mk 13280 1, Bucket.mk 13409 1, Bucket.mk 4388 1, Bucket.mk 6549 1, Bucket.mk 5393 1, Bucket.mk 14423 1, Bucket.mk 12759 1, Bucket.mk 14179 1, Bucket.mk 5395 1, Bucket.mk 4504 1, Bucket.mk 13540 1, Bucket.mk 6053 1, Bucket.mk 13035 1, Bucket.mk 6299 1, Bucket.mk 5398 1, Bucket.mk 6555 1, Bucket.mk 5927 1, Bucket.mk 13929 1, Bucket.mk 5145 1, Bucket.mk 13912 1, Bucket.mk 12270 1, Bucket.mk 4526 1, Bucket.mk 5914 1, Bucket.mk 13151 1, Bucket.mk 14029 1, Bucket.mk 657 1, Bucket.mk 2832 1, Bucket.mk 8093 1, Bucket.mk 5148 1, Bucket.mk 5518 1, Bucket.mk 8978 1, Bucket.mk 10643 1, Bucket.mk 8210 1, Bucket.mk 10373 1, Bucket.mk 517 1, Bucket.mk 1921 1, Bucket.mk 1281 1, Bucket.mk 9363 1, Bucket.mk 9219 1, Bucket.mk 9111 1, Bucket.mk 775 1, Bucket.mk 153 1, Bucket.mk 264 1, Bucket.mk 9605 1, Bucket.mk 9477 1, Bucket.mk 3510 1, Bucket.mk 3127 1, Bucket.mk 1174 1, Bucket.mk 9991 1, Bucket.mk 908 1, Bucket.mk 8221 1, Bucket.mk 3465 1, Bucket.mk 540 1, Bucket.mk 9610 1, Bucket.mk 10303 1, Bucket.mk 654 1, Bucket.mk 8975 1, Bucket.mk 11405 1, Bucket.mk 4097 1, Bucket.mk 3517 1, Bucket.mk 9533 1, Bucket.mk 1470 1, Bucket.mk 6659 1, Bucket.mk 5043 1, Bucket.mk 4658 1, Bucket.mk 4532 1, Bucket.mk 5121 1, Bucket.mk 8097 1, Bucket.mk 14388 1, Bucket.mk 6279 1, Bucket.mk 14130 1, Bucket.mk 13747 1, Bucket.mk 4614 1, Bucket.mk 6841 1, Bucket.mk 5940 1, Bucket.mk 12472 1, Bucket.mk 13065 1, Bucket.mk 7351 1, Bucket.mk 14395 1, Bucket.mk 8103 1, Bucket.mk 14394 1, Bucket.mk 7592 1, Bucket.mk 14088 1, Bucket.mk 7101 1, Bucket.mk 12300 1, Bucket.mk 13230 1, Bucket.mk 6462 1, Bucket.mk 5039 1, Bucket.mk 4654 1, Bucket.mk 5548 1, Bucket.mk 625 1, Bucket.mk 7868 1, Bucket.mk 8736 1, Bucket.mk 8626 1, Bucket.mk 8243 1, Bucket.mk 738 1, Bucket.mk 5423 1, Bucket.mk 2032 1, Bucket.mk 1392 1, Bucket.mk 8868 1, Bucket.mk 3441 1, Bucket.mk 502 1, Bucket.mk 9267 1, Bucket.mk 3031 1, Bucket.mk 1891 1, Bucket.mk 9652 1, Bucket.mk 10281 1, Bucket.mk 8376 1, Bucket.mk 3156 1, Bucket.mk 2522 1, Bucket.mk 2155 1, Bucket.mk 3286 1, Bucket.mk 1399 1, Bucket.mk 2524 1, Bucket.mk 2157 1, Bucket.mk 748 1, Bucket.mk 10268 1, Bucket.mk 2799 1, Bucket.mk 1147 1, Bucket.mk 8623 1, Bucket.mk 1626 1, Bucket.mk 9885 1, Bucket.mk 12305 1, Bucket.mk 9884 1, Bucket.mk 11549 1, Bucket.mk 11439 1, Bucket.mk 3950 1, Bucket.mk 3294 1, Bucket.mk 4451 1, Bucket.mk 5841 1, Bucket.mk 8032 1, Bucket.mk 6884 1, Bucket.mk 13344 1, Bucket.mk 5859 1, Bucket.mk 12582 1, Bucket.mk 7394 1, Bucket.mk 13330 1, Bucket.mk 6857 1, Bucket.mk 12841 1, Bucket.mk 14488 1, Bucket.mk 14360 1, Bucket.mk 4315 1, Bucket.mk 6219 1, Bucket.mk 7894 1, Bucket.mk 4698 1, Bucket.mk 5608 1, Bucket.mk 13592 1, Bucket.mk 4573 1, Bucket.mk 8025 1, Bucket.mk 6622 1, Bucket.mk 6751 1, Bucket.mk 5087 1, Bucket.mk 4686 1, Bucket.mk 6108 1, Bucket.mk 8273 1, Bucket.mk 2256 1, Bucket.mk 2112 1, Bucket.mk 9154 1, Bucket.mk 8771 1, Bucket.mk 6111 1, Bucket.mk 10579 1, Bucket.mk 4048 1, Bucket.mk 2117 1, Bucket.mk 8404 1, Bucket.mk 2373 1, Bucket.mk 2263 1, Bucket.mk 2374 1, Bucket.mk 3826 1, Bucket.mk 9047 1, Bucket.mk 984 1, Bucket.mk 1093 1, Bucket.mk 9924 1, Bucket.mk 9557 1, Bucket.mk 1478 1, Bucket.mk 3703 1, Bucket.mk 1479 1, Bucket.mk 2170 1, Bucket.mk 8413 1, Bucket.mk 2637 1, Bucket.mk 1752 1, Bucket.mk 3656 1, Bucket.mk 8399 1, Bucket.mk 2175 1, Bucket.mk 8703 1, Bucket.mk 1658 1, Bucket.mk 6385 1, Bucket.mk 3661 1, Bucket.mk 6129 1, Bucket.mk 4208 1, Bucket.mk 3582 1] 256
def c3stI5 : IBF := IBF.mk [0, 777777] [Bucket.mk 1358 1, Bucket.mk 4338 1, Bucket.mk 9854 1, Bucket.mk 7152 1, Bucket.mk 13680 1, Bucket.mk 13253 1, Bucket.mk 14145 1, Bucket.mk 4855 1, Bucket.mk 13126 1, Bucket.mk 4087 1, Bucket.mk 8051 1, Bucket.mk 5877 1, Bucket.mk 4472 1, Bucket.mk 12488 1, Bucket.mk 13177 1, Bucket.mk 14023 1, Bucket.mk 8038 1, Bucket.mk 13259 1, Bucket.mk 13179 1, Bucket.mk 7144 1, Bucket.mk 5448 1, Bucket.mk 4812 1, Bucket.mk 6780 1, Bucket.mk 12543 1, Bucket.mk 6255 1, Bucket.mk 14335 1, Bucket.mk 12926 1, Bucket.mk 5116 1, Bucket.mk 13421 1, Bucket.mk 5629 1, Bucket.mk 2736 1, Bucket.mk 8674 1, Bucket.mk 2739 1, Bucket.mk 7679 1, Bucket.mk 13422 1, Bucket.mk 2355 1, Bucket.mk 9329 1, Bucket.mk 3360 1, Bucket.mk 3505 1, Bucket.mk 2100 1, Bucket.mk 3986 1, Bucket.mk 9203 1, Bucket.mk 8551 1, Bucket.mk 295 1, Bucket.mk 2472 1, Bucket.mk 8185 1, Bucket.mk 9573 1, Bucket.mk 2329 1, Bucket.mk 3751 1, Bucket.mk 10219 1, Bucket.mk 3495 1, Bucket.mk 10220 1, Bucket.mk 9849 1, Bucket.mk 1848 1, Bucket.mk 1465 1, Bucket.mk 2076 1, Bucket.mk 446 1, Bucket.mk 2862 1, Bucket.mk 686 1, Bucket.mk 12013 1, Bucket.mk 9309 1, Bucket.mk 1565 1, Bucket.mk 7073 1, Bucket.mk 3357 1, Bucket.mk 12387 1, Bucket.mk 1822 1, Bucket.mk 11886 1, Bucket.mk 13280 1, Bucket.mk 13409 1, Bucket.mk 4388 1, Bucket.mk 6549 1, Bucket.mk 5393 1, Bucket.mk 14423 1, Bucket.mk 12759 1, Bucket.mk 14179 1, Bucket.mk 5395 1, Bucket.mk 4504 1, Bucket.mk 13540 1, Bucket.mk 6053 1, Bucket.mk 13035 1, Bucket.mk 6299 1, Bucket.mk 5398 1, Bucket.mk 6555 1, Bucket.mk 5927 1, Bucket.mk 13929 1, Bucket.mk 5145 1, Bucket.mk 13912 1, Bucket.mk 12270 1, Bucket.mk 4526 1, Bucket.mk 5914 1, Bucket.mk 13151 1, Bucket.mk 14029 1, Bucket.mk 657 1, Bucket.mk 2832 1, Bucket.mk 8093 1, Bucket.mk 5148 1, Bucket.mk 5518 1, Bucket.mk 8978 1, Bucket.mk 10643 1, Bucket.mk 8210 1, Bucket.mk 10373 1, Bucket.mk 517 1, Bucket.mk 1921 1, Bucket.mk 1281 1, Bucket.mk 9363 1, Bucket.mk 9219 1, Bucket.mk 9111 1, Bucket.mk 775 1, Bucket.mk 153 1, Bucket.mk 264 1, Bucket.mk 9605 1, Bucket.mk 9477 1, Bucket.mk 3510 1, Bucket.mk 3127 1, Bucket.mk 1174 1, Bucket.mk 9991 1, Bucket.mk 908 1, Bucket.mk 8221 1, Bucket.mk 3465 1, Bucket.mk 540 1, Bucket.mk 9610 1, Bucket.mk 10303 1, Bucket.mk 654 1, Bucket.mk 8975 1, Bucket.mk 11405 1, Bucket.mk 4097 1, Bucket.mk 3517 1, Bucket.mk 9533 1, Bucket.mk 1470 1, Bucket.mk 6659 1, Bucket.mk 5043 1, Bucket.mk 4658 1, Bucket.mk 4532 1, Bucket.mk 5121 1, Bucket.mk 8097 1, Bucket.mk 14388 1, Bucket.mk 6279 1, Bucket.mk 14130 1, Bucket.mk 13747 1, Bucket.mk 4614 1, Bucket.mk 6841 1, Bucket.mk 5940 1, Bucket.mk 12472 1, Bucket.mk 13065 1, Bucket.mk 7351 1, Bucket.mk 14395 1, Bucket.mk 8103 1, Bucket.mk 14394 1, Bucket.mk 7592 1, Bucket.mk 14088 1, Bucket.mk 7101 1, Bucket.mk 12300 1, Bucket.mk 13230 1, Bucket.mk 6462 1, Bucket.mk 5039 1, Bucket.mk 4654 1, Bucket.mk 5548 1, Bucket.mk 625 1, Bucket.mk 7868 1, Bucket.mk 8736 1, Bucket.mk 8626 1, Bucket.mk 8243 1, Bucket.mk 738 1, Bucket.mk 5423 1, Bucket.mk 2032 1, Bucket.mk 1392 1, Bucket.mk 8868 1, Bucket.mk 3441 1, Bucket.mk 502 1, Bucket.mk 9267 1, Bucket.mk 3031 1, Bucket.mk 1891 1, Bucket.mk 9652 1, Bucket.mk 10281 1, Bucket.mk 8376 1, Bucket.mk 3156 1, Bucket.mk 2522 1, Bucket.mk 2155 1, Bucket.mk 3286 1, Bucket.mk 1399 1, Bucket.mk 2524 1, Bucket.mk 2157 1, Bucket.mk 748 1, Bucket.mk 10268 1, Bucket.mk 2799 1, Bucket.mk 1147 1, Bucket.mk 8623 1, Bucket.mk 1626 1, Bucket.mk 9885 1, Bucket.mk 12305 1, Bucket.mk 9884 1, Bucket.mk 11549 1, Bucket.mk 11439 1, Bucket.mk 3950 1, Bucket.mk 3294 1, Bucket.mk 4451 1, Bucket.mk 5841 1, Bucket.mk 8032 1, Bucket.mk 6884 1, Bucket.mk 13344 1, Bucket.mk 5859 1, Bucket.mk 12582 1, Bucket.mk 7394 1, Bucket.mk 13330 1, Bucket.mk 6857 1, Bucket.mk 12841 1, Bucket.mk 14488 1, Bucket.mk 14360 1, Bucket.mk 4315 1, Bucket.mk 6219 1, Bucket.mk 7894 1, Bucket.mk 4698 1, Bucket.mk 5608 1, Bucket.mk 13592 1, Bucket.mk 4573 1, Bucket.mk 8025 1, Bucket.mk 6622 1, Bucket.mk 6751 1, Bucket.mk 5087 1, Bucket.mk 4686 1, Bucket.mk 6108 1, Bucket.mk 8273 1, Bucket.mk 2256 1, Bucket.mk 2112 1, Bucket.mk 9154 1, Bucket.mk 8771 1, Bucket.mk 6111 1, Bucket.mk 10579 1, Bucket.mk 4048 1, Bucket.mk 2117 1, Bucket.mk 8404 1, Bucket.mk 2373 1, Bucket.mk 2263 1, Bucket.mk 2374 1, Bucket.mk 3826 1, Bucket.mk 9047 1, Bucket.mk 984 1, Bucket.mk 1093 1, Bucket.mk 9924 1, Bucket.mk 9557 1, Bucket.mk 1478 1, Bucket.mk 3703 1, Bucket.mk 1479 1, Bucket.mk 2170 1, Bucket.mk 8413 1, Bucket.mk 2637 1, Bucket.mk 1752 1, Bucket.mk 3656 1, Bucket.mk 8399 1, Bucket.mk 2175 1, Bucket.mk 8703 1, Bucket.mk 1658 1, Bucket.mk 6385 1, Bucket.mk 3661 1, Bucket.mk 6129 1, Bucket.mk 4208 1, Bucket.mk 3582 1] 257
def c3stRem : IBF := IBF.mk [0, 777777] [Bucket.mk 0 0, Bucket.mk 4338 1, Bucket.mk 9854 1, Bucket.mk 7152 1, Bucket.mk 13680 1, Bucket.mk 13253 1, Bucket.mk 14145 1, Bucket.mk 4855 1, Bucket.mk 13126 1, Bucket.mk 4087 1, Bucket.mk 8051 1, Bucket.mk 5877 1, Bucket.mk 4472 1, Bucket.mk 12488 1, Bucket.mk 13177 1, Bucket.mk 14023 1, Bucket.mk 8038 1, Bucket.mk 13259 1, Bucket.mk 13179 1, Bucket.mk 7144 1, Bucket.mk 5448 1, Bucket.mk 4812 1, Bucket.mk 6780 1, Bucket.mk 12543 1, Bucket.mk 6255 1, Bucket.mk 14335 1, Bucket.mk 12926 1, Bucket.mk 5116 1, Bucket.mk 13421 1, Bucket.mk 5629 1, Bucket.mk 2736 1, Bucket.mk 8674 1, Bucket.mk 2739 1, Bucket.mk 7679 1, Bucket.mk 13422 1, Bucket.mk 2355 1, Bucket.mk 9329 1, Bucket.mk 3360 1, Bucket.mk 3505 1, Bucket.mk 2100 1, Bucket.mk 3986 1, Bucket.mk 9203 1, Bucket.mk 8551 1, Bucket.mk 295 1, Bucket.mk 2472 1, Bucket.mk 8185 1, Bucket.mk 9573 1, Bucket.mk 2329 1, Bucket.mk 3751 1, Bucket.mk 10219 1, Bucket.mk 3495 1, Bucket.mk 10220 1, Bucket.mk 9849 1, Bucket.mk 1848 1, Bucket.mk 1465 1, Bucket.mk 2076 1, Bucket.mk 446 1, Bucket.mk 2862 1, Bucket.mk 686 1, Bucket.mk 12013 1, Bucket.mk 9309 1, Bucket.mk 1565 1, Bucket.mk 7073 1, Bucket.mk 3357 1, Bucket.mk 12387 1, Bucket.mk 1822 1, Bucket.mk 11886 1, Bucket.mk 13280 1, Bucket.mk 13409 1, Bucket.mk 4388 1, Bucket.mk 6549 1, Bucket.mk 5393 1, Bucket.mk 14423 1, Bucket.mk 12759 1, Bucket.mk 14179 1, Bucket.mk 5395 1, Bucket.mk 4504 1, Bucket.mk 13540 1, Bucket.mk 6053 1, Bucket.mk 13035 1, Bucket.mk 6299 1, Bucket.mk 5398 1, Bucket.mk 6555 1, Bucket.mk 5927 1, Bucket.mk 13929 1, Bucket.mk 5145 1, Bucket.mk 13912 1, Bucket.mk 12270 1, Bucket.mk 4526 1, Bucket.mk 5914 1, Bucket.mk 13151 1, Bucket.mk 14029 1, Bucket.mk 657 1, Bucket.mk 2832 1, Bucket.mk 8093 1, Bucket.mk 5148 1, Bucket.mk 5518 1, Bucket.mk 8978 1, Bucket.mk 10643 1, Bucket.mk 8210 1, Bucket.mk 10373 1, Bucket.mk 517 1, Bucket.mk 1921 1, Bucket.mk 1281 1, Bucket.mk 9363 1, Bucket.mk 9219 1, Bucket.mk 9111 1, Bucket.mk 775 1, Bucket.mk 153 1, Bucket.mk 264 1, Bucket.mk 9605 1, Bucket.mk 9477 1, Bucket.mk 3510 1, Bucket.mk 3127 1, Bucket.mk 1174 1, Bucket.mk 9991 1, Bucket.mk 908 1, Bucket.mk 8221 1, Bucket.mk 3465 1, Bucket.mk 540 1, Bucket.mk 9610 1, Bucket.mk 10303 1, Bucket.mk 654 1, Bucket.mk 8975 1, Bucket.mk 11405 1, Bucket.mk 4097 1, Bucket.mk 3517 1, Bucket.mk 9533 1, Bucket.mk 1470 1, Bucket.mk 6659 1, Bucket.mk 5043 1, Bucket.mk 4658 1, Bucket.mk 4532 1, Bucket.mk 5121 1, Bucket.mk 8097 1, Bucket.mk 14388 1, Bucket.mk 6279 1, Bucket.mk 14130 1, Bucket.mk 13747 1, Bucket.mk 4614 1, Bucket.mk 6841 1, Bucket.mk 5940 1, Bucket.mk 12472 1, Bucket.mk 13065 1, Bucket.mk 7351 1, Bucket.mk 14395 1, Bucket.mk 8103 1, Bucket.mk 14394 1, Bucket.mk 7592 1, Bucket.mk 14088 1, Bucket.mk 7101 1, Bucket.mk 12300 1, Bucket.mk 13230 1, Bucket.mk 6462 1, Bucket.mk 5039 1, Bucket.mk 4654 1, Bucket.mk 5548 1, Bucket.mk 625 1, Bucket.mk 7868 1, Bucket.mk 8736 1, Bucket.mk 8626 1, Bucket.mk 8243 1, Bucket.mk 738 1, Bucket.mk 5423 1, Bucket.mk 2032 1, Bucket.mk 1392 1, Bucket.mk 8868 1, Bucket.mk 3441 1, Bucket.mk 502 1, Bucket.mk 9267 1, Bucket.mk 3031 1, Bucket.mk 1891 1, Bucket.mk 9652 1, Bucket.mk 10281 1, Bucket.mk 8376 1, Bucket.mk 3156 1, Bucket.mk 2522 1, Bucket.mk 2155 1, Bucket.mk 3286 1, Bucket.mk 1399 1, Bucket.mk 2524 1, Bucket.mk 2157 1, Bucket.mk 748 1, Bucket.mk 10268 1, Bucket.mk 2799 1, Bucket.mk 1147 1, Bucket.mk 8623 1, Bucket.mk 1626 1, Bucket.mk 9885 1, Bucket.mk 12305 1, Bucket.mk 9884 1, Bucket.mk 11549 1, Bucket.mk 11439 1, Bucket.mk 3950 1, Bucket.mk 3294 1, Bucket.mk 4451 1, Bucket.mk 5841 1, Bucket.mk 8032 1, Bucket.mk 6884 1, Bucket.mk 13344 1, Bucket.mk 5859 1, Bucket.mk 12582 1, Bucket.mk 7394 1, Bucket.mk 13330 1, Bucket.mk 6857 1, Bucket.mk 12841 1, Bucket.mk 14488 1, Bucket.mk 14360 1, Bucket.mk 4315 1, Bucket.mk 6219 1, Bucket.mk 7894 1, Bucket.mk 4698 1, Bucket.mk 5608 1, Bucket.mk 13592 1, Bucket.mk 4573 1, Bucket.mk 8025 1, Bucket.mk 6622 1, Bucket.mk 6751 1, Bucket.mk 5087 1, Bucket.mk 4686 1, Bucket.mk 6108 1, Bucket.mk 8273 1, Bucket.mk 2256 1, Bucket.mk 2112 1, Bucket.mk 9154 1, Bucket.mk 8771 1, Bucket.mk 6111 1, Bucket.mk 10579 1, Bucket.mk 4048 1, Bucket.mk 2117 1, Bucket.mk 8404 1, Bucket.mk 2373 1, Bucket.mk 2263 1, Bucket.mk 2374 1, Bucket.mk 3826 1, Bucket.mk 9047 1, Bucket.mk 984 1, Bucket.mk 1093 1, Bucket.mk 9924 1, Bucket.mk 9557 1, Bucket.mk 1478 1, Bucket.mk 3703 1, Bucket.mk 1479 1, Bucket.mk 2170 1, Bucket.mk 8413 1, Bucket.mk 2637 1, Bucket.mk 1752 1, Bucket.mk 3656 1, Bucket.mk 8399 1, Bucket.mk 2175 1, Bucket.mk 8703 1, Bucket.mk 1658 1, Bucket.mk 6385 1, Bucket.mk 3661 1, Bucket.mk 6129 1, Bucket.mk 4208 1, Bucket.mk 3582 1] 256
def c3r1 : List Nat := [0, 1, 2, 3, 4, 5, 6, 7, 8, 9, 10, 11, 12, 13, 14, 15, 16, 17, 18, 19, 20, 21, 22, 23, 24, 25, 26, 27, 28, 29, 30, 31]
def c3r2 : List Nat := [32, 33, 34, 35, 36, 37, 38, 39, 40, 41, 42, 43, 44, 45, 46, 47, 48, 49, 50, 51, 52, 53, 54, 55, 56, 57, 58, 59, 60, 61, 62, 63]
def c3r3 : List Nat := [64, 65, 66, 67, 68, 69, 70, 71, 72, 73, 74, 75, 76, 77, 78, 79, 80, 81, 82, 83, 84, 85, 86, 87, 88, 89, 90, 91, 92, 93, 94, 95]
def c3r4 : List Nat := [96, 97, 98, 99, 100, 101, 102, 103, 104, 105, 106, 107, 108, 109, 110, 111, 112, 113, 114, 115, 116, 117, 118, 119, 120, 121, 122, 123, 124, 125, 126, 127]
def c3r5 : List Nat := [128, 129, 130, 131, 132, 133, 134, 135, 136, 137, 138, 139, 140, 141, 142, 143, 144, 145, 146, 147, 148, 149, 150, 151, 152, 153, 154, 155, 156, 157, 158, 159]
def c3r6 : List Nat := [160, 161, 162, 163, 164, 165, 166, 167, 168, 169, 170, 171, 172, 173, 174, 175, 176, 177, 178, 179, 180, 181, 182, 183, 184, 185, 186, 187, 188, 189, 190, 191]
def c3r7 : List Nat := [192, 193, 194, 195, 196, 197, 198, 199, 200, 201, 202, 203, 204, 205, 206, 207, 208, 209, 210, 211, 212, 213, 214, 215, 216, 217, 218, 219, 220, 221, 222, 223]
def c3r8 : List Nat := [224, 225, 226, 227, 228, 229, 230, 231, 232, 233, 234, 235, 236, 237, 238, 239, 240, 241, 242, 243, 244, 245, 246, 247, 248, 249, 250, 251, 252, 253, 254, 255]
def c3r9 : List Nat := [256]
def c3sS1 : IBF := IBF.mk [0, 777777] [Bucket.mk 12975 225, Bucket.mk 0 0, Bucket.mk 0 0, Bucket.mk 0 0, Bucket.mk 0 0, Bucket.mk 0 0, Bucket.mk 0 0, Bucket.mk 0 0, Bucket.mk 0 0, Bucket.mk 0 0, Bucket.mk 0 0, Bucket.mk 0 0, Bucket.mk 0 0, Bucket.mk 0 0, Bucket.mk 0 0, Bucket.mk 0 0, Bucket.mk 0 0, Bucket.mk 0 0, Bucket.mk 0 0, Bucket.mk 0 0, Bucket.mk 0 0, Bucket.mk 0 0, Bucket.mk 0 0, Bucket.mk 0 0, Bucket.mk 0 0, Bucket.mk 0 0, Bucket.mk 0 0, Bucket.mk 0 0, Bucket.mk 0 0, Bucket.mk 0 0, Bucket.mk 0 0, Bucket.mk 0 0, Bucket.mk 2739 1, Bucket.mk 7679 1, Bucket.mk 13422 1, Bucket.mk 2355 1, Bucket.mk 9329 1, Bucket.mk 3360 1, Bucket.mk 3505 1, Bucket.mk 2100 1, Bucket.mk 3986 1, Bucket.mk 9203 1, Bucket.mk 8551 1, Bucket.mk 295 1, Bucket.mk 2472 1, Bucket.mk 8185 1, Bucket.mk 9573 1, Bucket.mk 2329 1, Bucket.mk 3751 1, Bucket.mk 10219 1, Bucket.mk 3495 1, Bucket.mk 10220 1, Bucket.mk 9849 1, Bucket.mk 1848 1, Bucket.mk 1465 1, Bucket.mk 2076 1, Bucket.mk 446 1, Bucket.mk 2862 1, Bucket.mk 686 1, Bucket.mk 12013 1, Bucket.mk 9309 1, Bucket.mk 1565 1, Bucket.mk 7073 1, Bucket.mk 3357 1, Bucket.mk 12387 1, Bucket.mk 1822 1, Bucket.mk 11886 1, Bucket.mk 13280 1, Bucket.mk 13409 1, Bucket.mk 4388 1, Bucket.mk 6549 1, Bucket.mk 5393 1, Bucket.mk 14423 1, Bucket.mk 12759 1, Bucket.mk 14179 1, Bucket.mk 5395 1, Bucket.mk 4504 1, Bucket.mk 13540 1, Bucket.mk 6053 1, Bucket.mk 13035 1, Bucket.mk 6299 1, Bucket.mk 5398 1, Bucket.mk 6555 1, Bucket.mk 5927 1, Bucket.mk 13929 1, Bucket.mk 5145 1, Bucket.mk 13912 1, Bucket.mk 12270 1, Bucket.mk 4526 1, Bucket.mk 5914 1, Bucket.mk 13151 1, Bucket.mk 14029 1, Bucket.mk 657 1, Bucket.mk 2832 1, Bucket.mk 8093 1, Bucket.mk 5148 1, Bucket.mk 5518 1, Bucket.mk 8978 1, Bucket.mk 10643 1, Bucket.mk 8210 1, Bucket.mk 10373 1, Bucket.mk 517 1, Bucket.mk 1921 1, Bucket.mk 1281 1, Bucket.mk 9363 1, Bucket.mk 9219 1, Bucket.mk 9111 1, Bucket.mk 775 1, Bucket.mk 153 1, Bucket.mk 264 1, Bucket.mk 9605 1, Bucket.mk 9477 1, Bucket.mk 3510 1, Bucket.mk 3127 1, Bucket.mk 1174 1, Bucket.mk 9991 1, Bucket.mk 908 1, Bucket.mk 8221 1, Bucket.mk 3465 1, Bucket.mk 540 1, Bucket.mk 9610 1, Bucket.mk 10303 1, Bucket.mk 654 1, Bucket.mk 8975 1, Bucket.mk 11405 1, Bucket.mk 4097 1, Bucket.mk 3517 1, Bucket.mk 9533 1, Bucket.mk 1470 1, Bucket.mk 6659 1, Bucket.mk 5043 1, Bucket.mk 4658 1, Bucket.mk 4532 1, Bucket.mk 5121 1, Bucket.mk 8097 1, Bucket.mk 14388 1, Bucket.mk 6279 1, Bucket.mk 14130 1, Bucket.mk 13747 1, Bucket.mk 4614 1, Bucket.mk 6841 1, Bucket.mk 5940 1, Bucket.mk 12472 1, Bucket.mk 13065 1, Bucket.mk 7351 1, Bucket.mk 14395 1, Bucket.mk 8103 1, Bucket.mk 14394 1, Bucket.mk 7592 1, Bucket.mk 14088 1, Bucket.mk 7101 1, Bucket.mk 12300 1, Bucket.mk 13230 1, Bucket.mk 6462 1, Bucket.mk 5039 1, Bucket.mk 4654 1, Bucket.mk 5548 1, Bucket.mk 625 1, Bucket.mk 7868 1, Bucket.mk 8736 1, Bucket.mk 8626 1, Bucket.mk 8243 1, Bucket.mk 738 1, Bucket.mk 5423 1, Bucket.mk 2032 1, Bucket.mk 1392 1, Bucket.mk 8868 1, Bucket.mk 3441 1, Bucket.mk 502 1, Bucket.mk 9267 1, Bucket.mk 3031 1, Bucket.mk 1891 1, Bucket.mk 9652 1, Bucket.mk 10281 1, Bucket.mk 8376 1, Bucket.mk 3156 1, Bucket.mk 2522 1, Bucket.mk 2155 1, Bucket.mk 3286 1, Bucket.mk 1399 1, Bucket.mk 2524 1, Bucket.mk 2157 1, Bucket.mk 748 1, Bucket.mk 10268 1, Bucket.mk 2799 1, Bucket.mk 1147 1, Bucket.mk 8623 1, Bucket.mk 1626 1, Bucket.mk 9885 1, Bucket.mk 12305 1, Bucket.mk 9884 1, Bucket.mk 11549 1, Bucket.mk 11439 1, Bucket.mk 3950 1, Bucket.mk 3294 1, Bucket.mk 4451 1, Bucket.mk 5841 1, Bucket.mk 8032 1, Bucket.mk 6884 1, Bucket.mk 13344 1, Bucket.mk 5859 1, Bucket.mk 12582 1, Bucket.mk 7394 1, Bucket.mk 13330 1, Bucket.mk 6857 1, Bucket.mk 12841 1, Bucket.mk 14488 1, Bucket.mk 14360 1, Bucket.mk 4315 1, Bucket.mk 6219 1, Bucket.mk 7894 1, Bucket.mk 4698 1, Bucket.mk 5608 1, Bucket.mk 13592 1, Bucket.mk 4573 1, Bucket.mk 8025 1, Bucket.mk 6622 1, Bucket.mk 6751 1, Bucket.mk 5087 1, Bucket.mk 4686 1, Bucket.mk 6108 1, Bucket.mk 8273 1, Bucket.mk 2256 1, Bucket.mk 2112 1, Bucket.mk 9154 1, Bucket.mk 8771 1, Bucket.mk 6111 1, Bucket.mk 10579 1, Bucket.mk 4048 1, Bucket.mk 2117 1, Bucket.mk 8404 1, Bucket.mk 2373 1, Bucket.mk 2263 1, Bucket.mk 2374 1, Bucket.mk 3826 1, Bucket.mk 9047 1, Bucket.mk 984 1, Bucket.mk 1093 1, Bucket.mk 9924 1, Bucket.mk 9557 1, Bucket.mk 1478 1, Bucket.mk 3703 1, Bucket.mk 1479 1, Bucket.mk 2170 1, Bucket.mk 8413 1, Bucket.mk 2637 1, Bucket.mk 1752 1, Bucket.mk 3656 1, Bucket.mk 8399 1, Bucket.mk 2175 1, Bucket.mk 8703 1, Bucket.mk 1658 1, Bucket.mk 6385 1, Bucket.mk 3661 1, Bucket.mk 6129 1, Bucket.mk 4208 1, Bucket.mk 3582 1] 225
def c3res1 : List Nat := [4338, 9854, 7152, 13680, 13253, 14145, 4855, 13126, 4087, 8051, 5877, 4472, 12488, 13177, 14023, 8038, 13259, 13179, 7144, 5448, 4812, 6780, 12543, 6255, 14335, 12926, 5116, 13421, 5629, 2736, 8674]
def c3sS2 : IBF := IBF.mk [0, 777777] [Bucket.mk 16298 193, Bucket.mk 0 0, Bucket.mk 0 0, Bucket.mk 0 0, Bucket.mk 0 0, Bucket.mk 0 0, Bucket.mk 0 0, Bucket.mk 0 0, Bucket.mk 0 0, Bucket.mk 0 0, Bucket.mk 0 0, Bucket.mk 0 0, Bucket.mk 0 0, Bucket.mk 0 0, Bucket.mk 0 0, Bucket.mk 0 0, Bucket.mk 0 0, Bucket.mk 0 0, Bucket.mk 0 0, Bucket.mk 0 0, Bucket.mk 0 0, Bucket.mk 0 0, Bucket.mk 0 0, Bucket.mk 0 0, Bucket.mk 0 0, Bucket.mk 0 0, Bucket.mk 0 0, Bucket.mk 0 0, Bucket.mk 0 0, Bucket.mk 0 0, Bucket.mk 0 0, Bucket.mk 0 0, Bucket.mk 0 0, Bucket.mk 0 0, Bucket.mk 0 0, Bucket.mk 0 0, Bucket.mk 0 0, Bucket.mk 0 0, Bucket.mk 0 0, Bucket.mk 0 0, Bucket.mk 0 0, Bucket.mk 0 0, Bucket.mk 0 0, Bucket.mk 0 0, Bucket.mk 0 0, Bucket.mk 0 0, Bucket.mk 0 0, Bucket.mk 0 0, Bucket.mk 0 0, Bucket.mk 0 0, Bucket.mk 0 0, Bucket.mk 0 0, Bucket.mk 0 0, Bucket.mk 0 0, Bucket.mk 0 0, Bucket.mk 0 0, Bucket.mk 0 0, Bucket.mk 0 0, Bucket.mk 0 0, Bucket.mk 0 0, Bucket.mk 0 0, Bucket.mk 0 0, Bucket.mk 0 0, Bucket.mk 0 0, Bucket.mk 12387 1, Bucket.mk 1822 1, Bucket.mk 11886 1, Bucket.mk 13280 1, Bucket.mk 13409 1, Bucket.mk 4388 1, Bucket.mk 6549 1, Bucket.mk 5393 1, Bucket.mk 14423 1, Bucket.mk 12759 1, Bucket.mk 14179 1, Bucket.mk 5395 1, Bucket.mk 4504 1, Bucket.mk 13540 1, Bucket.mk 6053 1, Bucket.mk 13035 1, Bucket.mk 6299 1, Bucket.mk 5398 1, Bucket.mk 6555 1, Bucket.mk 5927 1, Bucket.mk 13929 1, Bucket.mk 5145 1, Bucket.mk 13912 1, Bucket.mk 12270 1, Bucket.mk 4526 1, Bucket.mk 5914 1, Bucket.mk 13151 1, Bucket.mk 14029 1, Bucket.mk 657 1, Bucket.mk 2832 1, Bucket.mk 8093 1, Bucket.mk 5148 1, Bucket.mk 5518 1, Bucket.mk 8978 1, Bucket.mk 10643 1, Bucket.mk 8210 1, Bucket.mk 10373 1, Bucket.mk 517 1, Bucket.mk 1921 1, Bucket.mk 1281 1, Bucket.mk 9363 1, Bucket.mk 9219 1, Bucket.mk 9111 1, Bucket.mk 775 1, Bucket.mk 153 1, Bucket.mk 264 1, Bucket.mk 9605 1, Bucket.mk 9477 1, Bucket.mk 3510 1, Bucket.mk 3127 1, Bucket.mk 1174 1, Bucket.mk 9991 1, Bucket.mk 908 1, Bucket.mk 8221 1, Bucket.mk 3465 1, Bucket.mk 540 1, Bucket.mk 9610 1, Bucket.mk 10303 1, Bucket.mk 654 1, Bucket.mk 8975 1, Bucket.mk 11405 1, Bucket.mk 4097 1, Bucket.mk 3517 1, Bucket.mk 9533 1, Bucket.mk 1470 1, Bucket.mk 6659 1, Bucket.mk 5043 1, Bucket.mk 4658 1, Bucket.mk 4532 1, Bucket.mk 5121 1, Bucket.mk 8097 1, Bucket.mk 14388 1, Bucket.mk 6279 1, Bucket.mk 14130 1, Bucket.mk 13747 1, Bucket.mk 4614 1, Bucket.mk 6841 1, Bucket.mk 5940 1, Bucket.mk 12472 1, Bucket.mk 13065 1, Bucket.mk 7351 1, Bucket.mk 14395 1, Bucket.mk 8103 1, Bucket.mk 14394 1, Bucket.mk 7592 1, Bucket.mk 14088 1, Bucket.mk 7101 1, Bucket.mk 12300 1, Bucket.mk 13230 1, Bucket.mk 6462 1, Bucket.mk 5039 1, Bucket.mk 4654 1, Bucket.mk 5548 1, Bucket.mk 625 1, Bucket.mk 7868 1, Bucket.mk 8736 1, Bucket.mk 8626 1, Bucket.mk 8243 1, Bucket.mk 738 1, Bucket.mk 5423 1, Bucket.mk 2032 1, Bucket.mk 1392 1, Bucket.mk 8868 1, Bucket.mk 3441 1, Bucket.mk 502 1, Bucket.mk 9267 1, Bucket.mk 3031 1, Bucket.mk 1891 1, Bucket.mk 9652 1, Bucket.mk 10281 1, Bucket.mk 8376 1, Bucket.mk 3156 1, Bucket.mk 2522 1, Bucket.mk 2155 1, Bucket.mk 3286 1, Bucket.mk 1399 1, Bucket.mk 2524 1, Bucket.mk 2157 1, Bucket.mk 748 1, Bucket.mk 10268 1, Bucket.mk 2799 1, Bucket.mk 1147 1, Bucket.mk 8623 1, Bucket.mk 1626 1, Bucket.mk 9885 1, Bucket.mk 12305 1, Bucket.mk 9884 1, Bucket.mk 11549 1, Bucket.mk 11439 1, Bucket.mk 3950 1, Bucket.mk 3294 1, Bucket.mk 4451 1, Bucket.mk 5841 1, Bucket.mk 8032 1, Bucket.mk 6884 1, Bucket.mk 13344 1, Bucket.mk 5859 1, Bucket.mk 12582 1, Bucket.mk 7394 1, Bucket.mk 13330 1, Bucket.mk 6857 1, Bucket.mk 12841 1, Bucket.mk 14488 1, Bucket.mk 14360 1, Bucket.mk 4315 1, Bucket.mk 6219 1, Bucket.mk 7894 1, Bucket.mk 4698 1, Bucket.mk 5608 1, Bucket.mk 13592 1, Bucket.mk 4573 1, Bucket.mk 8025 1, Bucket.mk 6622 1, Bucket.mk 6751 1, Bucket.mk 5087 1, Bucket.mk 4686 1, Bucket.mk 6108 1, Bucket.mk 8273 1, Bucket.mk 2256 1, Bucket.mk 2112 1, Bucket.mk 9154 1, Bucket.mk 8771 1, Bucket.mk 6111 1, Bucket.mk 10579 1, Bucket.mk 4048 1, Bucket.mk 2117 1, Bucket.mk 8404 1, Bucket.mk 2373 1, Bucket.mk 2263 1, Bucket.mk 2374 1, Bucket.mk 3826 1, Bucket.mk 9047 1, Bucket.mk 984 1, Bucket.mk 1093 1, Bucket.mk 9924 1, Bucket.mk 9557 1, Bucket.mk 1478 1, Bucket.mk 3703 1, Bucket.mk 1479 1, Bucket.mk 2170 1, Bucket.mk 8413 1, Bucket.mk 2637 1, Bucket.mk 1752 1, Bucket.mk 3656 1, Bucket.mk 8399 1, Bucket.mk 2175 1, Bucket.mk 8703 1, Bucket.mk 1658 1, Bucket.mk 6385 1, Bucket.mk 3661 1, Bucket.mk 6129 1, Bucket.mk 4208 1, Bucket.mk 3582 1] 193
def c3res2 : List Nat := [4338, 9854, 7152, 13680, 13253, 14145, 4855, 13126, 4087, 8051, 5877, 4472, 12488, 13177, 14023, 8038, 13259, 13179, 7144, 5448, 4812, 6780, 12543, 6255, 14335, 12926, 5116, 13421, 5629, 2736, 8674, 2739, 7679, 13422, 2355, 9329, 3360, 3505, 2100, 3986, 9203, 8551, 295, 2472, 8185, 9573, 2329, 3751, 10219, 3495, 10220, 9849, 1848, 1465, 2076, 446, 2862, 686, 12013, 9309, 1565, 7073, 3357]
def c3sS3 : IBF := IBF.mk [0, 777777] [Bucket.mk 11915 161, Bucket.mk 0 0, Bucket.mk 0 0, Bucket.mk 0 0, Bucket.mk 0 0, Bucket.mk 0 0, Bucket.mk 0 0, Bucket.mk 0 0, Bucket.mk 0 0, Bucket.mk 0 0, Bucket.mk 0 0, Bucket.mk 0 0, Bucket.mk 0 0, Bucket.mk 0 0, Bucket.mk 0 0, Bucket.mk 0 0, Bucket.mk 0 0, Bucket.mk 0 0, Bucket.mk 0 0, Bucket.mk 0 0, Bucket.mk 0 0, Bucket.mk 0 0, Bucket.mk 0 0, Bucket.mk 0 0, Bucket.mk 0 0, Bucket.mk 0 0, Bucket.mk 0 0, Bucket.mk 0 0, Bucket.mk 0 0, Bucket.mk 0 0, Bucket.mk 0 0, Bucket.mk 0 0, Bucket.mk 0 0, Bucket.mk 0 0, Bucket.mk 0 0, Bucket.mk 0 0, Bucket.mk 0 0, Bucket.mk 0 0, Bucket.mk 0 0, Bucket.mk 0 0, Bucket.mk 0 0, Bucket.mk 0 0, Bucket.mk 0 0, Bucket.mk 0 0, Bucket.mk 0 0, Bucket.mk 0 0, Bucket.mk 0 0, Bucket.mk 0 0, Bucket.mk 0 0, Bucket.mk 0 0, Bucket.mk 0 0, Bucket.mk 0 0, Bucket.mk 0 0, Bucket.mk 0 0, Bucket.mk 0 0, Bucket.mk 0 0, Bucket.mk 0 0, Bucket.mk 0 0, Bucket.mk 0 0, Bucket.mk 0 0, Bucket.mk 0 0, Bucket.mk 0 0, Bucket.mk 0 0, Bucket.mk 0 0, Bucket.mk 0 0, Bucket.mk 0 0, Bucket.mk 0 0, Bucket.mk 0 0, Bucket.mk 0 0, Bucket.mk 0 0, Bucket.mk 0 0, Bucket.mk 0 0, Bucket.mk 0 0, Bucket.mk 0 0, Bucket.mk 0 0, Bucket.mk 0 0, Bucket.mk 0 0, Bucket.mk 0 0, Bucket.mk 0 0, Bucket.mk 0 0, Bucket.mk 0 0, Bucket.mk 0 0, Bucket.mk 0 0, Bucket.mk 0 0, Bucket.mk 0 0, Bucket.mk 0 0, Bucket.mk 0 0, Bucket.mk 0 0, Bucket.mk 0 0, Bucket.mk 0 0, Bucket.mk 0 0, Bucket.mk 0 0, Bucket.mk 0 0, Bucket.mk 0 0, Bucket.mk 0 0, Bucket.mk 0 0, Bucket.mk 5518 1, Bucket.mk 8978 1, Bucket.mk 10643 1, Bucket.mk 8210 1, Bucket.mk 10373 1, Bucket.mk 517 1, Bucket.mk 1921 1, Bucket.mk 1281 1, Bucket.mk 9363 1, Bucket.mk 9219 1, Bucket.mk 9111 1, Bucket.mk 775 1, Bucket.mk 153 1, Bucket.mk 264 1, Bucket.mk 9605 1, Bucket.mk 9477 1, Bucket.mk 3510 1, Bucket.mk 3127 1, Bucket.mk 1174 1, Bucket.mk 9991 1, Bucket.mk 908 1, Bucket.mk 8221 1, Bucket.mk 3465 1, Bucket.mk 540 1, Bucket.mk 9610 1, Bucket.mk 10303 1, Bucket.mk 654 1, Bucket.mk 8975 1, Bucket.mk 11405 1, Bucket.mk 4097 1, Bucket.mk 3517 1, Bucket.mk 9533 1, Bucket.mk 1470 1, Bucket.mk 6659 1, Bucket.mk 5043 1, Bucket.mk 4658 1, Bucket.mk 4532 1, Bucket.mk 5121 1, Bucket.mk 8097 1, Bucket.mk 14388 1, Bucket.mk 6279 1, Bucket.mk 14130 1, Bucket.mk 13747 1, Bucket.mk 4614 1, Bucket.mk 6841 1, Bucket.mk 5940 1, Bucket.mk 12472 1, Bucket.mk 13065 1, Bucket.mk 7351 1, Bucket.mk 14395 1, Bucket.mk 8103 1, Bucket.mk 14394 1, Bucket.mk 7592 1, Bucket.mk 14088 1, Bucket.mk 7101 1, Bucket.mk 12300 1, Bucket.mk 13230 1, Bucket.mk 6462 1, Bucket.mk 5039 1, Bucket.mk 4654 1, Bucket.mk 5548 1, Bucket.mk 625 1, Bucket.mk 7868 1, Bucket.mk 8736 1, Bucket.mk 8626 1, Bucket.mk 8243 1, Bucket.mk 738 1, Bucket.mk 5423 1, Bucket.mk 2032 1, Bucket.mk 1392 1, Bucket.mk 8868 1, Bucket.mk 3441 1, Bucket.mk 502 1, Bucket.mk 9267 1, Bucket.mk 3031 1, Bucket.mk 1891 1, Bucket.mk 9652 1, Bucket.mk 10281 1, Bucket.mk 8376 1, Bucket.mk 3156 1, Bucket.mk 2522 1, Bucket.mk 2155 1, Bucket.mk 3286 1, Bucket.mk 1399 1, Bucket.mk 2524 1, Bucket.mk 2157 1, Bucket.mk 748 1, Bucket.mk 10268 1, Bucket.mk 2799 1, Bucket.mk 1147 1, Bucket.mk 8623 1, Bucket.mk 1626 1, Bucket.mk 9885 1, Bucket.mk 12305 1, Bucket.mk 9884 1, Bucket.mk 11549 1, Bucket.mk 11439 1, Bucket.mk 3950 1, Bucket.mk 3294 1, Bucket.mk 4451 1, Bucket.mk 5841 1, Bucket.mk 8032 1, Bucket.mk 6884 1, Bucket.mk 13344 1, Bucket.mk 5859 1, Bucket.mk 12582 1, Bucket.mk 7394 1, Bucket.mk 13330 1, Bucket.mk 6857 1, Bucket.mk 12841 1, Bucket.mk 14488 1, Bucket.mk 14360 1, Bucket.mk 4315 1, Bucket.mk 6219 1, Bucket.mk 7894 1, Bucket.mk 4698 1, Bucket.mk 5608 1, Bucket.mk 13592 1, Bucket.mk 4573 1, Bucket.mk 8025 1, Bucket.mk 6622 1, Bucket.mk 6751 1, Bucket.mk 5087 1, Bucket.mk 4686 1, Bucket.mk 6108 1, Bucket.mk 8273 1, Bucket.mk 2256 1, Bucket.mk 2112 1, Bucket.mk 9154 1, Bucket.mk 8771 1, Bucket.mk 6111 1, Bucket.mk 10579 1, Bucket.mk 4048 1, Bucket.mk 2117 1, Bucket.mk 8404 1, Bucket.mk 2373 1, Bucket.mk 2263 1, Bucket.mk 2374 1, Bucket.mk 3826 1, Bucket.mk 9047 1, Bucket.mk 984 1, Bucket.mk 1093 1, Bucket.mk 9924 1, Bucket.mk 9557 1, Bucket.mk 1478 1, Bucket.mk 3703 1, Bucket.mk 1479 1, Bucket.mk 2170 1, Bucket.mk 8413 1, Bucket.mk 2637 1, Bucket.mk 1752 1, Bucket.mk 3656 1, Bucket.mk 8399 1, Bucket.mk 2175 1, Bucket.mk 8703 1, Bucket.mk 1658 1, Bucket.mk 6385 1, Bucket.mk 3661 1, Bucket.mk 6129 1, Bucket.mk 4208 1, Bucket.mk 3582 1] 161
def c3res3 : List Nat := [4338, 9854, 7152, 13680, 13253, 14145, 4855, 13126, 4087, 8051, 5877, 4472, 12488, 13177, 14023, 8038, 13259, 13179, 7144, 5448, 4812, 6780, 12543, 6255, 14335, 12926, 5116, 13421, 5629, 2736, 8674, 2739, 7679, 13422, 2355, 9329, 3360, 3505, 2100, 3986, 9203, 8551, 295, 2472, 8185, 9573, 2329, 3751, 10219, 3495, 10220, 9849, 1848, 1465, 2076, 446, 2862, 686, 12013, 9309, 1565, 7073, 3357, 12387, 1822, 11886, 13280, 13409, 4388, 6549, 5393, 14423, 12759, 14179, 5395, 4504, 13540, 6053, 13035, 6299, 5398, 6555, 5927, 13929, 5145, 13912, 12270, 4526, 5914, 13151, 14029, 657, 2832, 8093, 5148]
def c3sS4 : IBF := IBF.mk [0, 777777] [Bucket.mk 11947 129, Bucket.mk 0 0, Bucket.mk 0 0, Bucket.mk 0 0, Bucket.mk 0 0, Bucket.mk 0 0, Bucket.mk 0 0, Bucket.mk 0 0, Bucket.mk 0 0, Bucket.mk 0 0, Bucket.mk 0 0, Bucket.mk 0 0, Bucket.mk 0 0, Bucket.mk 0 0, Bucket.mk 0 0, Bucket.mk 0 0, Bucket.mk 0 0, Bucket.mk 0 0, Bucket.mk 0 0, Bucket.mk 0 0, Bucket.mk 0 0, Bucket.mk 0 0, Bucket.mk 0 0, Bucket.mk 0 0, Bucket.mk 0 0, Bucket.mk 0 0, Bucket.mk 0 0, Bucket.mk 0 0, Bucket.mk 0 0, Bucket.mk 0 0, Bucket.mk 0 0, Bucket.mk 0 0, Bucket.mk 0 0, Bucket.mk 0 0, Bucket.mk 0 0, Bucket.mk 0 0, Bucket.mk 0 0, Bucket.mk 0 0, Bucket.mk 0 0, Bucket.mk 0 0, Bucket.mk 0 0, Bucket.mk 0 0, Bucket.mk 0 0, Bucket.mk 0 0, Bucket.mk 0 0, Bucket.mk 0 0, Bucket.mk 0 0, Bucket.mk 0 0, Bucket.mk 0 0, Bucket.mk 0 0, Bucket.mk 0 0, Bucket.mk 0 0, Bucket.mk 0 0, Bucket.mk 0 0, Bucket.mk 0 0, Bucket.mk 0 0, Bucket.mk 0 0, Bucket.mk 0 0, Bucket.mk 0 0, Bucket.mk 0 0, Bucket.mk 0 0, Bucket.mk 0 0, Bucket.mk 0 0, Bucket.mk 0 0, Bucket.mk 0 0, Bucket.mk 0 0, Bucket.mk 0 0, Bucket.mk 0 0, Bucket.mk 0 0, Bucket.mk 0 0, Bucket.mk 0 0, Bucket.mk 0 0, Bucket.mk 0 0, Bucket.mk 0 0, Bucket.mk 0 0, Bucket.mk 0 0, Bucket.mk 0 0, Bucket.mk 0 0, Bucket.mk 0 0, Bucket.mk 0 0, Bucket.mk 0 0, Bucket.mk 0 0, Bucket.mk 0 0, Bucket.mk 0 0, Bucket.mk 0 0, Bucket.mk 0 0, Bucket.mk 0 0, Bucket.mk 0 0, Bucket.mk 0 0, Bucket.mk 0 0, Bucket.mk 0 0, Bucket.mk 0 0, Bucket.mk 0 0, Bucket.mk 0 0, Bucket.mk 0 0, Bucket.mk 0 0, Bucket.mk 0 0, Bucket.mk 0 0, Bucket.mk 0 0, Bucket.mk 0 0, Bucket.mk 0 0, Bucket.mk 0 0, Bucket.mk 0 0, Bucket.mk 0 0, Bucket.mk 0 0, Bucket.mk 0 0, Bucket.mk 0 0, Bucket.mk 0 0, Bucket.mk 0 0, Bucket.mk 0 0, Bucket.mk 0 0, Bucket.mk 0 0, Bucket.mk 0 0, Bucket.mk 0 0, Bucket.mk 0 0, Bucket.mk 0 0, Bucket.mk 0 0, Bucket.mk 0 0, Bucket.mk 0 0, Bucket.mk 0 0, Bucket.mk 0 0, Bucket.mk 0 0, Bucket.mk 0 0, Bucket.mk 0 0, Bucket.mk 0 0, Bucket.mk 0 0, Bucket.mk 0 0, Bucket.mk 0 0, Bucket.mk 1470 1, Bucket.mk 6659 1, Bucket.mk 5043 1, Bucket.mk 4658 1, Bucket.mk 4532 1, Bucket.mk 5121 1, Bucket.mk 8097 1, Bucket.mk 14388 1, Bucket.mk 6279 1, Bucket.mk 14130 1, Bucket.mk 13747 1, Bucket.mk 4614 1, Bucket.mk 6841 1, Bucket.mk 5940 1, Bucket.mk 12472 1, Bucket.mk 13065 1, Bucket.mk 7351 1, Bucket.mk 14395 1, Bucket.mk 8103 1, Bucket.mk 14394 1, Bucket.mk 7592 1, Bucket.mk 14088 1, Bucket.mk 7101 1, Bucket.mk 12300 1, Bucket.mk 13230 1, Bucket.mk 6462 1, Bucket.mk 5039 1, Bucket.mk 4654 1, Bucket.mk 5548 1, Bucket.mk 625 1, Bucket.mk 7868 1, Bucket.mk 8736 1, Bucket.mk 8626 1, Bucket.mk 8243 1, Bucket.mk 738 1, Bucket.mk 5423 1, Bucket.mk 2032 1, Bucket.mk 1392 1, Bucket.mk 8868 1, Bucket.mk 3441 1, Bucket.mk 502 1, Bucket.mk 9267 1, Bucket.mk 3031 1, Bucket.mk 1891 1, Bucket.mk 9652 1, Bucket.mk 10281 1, Bucket.mk 8376 1, Bucket.mk 3156 1, Bucket.mk 2522 1, Bucket.mk 2155 1, Bucket.mk 3286 1, Bucket.mk 1399 1, Bucket.mk 2524 1, Bucket.mk 2157 1, Bucket.mk 748 1, Bucket.mk 10268 1, Bucket.mk 2799 1, Bucket.mk 1147 1, Bucket.mk 8623 1, Bucket.mk 1626 1, Bucket.mk 9885 1, Bucket.mk 12305 1, Bucket.mk 9884 1, Bucket.mk 11549 1, Bucket.mk 11439 1, Bucket.mk 3950 1, Bucket.mk 3294 1, Bucket.mk 4451 1, Bucket.mk 5841 1, Bucket.mk 8032 1, Bucket.mk 6884 1, Bucket.mk 13344 1, Bucket.mk 5859 1, Bucket.mk 12582 1, Bucket.mk 7394 1, Bucket.mk 13330 1, Bucket.mk 6857 1, Bucket.mk 12841 1, Bucket.mk 14488 1, Bucket.mk 14360 1, Bucket.mk 4315 1, Bucket.mk 6219 1, Bucket.mk 7894 1, Bucket.mk 4698 1, Bucket.mk 5608 1, Bucket.mk 13592 1, Bucket.mk 4573 1, Bucket.mk 8025 1, Bucket.mk 6622 1, Bucket.mk 6751 1, Bucket.mk 5087 1, Bucket.mk 4686 1, Bucket.mk 6108 1, Bucket.mk 8273 1, Bucket.mk 2256 1, Bucket.mk 2112 1, Bucket.mk 9154 1, Bucket.mk 8771 1, Bucket.mk 6111 1, Bucket.mk 10579 1, Bucket.mk 4048 1, Bucket.mk 2117 1, Bucket.mk 8404 1, Bucket.mk 2373 1, Bucket.mk 2263 1, Bucket.mk 2374 1, Bucket.mk 3826 1, Bucket.mk 9047 1, Bucket.mk 984 1, Bucket.mk 1093 1, Bucket.mk 9924 1, Bucket.mk 9557 1, Bucket.mk 1478 1, Bucket.mk 3703 1, Bucket.mk 1479 1, Bucket.mk 2170 1, Bucket.mk 8413 1, Bucket.mk 2637 1, Bucket.mk 1752 1, Bucket.mk 3656 1, Bucket.mk 8399 1, Bucket.mk 2175 1, Bucket.mk 8703 1, Bucket.mk 1658 1, Bucket.mk 6385 1, Bucket.mk 3661 1, Bucket.mk 6129 1, Bucket.mk 4208 1, Bucket.mk 3582 1] 129
def c3res4 : List Nat := [4338, 9854, 7152, 13680, 13253, 14145, 4855, 13126, 4087, 8051, 5877, 4472, 12488, 13177, 14023, 8038, 13259, 13179, 7144, 5448, 4812, 6780, 12543, 6255, 14335, 12926, 5116, 13421, 5629, 2736, 8674, 2739, 7679, 13422, 2355, 9329, 3360, 3505, 2100, 3986, 9203, 8551, 295, 2472, 8185, 9573, 2329, 3751, 10219, 3495, 10220, 9849, 1848, 1465, 2076, 446, 2862, 686, 12013, 9309, 1565, 7073, 3357, 12387, 1822, 11886, 13280, 13409, 4388, 6549, 5393, 14423, 12759, 14179, 5395, 4504, 13540, 6053, 13035, 6299, 5398, 6555, 5927, 13929, 5145, 13912, 12270, 4526, 5914, 13151, 14029, 657, 2832, 8093, 5148, 5518, 8978, 10643, 8210, 10373, 517, 1921, 1281, 9363, 9219, 9111, 775, 153, 264, 9605, 9477, 3510, 3127, 1174, 9991, 908, 8221, 3465, 540, 9610, 10303, 654, 8975, 11405, 4097, 3517, 9533]
def c3sS5 : IBF := IBF.mk [0, 777777] [Bucket.mk 5851 97, Bucket.mk 0 0, Bucket.mk 0 0, Bucket.mk 0 0, Bucket.mk 0 0, Bucket.mk 0 0, Bucket.mk 0 0, Bucket.mk 0 0, Bucket.mk 0 0, Bucket.mk 0 0, Bucket.mk 0 0, Bucket.mk 0 0, Bucket.mk 0 0, Bucket.mk 0 0, Bucket.mk 0 0, Bucket.mk 0 0, Bucket.mk 0 0, Bucket.mk 0 0, Bucket.mk 0 0, Bucket.mk 0 0, Bucket.mk 0 0, Bucket.mk 0 0, Bucket.mk 0 0, Bucket.mk 0 0, Bucket.mk 0 0, Bucket.mk 0 0, Bucket.mk 0 0, Bucket.mk 0 0, Bucket.mk 0 0, Bucket.mk 0 0, Bucket.mk 0 0, Bucket.mk 0 0, Bucket.mk 0 0, Bucket.mk 0 0, Bucket.mk 0 0, Bucket.mk 0 0, Bucket.mk 0 0, Bucket.mk 0 0, Bucket.mk 0 0, Bucket.mk 0 0, Bucket.mk 0 0, Bucket.mk 0 0, Bucket.mk 0 0, Bucket.mk 0 0, Bucket.mk 0 0, Bucket.mk 0 0, Bucket.mk 0 0, Bucket.mk 0 0, Bucket.mk 0 0, Bucket.mk 0 0, Bucket.mk 0 0, Bucket.mk 0 0, Bucket.mk 0 0, Bucket.mk 0 0, Bucket.mk 0 0, Bucket.mk 0 0, Bucket.mk 0 0, Bucket.mk 0 0, Bucket.mk 0 0, Bucket.mk 0 0, Bucket.mk 0 0, Bucket.mk 0 0, Bucket.mk 0 0, Bucket.mk 0 0, Bucket.mk 0 0, Bucket.mk 0 0, Bucket.mk 0 0, Bucket.mk 0 0, Bucket.mk 0 0, Bucket.mk 0 0, Bucket.mk 0 0, Bucket.mk 0 0, Bucket.mk 0 0, Bucket.mk 0 0, Bucket.mk 0 0, Bucket.mk 0 0, Bucket.mk 0 0, Bucket.mk 0 0, Bucket.mk 0 0, Bucket.mk 0 0, Bucket.mk 0 0, Bucket.mk 0 0, Bucket.mk 0 0, Bucket.mk 0 0, Bucket.mk 0 0, Bucket.mk 0 0, Bucket.mk 0 0, Bucket.mk 0 0, Bucket.mk 0 0, Bucket.mk 0 0, Bucket.mk 0 0, Bucket.mk 0 0, Bucket.mk 0 0, Bucket.mk 0 0, Bucket.mk 0 0, Bucket.mk 0 0, Bucket.mk 0 0, Bucket.mk 0 0, Bucket.mk 0 0, Bucket.mk 0 0, Bucket.mk 0 0, Bucket.mk 0 0, Bucket.mk 0 0, Bucket.mk 0 0, Bucket.mk 0 0, Bucket.mk 0 0, Bucket.mk 0 0, Bucket.mk 0 0, Bucket.mk 0 0, Bucket.mk 0 0, Bucket.mk 0 0, Bucket.mk 0 0, Bucket.mk 0 0, Bucket.mk 0 0, Bucket.mk 0 0, Bucket.mk 0 0, Bucket.mk 0 0, Bucket.mk 0 0, Bucket.mk 0 0, Bucket.mk 0 0, Bucket.mk 0 0, Bucket.mk 0 0, Bucket.mk 0 0, Bucket.mk 0 0, Bucket.mk 0 0, Bucket.mk 0 0, Bucket.mk 0 0, Bucket.mk 0 0, Bucket.mk 0 0, Bucket.mk 0 0, Bucket.mk 0 0, Bucket.mk 0 0, Bucket.mk 0 0, Bucket.mk 0 0, Bucket.mk 0 0, Bucket.mk 0 0, Bucket.mk 0 0, Bucket.mk 0 0, Bucket.mk 0 0, Bucket.mk 0 0, Bucket.mk 0 0, Bucket.mk 0 0, Bucket.mk 0 0, Bucket.mk 0 0, Bucket.mk 0 0, Bucket.mk 0 0, Bucket.mk 0 0, Bucket.mk 0 0, Bucket.mk 0 0, Bucket.mk 0 0, Bucket.mk 0 0, Bucket.mk 0 0, Bucket.mk 0 0, Bucket.mk 0 0, Bucket.mk 0 0, Bucket.mk 0 0, Bucket.mk 0 0, Bucket.mk 0 0, Bucket.mk 0 0, Bucket.mk 0 0, Bucket.mk 8626 1, Bucket.mk 8243 1, Bucket.mk 738 1, Bucket.mk 5423 1, Bucket.mk 2032 1, Bucket.mk 1392 1, Bucket.mk 8868 1, Bucket.mk 3441 1, Bucket.mk 502 1, Bucket.mk 9267 1, Bucket.mk 3031 1, Bucket.mk 1891 1, Bucket.mk 9652 1, Bucket.mk 10281 1, Bucket.mk 8376 1, Bucket.mk 3156 1, Bucket.mk 2522 1, Bucket.mk 2155 1, Bucket.mk 3286 1, Bucket.mk 1399 1, Bucket.mk 2524 1, Bucket.mk 2157 1, Bucket.mk 748 1, Bucket.mk 10268 1, Bucket.mk 2799 1, Bucket.mk 1147 1, Bucket.mk 8623 1, Bucket.mk 1626 1, Bucket.mk 9885 1, Bucket.mk 12305 1, Bucket.mk 9884 1, Bucket.mk 11549 1, Bucket.mk 11439 1, Bucket.mk 3950 1, Bucket.mk 3294 1, Bucket.mk 4451 1, Bucket.mk 5841 1, Bucket.mk 8032 1, Bucket.mk 6884 1, Bucket.mk 13344 1, Bucket.mk 5859 1, Bucket.mk 12582 1, Bucket.mk 7394 1, Bucket.mk 13330 1, Bucket.mk 6857 1, Bucket.mk 12841 1, Bucket.mk 14488 1, Bucket.mk 14360 1, Bucket.mk 4315 1, Bucket.mk 6219 1, Bucket.mk 7894 1, Bucket.mk 4698 1, Bucket.mk 5608 1, Bucket.mk 13592 1, Bucket.mk 4573 1, Bucket.mk 8025 1, Bucket.mk 6622 1, Bucket.mk 6751 1, Bucket.mk 5087 1, Bucket.mk 4686 1, Bucket.mk 6108 1, Bucket.mk 8273 1, Bucket.mk 2256 1, Bucket.mk 2112 1, Bucket.mk 9154 1, Bucket.mk 8771 1, Bucket.mk 6111 1, Bucket.mk 10579 1, Bucket.mk 4048 1, Bucket.mk 2117 1, Bucket.mk 8404 1, Bucket.mk 2373 1, Bucket.mk 2263 1, Bucket.mk 2374 1, Bucket.mk 3826 1, Bucket.mk 9047 1, Bucket.mk 984 1, Bucket.mk 1093 1, Bucket.mk 9924 1, Bucket.mk 9557 1, Bucket.mk 1478 1, Bucket.mk 3703 1, Bucket.mk 1479 1, Bucket.mk 2170 1, Bucket.mk 8413 1, Bucket.mk 2637 1, Bucket.mk 1752 1, Bucket.mk 3656 1, Bucket.mk 8399 1, Bucket.mk 2175 1, Bucket.mk 8703 1, Bucket.mk 1658 1, Bucket.mk 6385 1, Bucket.mk 3661 1, Bucket.mk 6129 1, Bucket.mk 4208 1, Bucket.mk 3582 1] 97
def c3res5 : List Nat := [4338, 9854, 7152, 13680, 13253, 14145, 4855, 13126, 4087, 8051, 5877, 4472, 12488, 13177, 14023, 8038, 13259, 13179, 7144, 5448, 4812, 6780, 12543, 6255, 14335, 12926, 5116, 13421, 5629, 2736, 8674, 2739, 7679, 13422, 2355, 9329, 3360, 3505, 2100, 3986, 9203, 8551, 295, 2472, 8185, 9573, 2329, 3751, 10219, 3495, 10220, 9849, 1848, 1465, 2076, 446, 2862, 686, 12013, 9309, 1565, 7073, 3357, 12387, 1822, 11886, 13280, 13409, 4388, 6549, 5393, 14423, 12759, 14179, 5395, 4504, 13540, 6053, 13035, 6299, 5398, 6555, 5927, 13929, 5145, 13912, 12270, 4526, 5914, 13151, 14029, 657, 2832, 8093, 5148, 5518, 8978, 10643, 8210, 10373, 517, 1921, 1281, 9363, 9219, 9111, 775, 153, 264, 9605, 9477, 3510, 3127, 1174, 9991, 908, 8221, 3465, 540, 9610, 10303, 654, 8975, 11405, 4097, 3517, 9533, 1470, 6659, 5043, 4658, 4532, 5121, 8097, 14388, 6279, 14130, 13747, 4614, 6841, 5940, 12472, 13065, 7351, 14395, 8103, 14394, 7592, 14088, 7101, 12300, 13230, 6462, 5039, 4654, 5548, 625, 7868, 8736]
def c3sS6 : IBF := IBF.mk [0, 777777] [Bucket.mk 13055 65, Bucket.mk 0 0, Bucket.mk 0 0, Bucket.mk 0 0, Bucket.mk 0 0, Bucket.mk 0 0, Bucket.mk 0 0, Bucket.mk 0 0, Bucket.mk 0 0, Bucket.mk 0 0, Bucket.mk 0 0, Bucket.mk 0 0, Bucket.mk 0 0, Bucket.mk 0 0, Bucket.mk 0 0, Bucket.mk 0 0, Bucket.mk 0 0, Bucket.mk 0 0, Bucket.mk 0 0, Bucket.mk 0 0, Bucket.mk 0 0, Bucket.mk 0 0, Bucket.mk 0 0, Bucket.mk 0 0, Bucket.mk 0 0, Bucket.mk 0 0, Bucket.mk 0 0, Bucket.mk 0 0, Bucket.mk 0 0, Bucket.mk 0 0, Bucket.mk 0 0, Bucket.mk 0 0, Bucket.mk 0 0, Bucket.mk 0 0, Bucket.mk 0 0, Bucket.mk 0 0, Bucket.mk 0 0, Bucket.mk 0 0, Bucket.mk 0 0, Bucket.mk 0 0, Bucket.mk 0 0, Bucket.mk 0 0, Bucket.mk 0 0, Bucket.mk 0 0, Bucket.mk 0 0, Bucket.mk 0 0, Bucket.mk 0 0, Bucket.mk 0 0, Bucket.mk 0 0, Bucket.mk 0 0, Bucket.mk 0 0, Bucket.mk 0 0, Bucket.mk 0 0, Bucket.mk 0 0, Bucket.mk 0 0, Bucket.mk 0 0, Bucket.mk 0 0, Bucket.mk 0 0, Bucket.mk 0 0, Bucket.mk 0 0, Bucket.mk 0 0, Bucket.mk 0 0, Bucket.mk 0 0, Bucket.mk 0 0, Bucket.mk 0 0, Bucket.mk 0 0, Bucket.mk 0 0, Bucket.mk 0 0, Bucket.mk 0 0, Bucket.mk 0 0, Bucket.mk 0 0, Bucket.mk 0 0, Bucket.mk 0 0, Bucket.mk 0 0, Bucket.mk 0 0, Bucket.mk 0 0, Bucket.mk 0 0, Bucket.mk 0 0, Bucket.mk 0 0, Bucket.mk 0 0, Bucket.mk 0 0, Bucket.mk 0 0, Bucket.mk 0 0, Bucket.mk 0 0, Bucket.mk 0 0, Bucket.mk 0 0, Bucket.mk 0 0, Bucket.mk 0 0, Bucket.mk 0 0, Bucket.mk 0 0, Bucket.mk 0 0, Bucket.mk 0 0, Bucket.mk 0 0, Bucket.mk 0 0, Bucket.mk 0 0, Bucket.mk 0 0, Bucket.mk 0 0, Bucket.mk 0 0, Bucket.mk 0 0, Bucket.mk 0 0, Bucket.mk 0 0, Bucket.mk 0 0, Bucket.mk 0 0, Bucket.mk 0 0, Bucket.mk 0 0, Bucket.mk 0 0, Bucket.mk 0 0, Bucket.mk 0 0, Bucket.mk 0 0, Bucket.mk 0 0, Bucket.mk 0 0, Bucket.mk 0 0, Bucket.mk 0 0, Bucket.mk 0 0, Bucket.mk 0 0, Bucket.mk 0 0, Bucket.mk 0 0, Bucket.mk 0 0, Bucket.mk 0 0, Bucket.mk 0 0, Bucket.mk 0 0, Bucket.mk 0 0, Bucket.mk 0 0, Bucket.mk 0 0, Bucket.mk 0 0, Bucket.mk 0 0, Bucket.mk 0 0, Bucket.mk 0 0, Bucket.mk 0 0, Bucket.mk 0 0, Bucket.mk 0 0, Bucket.mk 0 0, Bucket.mk 0 0, Bucket.mk 0 0, Bucket.mk 0 0, Bucket.mk 0 0, Bucket.mk 0 0, Bucket.mk 0 0, Bucket.mk 0 0, Bucket.mk 0 0, Bucket.mk 0 0, Bucket.mk 0 0, Bucket.mk 0 0, Bucket.mk 0 0, Bucket.mk 0 0, Bucket.mk 0 0, Bucket.mk 0 0, Bucket.mk 0 0, Bucket.mk 0 0, Bucket.mk 0 0, Bucket.mk 0 0, Bucket.mk 0 0, Bucket.mk 0 0, Bucket.mk 0 0, Bucket.mk 0 0, Bucket.mk 0 0, Bucket.mk 0 0, Bucket.mk 0 0, Bucket.mk 0 0, Bucket.mk 0 0, Bucket.mk 0 0, Bucket.mk 0 0, Bucket.mk 0 0, Bucket.mk 0 0, Bucket.mk 0 0, Bucket.mk 0 0, Bucket.mk 0 0, Bucket.mk 0 0, Bucket.mk 0 0, Bucket.mk 0 0, Bucket.mk 0 0, Bucket.mk 0 0, Bucket.mk 0 0, Bucket.mk 0 0, Bucket.mk 0 0, Bucket.mk 0 0, Bucket.mk 0 0, Bucket.mk 0 0, Bucket.mk 0 0, Bucket.mk 0 0, Bucket.mk 0 0, Bucket.mk 0 0, Bucket.mk 0 0, Bucket.mk 0 0, Bucket.mk 0 0, Bucket.mk 0 0, Bucket.mk 0 0, Bucket.mk 0 0, Bucket.mk 0 0, Bucket.mk 0 0, Bucket.mk 0 0, Bucket.mk 0 0, Bucket.mk 11439 1, Bucket.mk 3950 1, Bucket.mk 3294 1, Bucket.mk 4451 1, Bucket.mk 5841 1, Bucket.mk 8032 1, Bucket.mk 6884 1, Bucket.mk 13344 1, Bucket.mk 5859 1, Bucket.mk 12582 1, Bucket.mk 7394 1, Bucket.mk 13330 1, Bucket.mk 6857 1, Bucket.mk 12841 1, Bucket.mk 14488 1, Bucket.mk 14360 1, Bucket.mk 4315 1, Bucket.mk 6219 1, Bucket.mk 7894 1, Bucket.mk 4698 1, Bucket.mk 5608 1, Bucket.mk 13592 1, Bucket.mk 4573 1, Bucket.mk 8025 1, Bucket.mk 6622 1, Bucket.mk 6751 1, Bucket.mk 5087 1, Bucket.mk 4686 1, Bucket.mk 6108 1, Bucket.mk 8273 1, Bucket.mk 2256 1, Bucket.mk 2112 1, Bucket.mk 9154 1, Bucket.mk 8771 1, Bucket.mk 6111 1, Bucket.mk 10579 1, Bucket.mk 4048 1, Bucket.mk 2117 1, Bucket.mk 8404 1, Bucket.mk 2373 1, Bucket.mk 2263 1, Bucket.mk 2374 1, Bucket.mk 3826 1, Bucket.mk 9047 1, Bucket.mk 984 1, Bucket.mk 1093 1, Bucket.mk 9924 1, Bucket.mk 9557 1, Bucket.mk 1478 1, Bucket.mk 3703 1, Bucket.mk 1479 1, Bucket.mk 2170 1, Bucket.mk 8413 1, Bucket.mk 2637 1, Bucket.mk 1752 1, Bucket.mk 3656 1, Bucket.mk 8399 1, Bucket.mk 2175 1, Bucket.mk 8703 1, Bucket.mk 1658 1, Bucket.mk 6385 1, Bucket.mk 3661 1, Bucket.mk 6129 1, Bucket.mk 4208 1, Bucket.mk 3582 1] 65
def c3res6 : List Nat := [4338, 9854, 7152, 13680, 13253, 14145, 4855, 13126, 4087, 8051, 5877, 4472, 12488, 13177, 14023, 8038, 13259, 13179, 7144, 5448, 4812, 6780, 12543, 6255, 14335, 12926, 5116, 13421, 5629, 2736, 8674, 2739, 7679, 13422, 2355, 9329, 3360, 3505, 2100, 3986, 9203, 8551, 295, 2472, 8185, 9573, 2329, 3751, 10219, 3495, 10220, 9849, 1848, 1465, 2076, 446, 2862, 686, 12013, 9309, 1565, 7073, 3357, 12387, 1822, 11886, 13280, 13409, 4388, 6549, 5393, 14423, 12759, 14179, 5395, 4504, 13540, 6053, 13035, 6299, 5398, 6555, 5927, 13929, 5145, 13912, 12270, 4526, 5914, 13151, 14029, 657, 2832, 8093, 5148, 5518, 8978, 10643, 8210, 10373, 517, 1921, 1281, 9363, 9219, 9111, 775, 153, 264, 9605, 9477, 3510, 3127, 1174, 9991, 908, 8221, 3465, 540, 9610, 10303, 654, 8975, 11405, 4097, 3517, 9533, 1470, 6659, 5043, 4658, 4532, 5121, 8097, 14388, 6279, 14130, 13747, 4614, 6841, 5940, 12472, 13065, 7351, 14395, 8103, 14394, 7592, 14088, 7101, 12300, 13230, 6462, 5039, 4654, 5548, 625, 7868, 8736, 8626, 8243, 738, 5423, 2032, 1392, 8868, 3441, 502, 9267, 3031, 1891, 9652, 10281, 8376, 3156, 2522, 2155, 3286, 1399, 2524, 2157, 748, 10268, 2799, 1147, 8623, 1626, 9885, 12305, 9884, 11549]
def c3sS7 : IBF := IBF.mk [0, 777777] [Bucket.mk 5062 33, Bucket.mk 0 0, Bucket.mk 0 0, Bucket.mk 0 0, Bucket.mk 0 0, Bucket.mk 0 0, Bucket.mk 0 0, Bucket.mk 0 0, Bucket.mk 0 0, Bucket.mk 0 0, Bucket.mk 0 0, Bucket.mk 0 0, Bucket.mk 0 0, Bucket.mk 0 0, Bucket.mk 0 0, Bucket.mk 0 0, Bucket.mk 0 0, Bucket.mk 0 0, Bucket.mk 0 0, Bucket.mk 0 0, Bucket.mk 0 0, Bucket.mk 0 0, Bucket.mk 0 0, Bucket.mk 0 0, Bucket.mk 0 0, Bucket.mk 0 0, Bucket.mk 0 0, Bucket.mk 0 0, Bucket.mk 0 0, Bucket.mk 0 0, Bucket.mk 0 0, Bucket.mk 0 0, Bucket.mk 0 0, Bucket.mk 0 0, Bucket.mk 0 0, Bucket.mk 0 0, Bucket.mk 0 0, Bucket.mk 0 0, Bucket.mk 0 0, Bucket.mk 0 0, Bucket.mk 0 0, Bucket.mk 0 0, Bucket.mk 0 0, Bucket.mk 0 0, Bucket.mk 0 0, Bucket.mk 0 0, Bucket.mk 0 0, Bucket.mk 0 0, Bucket.mk 0 0, Bucket.mk 0 0, Bucket.mk 0 0, Bucket.mk 0 0, Bucket.mk 0 0, Bucket.mk 0 0, Bucket.mk 0 0, Bucket.mk 0 0, Bucket.mk 0 0, Bucket.mk 0 0, Bucket.mk 0 0, Bucket.mk 0 0, Bucket.mk 0 0, Bucket.mk 0 0, Bucket.mk 0 0, Bucket.mk 0 0, Bucket.mk 0 0, Bucket.mk 0 0, Bucket.mk 0 0, Bucket.mk 0 0, Bucket.mk 0 0, Bucket.mk 0 0, Bucket.mk 0 0, Bucket.mk 0 0, Bucket.mk 0 0, Bucket.mk 0 0, Bucket.mk 0 0, Bucket.mk 0 0, Bucket.mk 0 0, Bucket.mk 0 0, Bucket.mk 0 0, Bucket.mk 0 0, Bucket.mk 0 0, Bucket.mk 0 0, Bucket.mk 0 0, Bucket.mk 0 0, Bucket.mk 0 0, Bucket.mk 0 0, Bucket.mk 0 0, Bucket.mk 0 0, Bucket.mk 0 0, Bucket.mk 0 0, Bucket.mk 0 0, Bucket.mk 0 0, Bucket.mk 0 0, Bucket.mk 0 0, Bucket.mk 0 0, Bucket.mk 0 0, Bucket.mk 0 0, Bucket.mk 0 0, Bucket.mk 0 0, Bucket.mk 0 0, Bucket.mk 0 0, Bucket.mk 0 0, Bucket.mk 0 0, Bucket.mk 0 0, Bucket.mk 0 0, Bucket.mk 0 0, Bucket.mk 0 0, Bucket.mk 0 0, Bucket.mk 0 0, Bucket.mk 0 0, Bucket.mk 0 0, Bucket.mk 0 0, Bucket.mk 0 0, Bucket.mk 0 0, Bucket.mk 0 0, Bucket.mk 0 0, Bucket.mk 0 0, Bucket.mk 0 0, Bucket.mk 0 0, Bucket.mk 0 0, Bucket.mk 0 0, Bucket.mk 0 0, Bucket.mk 0 0, Bucket.mk 0 0, Bucket.mk 0 0, Bucket.mk 0 0, Bucket.mk 0 0, Bucket.mk 0 0, Bucket.mk 0 0, Bucket.mk 0 0, Bucket.mk 0 0, Bucket.mk 0 0, Bucket.mk 0 0, Bucket.mk 0 0, Bucket.mk 0 0, Bucket.mk 0 0, Bucket.mk 0 0, Bucket.mk 0 0, Bucket.mk 0 0, Bucket.mk 0 0, Bucket.mk 0 0, Bucket.mk 0 0, Bucket.mk 0 0, Bucket.mk 0 0, Bucket.mk 0 0, Bucket.mk 0 0, Bucket.mk 0 0, Bucket.mk 0 0, Bucket.mk 0 0, Bucket.mk 0 0, Bucket.mk 0 0, Bucket.mk 0 0, Bucket.mk 0 0, Bucket.mk 0 0, Bucket.mk 0 0, Bucket.mk 0 0, Bucket.mk 0 0, Bucket.mk 0 0, Bucket.mk 0 0, Bucket.mk 0 0, Bucket.mk 0 0, Bucket.mk 0 0, Bucket.mk 0 0, Bucket.mk 0 0, Bucket.mk 0 0, Bucket.mk 0 0, Bucket.mk 0 0, Bucket.mk 0 0, Bucket.mk 0 0, Bucket.mk 0 0, Bucket.mk 0 0, Bucket.mk 0 0, Bucket.mk 0 0, Bucket.mk 0 0, Bucket.mk 0 0, Bucket.mk 0 0, Bucket.mk 0 0, Bucket.mk 0 0, Bucket.mk 0 0, Bucket.mk 0 0, Bucket.mk 0 0, Bucket.mk 0 0, Bucket.mk 0 0, Bucket.mk 0 0, Bucket.mk 0 0, Bucket.mk 0 0, Bucket.mk 0 0, Bucket.mk 0 0, Bucket.mk 0 0, Bucket.mk 0 0, Bucket.mk 0 0, Bucket.mk 0 0, Bucket.mk 0 0, Bucket.mk 0 0, Bucket.mk 0 0, Bucket.mk 0 0, Bucket.mk 0 0, Bucket.mk 0 0, Bucket.mk 0 0, Bucket.mk 0 0, Bucket.mk 0 0, Bucket.mk 0 0, Bucket.mk 0 0, Bucket.mk 0 0, Bucket.mk 0 0, Bucket.mk 0 0, Bucket.mk 0 0, Bucket.mk 0 0, Bucket.mk 0 0, Bucket.mk 0 0, Bucket.mk 0 0, Bucket.mk 0 0, Bucket.mk 0 0, Bucket.mk 0 0, Bucket.mk 0 0, Bucket.mk 0 0, Bucket.mk 0 0, Bucket.mk 0 0, Bucket.mk 0 0, Bucket.mk 0 0, Bucket.mk 0 0, Bucket.mk 0 0, Bucket.mk 0 0, Bucket.mk 0 0, Bucket.mk 9154 1, Bucket.mk 8771 1, Bucket.mk 6111 1, Bucket.mk 10579 1, Bucket.mk 4048 1, Bucket.mk 2117 1, Bucket.mk 8404 1, Bucket.mk 2373 1, Bucket.mk 2263 1, Bucket.mk 2374 1, Bucket.mk 3826 1, Bucket.mk 9047 1, Bucket.mk 984 1, Bucket.mk 1093 1, Bucket.mk 9924 1, Bucket.mk 9557 1, Bucket.mk 1478 1, Bucket.mk 3703 1, Bucket.mk 1479 1, Bucket.mk 2170 1, Bucket.mk 8413 1, Bucket.mk 2637 1, Bucket.mk 1752 1, Bucket.mk 3656 1, Bucket.mk 8399 1, Bucket.mk 2175 1, Bucket.mk 8703 1, Bucket.mk 1658 1, Bucket.mk 6385 1, Bucket.mk 3661 1, Bucket.mk 6129 1, Bucket.mk 4208 1, Bucket.mk 3582 1] 33
def c3res7 : List Nat := [4338, 9854, 7152, 13680, 13253, 14145, 4855, 13126, 4087, 8051, 5877, 4472, 12488, 13177, 14023, 8038, 13259, 13179, 7144, 5448, 4812, 6780, 12543, 6255, 14335, 12926, 5116, 13421, 5629, 2736, 8674, 2739, 7679, 13422, 2355, 9329, 3360, 3505, 2100, 3986, 9203, 8551, 295, 2472, 8185, 9573, 2329, 3751, 10219, 3495, 10220, 9849, 1848, 1465, 2076, 446, 2862, 686, 12013, 9309, 1565, 7073, 3357, 12387, 1822, 11886, 13280, 13409, 4388, 6549, 5393, 14423, 12759, 14179, 5395, 4504, 13540, 6053, 13035, 6299, 5398, 6555, 5927, 13929, 5145, 13912, 12270, 4526, 5914, 13151, 14029, 657, 2832, 8093, 5148, 5518, 8978, 10643, 8210, 10373, 517, 1921, 1281, 9363, 9219, 9111, 775, 153, 264, 9605, 9477, 3510, 3127, 1174, 9991, 908, 8221, 3465, 540, 9610, 10303, 654, 8975, 11405, 4097, 3517, 9533, 1470, 6659, 5043, 4658, 4532, 5121, 8097, 14388, 6279, 14130, 13747, 4614, 6841, 5940, 12472, 13065, 7351, 14395, 8103, 14394, 7592, 14088, 7101, 12300, 13230, 6462, 5039, 4654, 5548, 625, 7868, 8736, 8626, 8243, 738, 5423, 2032, 1392, 8868, 3441, 502, 9267, 3031, 1891, 9652, 10281, 8376, 3156, 2522, 2155, 3286, 1399, 2524, 2157, 748, 10268, 2799, 1147, 8623, 1626, 9885, 12305, 9884, 11549, 11439, 3950, 3294, 4451, 5841, 8032, 6884, 13344, 5859, 12582, 7394, 13330, 6857, 12841, 14488, 14360, 4315, 6219, 7894, 4698, 5608, 13592, 4573, 8025, 6622, 6751, 5087, 4686, 6108, 8273, 2256, 2112]
def c3sS8 : IBF := IBF.mk [0, 777777] [Bucket.mk 4339 1, Bucket.mk 0 0, Bucket.mk 0 0, Bucket.mk 0 0, Bucket.mk 0 0, Bucket.mk 0 0, Bucket.mk 0 0, Bucket.mk 0 0, Bucket.mk 0 0, Bucket.mk 0 0, Bucket.mk 0 0, Bucket.mk 0 0, Bucket.mk 0 0, Bucket.mk 0 0, Bucket.mk 0 0, Bucket.mk 0 0, Bucket.mk 0 0, Bucket.mk 0 0, Bucket.mk 0 0, Bucket.mk 0 0, Bucket.mk 0 0, Bucket.mk 0 0, Bucket.mk 0 0, Bucket.mk 0 0, Bucket.mk 0 0, Bucket.mk 0 0, Bucket.mk 0 0, Bucket.mk 0 0, Bucket.mk 0 0, Bucket.mk 0 0, Bucket.mk 0 0, Bucket.mk 0 0, Bucket.mk 0 0, Bucket.mk 0 0, Bucket.mk 0 0, Bucket.mk 0 0, Bucket.mk 0 0, Bucket.mk 0 0, Bucket.mk 0 0, Bucket.mk 0 0, Bucket.mk 0 0, Bucket.mk 0 0, Bucket.mk 0 0, Bucket.mk 0 0, Bucket.mk 0 0, Bucket.mk 0 0, Bucket.mk 0 0, Bucket.mk 0 0, Bucket.mk 0 0, Bucket.mk 0 0, Bucket.mk 0 0, Bucket.mk 0 0, Bucket.mk 0 0, Bucket.mk 0 0, Bucket.mk 0 0, Bucket.mk 0 0, Bucket.mk 0 0, Bucket.mk 0 0, Bucket.mk 0 0, Bucket.mk 0 0, Bucket.mk 0 0, Bucket.mk 0 0, Bucket.mk 0 0, Bucket.mk 0 0, Bucket.mk 0 0, Bucket.mk 0 0, Bucket.mk 0 0, Bucket.mk 0 0, Bucket.mk 0 0, Bucket.mk 0 0, Bucket.mk 0 0, Bucket.mk 0 0, Bucket.mk 0 0, Bucket.mk 0 0, Bucket.mk 0 0, Bucket.mk 0 0, Bucket.mk 0 0, Bucket.mk 0 0, Bucket.mk 0 0, Bucket.mk 0 0, Bucket.mk 0 0, Bucket.mk 0 0, Bucket.mk 0 0, Bucket.mk 0 0, Bucket.mk 0 0, Bucket.mk 0 0, Bucket.mk 0 0, Bucket.mk 0 0, Bucket.mk 0 0, Bucket.mk 0 0, Bucket.mk 0 0, Bucket.mk 0 0, Bucket.mk 0 0, Bucket.mk 0 0, Bucket.mk 0 0, Bucket.mk 0 0, Bucket.mk 0 0, Bucket.mk 0 0, Bucket.mk 0 0, Bucket.mk 0 0, Bucket.mk 0 0, Bucket.mk 0 0, Bucket.mk 0 0, Bucket.mk 0 0, Bucket.mk 0 0, Bucket.mk 0 0, Bucket.mk 0 0, Bucket.mk 0 0, Bucket.mk 0 0, Bucket.mk 0 0, Bucket.mk 0 0, Bucket.mk 0 0, Bucket.mk 0 0, Bucket.mk 0 0, Bucket.mk 0 0, Bucket.mk 0 0, Bucket.mk 0 0, Bucket.mk 0 0, Bucket.mk 0 0, Bucket.mk 0 0, Bucket.mk 0 0, Bucket.mk 0 0, Bucket.mk 0 0, Bucket.mk 0 0, Bucket.mk 0 0, Bucket.mk 0 0, Bucket.mk 0 0, Bucket.mk 0 0, Bucket.mk 0 0, Bucket.mk 0 0, Bucket.mk 0 0, Bucket.mk 0 0, Bucket.mk 0 0, Bucket.mk 0 0, Bucket.mk 0 0, Bucket.mk 0 0, Bucket.mk 0 0, Bucket.mk 0 0, Bucket.mk 0 0, Bucket.mk 0 0, Bucket.mk 0 0, Bucket.mk 0 0, Bucket.mk 0 0, Bucket.mk 0 0, Bucket.mk 0 0, Bucket.mk 0 0, Bucket.mk 0 0, Bucket.mk 0 0, Bucket.mk 0 0, Bucket.mk 0 0, Bucket.mk 0 0, Bucket.mk 0 0, Bucket.mk 0 0, Bucket.mk 0 0, Bucket.mk 0 0, Bucket.mk 0 0, Bucket.mk 0 0, Bucket.mk 0 0, Bucket.mk 0 0, Bucket.mk 0 0, Bucket.mk 0 0, Bucket.mk 0 0, Bucket.mk 0 0, Bucket.mk 0 0, Bucket.mk 0 0, Bucket.mk 0 0, Bucket.mk 0 0, Bucket.mk 0 0, Bucket.mk 0 0, Bucket.mk 0 0, Bucket.mk 0 0, Bucket.mk 0 0, Bucket.mk 0 0, Bucket.mk 0 0, Bucket.mk 0 0, Bucket.mk 0 0, Bucket.mk 0 0, Bucket.mk 0 0, Bucket.mk 0 0, Bucket.mk 0 0, Bucket.mk 0 0, Bucket.mk 0 0, Bucket.mk 0 0, Bucket.mk 0 0, Bucket.mk 0 0, Bucket.mk 0 0, Bucket.mk 0 0, Bucket.mk 0 0, Bucket.mk 0 0, Bucket.mk 0 0, Bucket.mk 0 0, Bucket.mk 0 0, Bucket.mk 0 0, Bucket.mk 0 0, Bucket.mk 0 0, Bucket.mk 0 0, Bucket.mk 0 0, Bucket.mk 0 0, Bucket.mk 0 0, Bucket.mk 0 0, Bucket.mk 0 0, Bucket.mk 0 0, Bucket.mk 0 0, Bucket.mk 0 0, Bucket.mk 0 0, Bucket.mk 0 0, Bucket.mk 0 0, Bucket.mk 0 0, Bucket.mk 0 0, Bucket.mk 0 0, Bucket.mk 0 0, Bucket.mk 0 0, Bucket.mk 0 0, Bucket.mk 0 0, Bucket.mk 0 0, Bucket.mk 0 0, Bucket.mk 0 0, Bucket.mk 0 0, Bucket.mk 0 0, Bucket.mk 0 0, Bucket.mk 0 0, Bucket.mk 0 0, Bucket.mk 0 0, Bucket.mk 0 0, Bucket.mk 0 0, Bucket.mk 0 0, Bucket.mk 0 0, Bucket.mk 0 0, Bucket.mk 0 0, Bucket.mk 0 0, Bucket.mk 0 0, Bucket.mk 0 0, Bucket.mk 0 0, Bucket.mk 0 0, Bucket.mk 0 0, Bucket.mk 0 0, Bucket.mk 0 0, Bucket.mk 0 0, Bucket.mk 0 0, Bucket.mk 0 0, Bucket.mk 0 0, Bucket.mk 0 0, Bucket.mk 0 0, Bucket.mk 0 0, Bucket.mk 0 0, Bucket.mk 0 0, Bucket.mk 0 0, Bucket.mk 0 0, Bucket.mk 0 0, Bucket.mk 0 0, Bucket.mk 0 0, Bucket.mk 0 0, Bucket.mk 0 0, Bucket.mk 0 0, Bucket.mk 0 0, Bucket.mk 0 0, Bucket.mk 3582 1] 1
def c3res8 : List Nat := [4338, 9854, 7152, 13680, 13253, 14145, 4855, 13126, 4087, 8051, 5877, 4472, 12488, 13177, 14023, 8038, 13259, 13179, 7144, 5448, 4812, 6780, 12543, 6255, 14335, 12926, 5116, 13421, 5629, 2736, 8674, 2739, 7679, 13422, 2355, 9329, 3360, 3505, 2100, 3986, 9203, 8551, 295, 2472, 8185, 9573, 2329, 3751, 10219, 3495, 10220, 9849, 1848, 1465, 2076, 446, 2862, 686, 12013, 9309, 1565, 7073, 3357, 12387, 1822, 11886, 13280, 13409, 4388, 6549, 5393, 14423, 12759, 14179, 5395, 4504, 13540, 6053, 13035, 6299, 5398, 6555, 5927, 13929, 5145, 13912, 12270, 4526, 5914, 13151, 14029, 657, 2832, 8093, 5148, 5518, 8978, 10643, 8210, 10373, 517, 1921, 1281, 9363, 9219, 9111, 775, 153, 264, 9605, 9477, 3510, 3127, 1174, 9991, 908, 8221, 3465, 540, 9610, 10303, 654, 8975, 11405, 4097, 3517, 9533, 1470, 6659, 5043, 4658, 4532, 5121, 8097, 14388, 6279, 14130, 13747, 4614, 6841, 5940, 12472, 13065, 7351, 14395, 8103, 14394, 7592, 14088, 7101, 12300, 13230, 6462, 5039, 4654, 5548, 625, 7868, 8736, 8626, 8243, 738, 5423, 2032, 1392, 8868, 3441, 502, 9267, 3031, 1891, 9652, 10281, 8376, 3156, 2522, 2155, 3286, 1399, 2524, 2157, 748, 10268, 2799, 1147, 8623, 1626, 9885, 12305, 9884, 11549, 11439, 3950, 3294, 4451, 5841, 8032, 6884, 13344, 5859, 12582, 7394, 13330, 6857, 12841, 14488, 14360, 4315, 6219, 7894, 4698, 5608, 13592, 4573, 8025, 6622, 6751, 5087, 4686, 6108, 8273, 2256, 2112, 9154, 8771, 6111, 10579, 4048, 2117, 8404, 2373, 2263, 2374, 3826, 9047, 984, 1093, 9924, 9557, 1478, 3703, 1479, 2170, 8413, 2637, 1752, 3656, 8399, 2175, 8703, 1658, 6385, 3661, 6129, 4208]
def c3sS9 : IBF := IBF.mk [0, 777777] [Bucket.mk 4339 1, Bucket.mk 0 0, Bucket.mk 0 0, Bucket.mk 0 0, Bucket.mk 0 0, Bucket.mk 0 0, Bucket.mk 0 0, Bucket.mk 0 0, Bucket.mk 0 0, Bucket.mk 0 0, Bucket.mk 0 0, Bucket.mk 0 0, Bucket.mk 0 0, Bucket.mk 0 0, Bucket.mk 0 0, Bucket.mk 0 0, Bucket.mk 0 0, Bucket.mk 0 0, Bucket.mk 0 0, Bucket.mk 0 0, Bucket.mk 0 0, Bucket.mk 0 0, Bucket.mk 0 0, Bucket.mk 0 0, Bucket.mk 0 0, Bucket.mk 0 0, Bucket.mk 0 0, Bucket.mk 0 0, Bucket.mk 0 0, Bucket.mk 0 0, Bucket.mk 0 0, Bucket.mk 0 0, Bucket.mk 0 0, Bucket.mk 0 0, Bucket.mk 0 0, Bucket.mk 0 0, Bucket.mk 0 0, Bucket.mk 0 0, Bucket.mk 0 0, Bucket.mk 0 0, Bucket.mk 0 0, Bucket.mk 0 0, Bucket.mk 0 0, Bucket.mk 0 0, Bucket.mk 0 0, Bucket.mk 0 0, Bucket.mk 0 0, Bucket.mk 0 0, Bucket.mk 0 0, Bucket.mk 0 0, Bucket.mk 0 0, Bucket.mk 0 0, Bucket.mk 0 0, Bucket.mk 0 0, Bucket.mk 0 0, Bucket.mk 0 0, Bucket.mk 0 0, Bucket.mk 0 0, Bucket.mk 0 0, Bucket.mk 0 0, Bucket.mk 0 0, Bucket.mk 0 0, Bucket.mk 0 0, Bucket.mk 0 0, Bucket.mk 0 0, Bucket.mk 0 0, Bucket.mk 0 0, Bucket.mk 0 0, Bucket.mk 0 0, Bucket.mk 0 0, Bucket.mk 0 0, Bucket.mk 0 0, Bucket.mk 0 0, Bucket.mk 0 0, Bucket.mk 0 0, Bucket.mk 0 0, Bucket.mk 0 0, Bucket.mk 0 0, Bucket.mk 0 0, Bucket.mk 0 0, Bucket.mk 0 0, Bucket.mk 0 0, Bucket.mk 0 0, Bucket.mk 0 0, Bucket.mk 0 0, Bucket.mk 0 0, Bucket.mk 0 0, Bucket.mk 0 0, Bucket.mk 0 0, Bucket.mk 0 0, Bucket.mk 0 0, Bucket.mk 0 0, Bucket.mk 0 0, Bucket.mk 0 0, Bucket.mk 0 0, Bucket.mk 0 0, Bucket.mk 0 0, Bucket.mk 0 0, Bucket.mk 0 0, Bucket.mk 0 0, Bucket.mk 0 0, Bucket.mk 0 0, Bucket.mk 0 0, Bucket.mk 0 0, Bucket.mk 0 0, Bucket.mk 0 0, Bucket.mk 0 0, Bucket.mk 0 0, Bucket.mk 0 0, Bucket.mk 0 0, Bucket.mk 0 0, Bucket.mk 0 0, Bucket.mk 0 0, Bucket.mk 0 0, Bucket.mk 0 0, Bucket.mk 0 0, Bucket.mk 0 0, Bucket.mk 0 0, Bucket.mk 0 0, Bucket.mk 0 0, Bucket.mk 0 0, Bucket.mk 0 0, Bucket.mk 0 0, Bucket.mk 0 0, Bucket.mk 0 0, Bucket.mk 0 0, Bucket.mk 0 0, Bucket.mk 0 0, Bucket.mk 0 0, Bucket.mk 0 0, Bucket.mk 0 0, Bucket.mk 0 0, Bucket.mk 0 0, Bucket.mk 0 0, Bucket.mk 0 0, Bucket.mk 0 0, Bucket.mk 0 0, Bucket.mk 0 0, Bucket.mk 0 0, Bucket.mk 0 0, Bucket.mk 0 0, Bucket.mk 0 0, Bucket.mk 0 0, Bucket.mk 0 0, Bucket.mk 0 0, Bucket.mk 0 0, Bucket.mk 0 0, Bucket.mk 0 0, Bucket.mk 0 0, Bucket.mk 0 0, Bucket.mk 0 0, Bucket.mk 0 0, Bucket.mk 0 0, Bucket.mk 0 0, Bucket.mk 0 0, Bucket.mk 0 0, Bucket.mk 0 0, Bucket.mk 0 0, Bucket.mk 0 0, Bucket.mk 0 0, Bucket.mk 0 0, Bucket.mk 0 0, Bucket.mk 0 0, Bucket.mk 0 0, Bucket.mk 0 0, Bucket.mk 0 0, Bucket.mk 0 0, Bucket.mk 0 0, Bucket.mk 0 0, Bucket.mk 0 0, Bucket.mk 0 0, Bucket.mk 0 0, Bucket.mk 0 0, Bucket.mk 0 0, Bucket.mk 0 0, Bucket.mk 0 0, Bucket.mk 0 0, Bucket.mk 0 0, Bucket.mk 0 0, Bucket.mk 0 0, Bucket.mk 0 0, Bucket.mk 0 0, Bucket.mk 0 0, Bucket.mk 0 0, Bucket.mk 0 0, Bucket.mk 0 0, Bucket.mk 0 0, Bucket.mk 0 0, Bucket.mk 0 0, Bucket.mk 0 0, Bucket.mk 0 0, Bucket.mk 0 0, Bucket.mk 0 0, Bucket.mk 0 0, Bucket.mk 0 0, Bucket.mk 0 0, Bucket.mk 0 0, Bucket.mk 0 0, Bucket.mk 0 0, Bucket.mk 0 0, Bucket.mk 0 0, Bucket.mk 0 0, Bucket.mk 0 0, Bucket.mk 0 0, Bucket.mk 0 0, Bucket.mk 0 0, Bucket.mk 0 0, Bucket.mk 0 0, Bucket.mk 0 0, Bucket.mk 0 0, Bucket.mk 0 0, Bucket.mk 0 0, Bucket.mk 0 0, Bucket.mk 0 0, Bucket.mk 0 0, Bucket.mk 0 0, Bucket.mk 0 0, Bucket.mk 0 0, Bucket.mk 0 0, Bucket.mk 0 0, Bucket.mk 0 0, Bucket.mk 0 0, Bucket.mk 0 0, Bucket.mk 0 0, Bucket.mk 0 0, Bucket.mk 0 0, Bucket.mk 0 0, Bucket.mk 0 0, Bucket.mk 0 0, Bucket.mk 0 0, Bucket.mk 0 0, Bucket.mk 0 0, Bucket.mk 0 0, Bucket.mk 0 0, Bucket.mk 0 0, Bucket.mk 0 0, Bucket.mk 0 0, Bucket.mk 0 0, Bucket.mk 0 0, Bucket.mk 0 0, Bucket.mk 0 0, Bucket.mk 0 0, Bucket.mk 0 0, Bucket.mk 0 0, Bucket.mk 0 0, Bucket.mk 0 0, Bucket.mk 0 0, Bucket.mk 0 0, Bucket.mk 0 0, Bucket.mk 0 0, Bucket.mk 0 0, Bucket.mk 0 0, Bucket.mk 0 0, Bucket.mk 0 0, Bucket.mk 0 0, Bucket.mk 0 0, Bucket.mk 3582 1] 1
def c3res9 : List Nat := [4338, 9854, 7152, 13680, 13253, 14145, 4855, 13126, 4087, 8051, 5877, 4472, 12488, 13177, 14023, 8038, 13259, 13179, 7144, 5448, 4812, 6780, 12543, 6255, 14335, 12926, 5116, 13421, 5629, 2736, 8674, 2739, 7679, 13422, 2355, 9329, 3360, 3505, 2100, 3986, 9203, 8551, 295, 2472, 8185, 9573, 2329, 3751, 10219, 3495, 10220, 9849, 1848, 1465, 2076, 446, 2862, 686, 12013, 9309, 1565, 7073, 3357, 12387, 1822, 11886, 13280, 13409, 4388, 6549, 5393, 14423, 12759, 14179, 5395, 4504, 13540, 6053, 13035, 6299, 5398, 6555, 5927, 13929, 5145, 13912, 12270, 4526, 5914, 13151, 14029, 657, 2832, 8093, 5148, 5518, 8978, 10643, 8210, 10373, 517, 1921, 1281, 9363, 9219, 9111, 775, 153, 264, 9605, 9477, 3510, 3127, 1174, 9991, 908, 8221, 3465, 540, 9610, 10303, 654, 8975, 11405, 4097, 3517, 9533, 1470, 6659, 5043, 4658, 4532, 5121, 8097, 14388, 6279, 14130, 13747, 4614, 6841, 5940, 12472, 13065, 7351, 14395, 8103, 14394, 7592, 14088, 7101, 12300, 13230, 6462, 5039, 4654, 5548, 625, 7868, 8736, 8626, 8243, 738, 5423, 2032, 1392, 8868, 3441, 502, 9267, 3031, 1891, 9652, 10281, 8376, 3156, 2522, 2155, 3286, 1399, 2524, 2157, 748, 10268, 2799, 1147, 8623, 1626, 9885, 12305, 9884, 11549, 11439, 3950, 3294, 4451, 5841, 8032, 6884, 13344, 5859, 12582, 7394, 13330, 6857, 12841, 14488, 14360, 4315, 6219, 7894, 4698, 5608, 13592, 4573, 8025, 6622, 6751, 5087, 4686, 6108, 8273, 2256, 2112, 9154, 8771, 6111, 10579, 4048, 2117, 8404, 2373, 2263, 2374, 3826, 9047, 984, 1093, 9924, 9557, 1478, 3703, 1479, 2170, 8413, 2637, 1752, 3656, 8399, 2175, 8703, 1658, 6385, 3661, 6129, 4208, 3582]
-- GEN_DEFS_END

/-! ## The dictionary variant `InvertibleBloomDictionary`

Identical to the set variant except that each bucket additionally
accumulates the xor of the values routed to it, `get` recovers a value
through a singleton probe bucket, `remove` is guarded by `get` instead of
`contains`, and `listAll` accumulates key/value pairs in a vector
(`push_back`, no deduplication). -/

/-- Bucket of the dictionary variant:
`{ Key cumulative_key; Value cumulative_value; BucketCounter count; }`. -/
structure Bucket2 where
  cumulative_key : Nat
  cumulative_value : Nat
  count : Nat
  deriving DecidableEq, Repr

/-- The fields of an `InvertibleBloomDictionary` object. -/
structure IBF2 where
  seeds : List Nat
  buckets : List Bucket2
  count : Nat
  deriving DecidableEq, Repr

/-- Read bucket `i` of a dictionary directory (total, with a default). -/
def bget2 (bs : List Bucket2) (i : Nat) : Bucket2 :=
  bs.getD i ⟨0, 0, 0⟩

/-- The common mutation loop of the dictionary's `insert` and `remove`. -/
def touchLoop2 (f : Bucket2 → Bucket2) :
    List Nat → List Nat → List Bucket2 → List Bucket2
  | [], _, bs => bs
  | i :: rest, seen, bs =>
      if i ∈ seen then touchLoop2 f rest seen bs
      else touchLoop2 f rest (i :: seen) (bs.set i (f (bget2 bs i)))

/-- `InvertibleBloomDictionary::insert`: xor key and value into each distinct
probe bucket, increment its counter (mod `m`), increment the global count. -/
def insert2 (cfg : Cfg) (key v : Nat) (S : IBF2) : IBF2 :=
  { S with
    buckets := touchLoop2
      (fun b => ⟨b.cumulative_key ^^^ key, b.cumulative_value ^^^ v,
        (b.count + 1) % cfg.m⟩)
      (probeList cfg S.buckets.length S.seeds key) [] S.buckets
    count := S.count + 1 }

/-- The seed-scanning loop of the dictionary's `contains`. -/
def containsGo2 (cfg : Cfg) (n : Nat) (bs : List Bucket2) (key : Nat) :
    List Nat → Bool → Option ContainsResult
  | [], mi => some (if mi then .might_exist else .not_found)
  | s :: rest, mi =>
      match bs[hash_index cfg n key s]? with
      | none => none
      | some b =>
          if b.count = 1 then
            some (if key = b.cumulative_key then .found else .not_found)
          else
            containsGo2 cfg n bs key rest (mi || decide (b.count > 1))

/-- `InvertibleBloomDictionary::contains`. -/
def contains2 (cfg : Cfg) (S : IBF2) (key : Nat) : Option ContainsResult :=
  containsGo2 cfg S.buckets.length S.buckets key S.seeds false

/-- The seed-scanning loop of `get`: the first probe bucket with `count == 1`
answers definitively; if no probe bucket is a singleton, the value is not
recoverable (`std::nullopt`, the inner `none`).  The outer `none` is the
failed bucket access of the empty directory (undefined behaviour in C++). -/
def getGo2 (cfg : Cfg) (n : Nat) (bs : List Bucket2) (key : Nat) :
    List Nat → Option (Option Nat)
  | [] => some none
  | s :: rest =>
      match bs[hash_index cfg n key s]? with
      | none => none
      | some b =>
          if b.count = 1 then
            some (if key = b.cumulative_key then some b.cumulative_value else none)
          else getGo2 cfg n bs key rest

/-- `InvertibleBloomDictionary::get`. -/
def get2 (cfg : Cfg) (S : IBF2) (key : Nat) : Option (Option Nat) :=
  getGo2 cfg S.buckets.length S.buckets key S.seeds

/-- `InvertibleBloomDictionary::remove`: fail (without mutating) unless `get`
recovers a value; otherwise xor the key and the recovered value back out of
each distinct probe bucket and decrement its counter, then decrement the
global count.  (The outer-`none` case of `get2` is the empty directory,
undefined behaviour in C++; theorems only reason below the hypothesis
`0 < directory size`, where it cannot arise.) -/
def remove2 (cfg : Cfg) (key : Nat) (S : IBF2) : Bool × IBF2 :=
  match get2 cfg S key with
  | some (some v) =>
      (true,
        { S with
          buckets := touchLoop2
            (fun b => ⟨b.cumulative_key ^^^ key, b.cumulative_value ^^^ v,
              (b.count + (cfg.m - 1)) % cfg.m⟩)
            (probeList cfg S.buckets.length S.seeds key) [] S.buckets
          count := S.count - 1 })
  | _ => (false, S)

/-- One bucket visit of the peeling scan of the dictionary's `listAll`:
key/value pairs are appended to a vector (`push_back`). -/
def scanGo2 (cfg : Cfg) : List Nat → IBF2 → List (Nat × Nat) → Bool → Bool →
    IBF2 × List (Nat × Nat) × Bool × Bool
  | [], S, res, fin, ch => (S, res, fin, ch)
  | i :: rest, S, res, fin, ch =>
      let b := bget2 S.buckets i
      if b.count = 0 then scanGo2 cfg rest S res fin ch
      else if b.count > 1 then scanGo2 cfg rest S res false ch
      else
        let res' := res ++ [(b.cumulative_key, b.cumulative_value)]
        let p := remove2 cfg b.cumulative_key S
        scanGo2 cfg rest p.2 res' fin p.1

/-- The `while (!finished && has_changed)` loop of the dictionary's
`listAll`, with an explicit pass budget. -/
def decodeGo2 (cfg : Cfg) :
    Nat → IBF2 → List (Nat × Nat) → IBF2 × List (Nat × Nat) × Bool × Bool
  | 0, S, res => (S, res, false, false)
  | fuel + 1, S, res =>
      match scanGo2 cfg (List.range S.buckets.length) S res true false with
      | (S', res', fin, ch) =>
          if fin || !ch then (S', res', fin, true)
          else decodeGo2 cfg fuel S' res'

/-- `InvertibleBloomDictionary::listAll`. -/
def listAll2 (cfg : Cfg) (S : IBF2) : Option (List (Nat × Nat)) :=
  let r := decodeGo2 cfg (S.buckets.length * (cfg.m - 1) + 2) S []
  if !r.2.2.1 || r.2.1.length ≠ S.count then none else some r.2.1

/-- A freshly constructed dictionary. -/
def empty2 (seeds : List Nat) (n : Nat) : IBF2 :=
  ⟨seeds, List.replicate n ⟨0, 0, 0⟩, 0⟩

/-- `size()` of the dictionary. -/
def size2 (S : IBF2) : Nat := S.count

/-- Client operations on a dictionary: `insert(k, v)` or `remove(k)`. -/
inductive Op2 where
  | ins (k v : Nat)
  | rem (k : Nat)
  deriving DecidableEq, Repr

/-- One client operation on a dictionary, executed on the state paired with
the abstract list of key/value pairs currently inserted and not yet removed.
A successful `remove(k)` removes the pair whose value the call recovered
through `get` — under the no-wrap invariant proved below, exactly the
present pair with key `k`; a failing `remove` changes nothing. -/
def step2 (cfg : Cfg) : IBF2 × List (Nat × Nat) → Op2 → IBF2 × List (Nat × Nat)
  | (S, P), .ins k v => (insert2 cfg k v S, (k, v) :: P)
  | (S, P), .rem k =>
      ((remove2 cfg k S).2,
        match get2 cfg S k with
        | some (some v) => P.erase (k, v)
        | _ => P)

/-- Run a trace of client operations from a freshly constructed dictionary,
returning the final state and the list of currently-inserted pairs. -/
def runP2 (cfg : Cfg) (S₀ : IBF2) (t : List Op2) : IBF2 × List (Nat × Nat) :=
  t.foldl (step2 cfg) (S₀, [])

/-- The key/value pairs of the insert operations of a trace, in order. -/
def insKeys2 : List Op2 → List (Nat × Nat)
  | [] => []
  | .ins k v :: t => (k, v) :: insKeys2 t
  | .rem _ :: t => insKeys2 t

/-- Number of insert operations in a dictionary trace. -/
def insCount2 (t : List Op2) : Nat := (insKeys2 t).length

/-- The pairs of `P` (with multiplicity) whose key has `i` among its probe
indices. -/
def routedPairs (cfg : Cfg) (n : Nat) (seeds : List Nat) (i : Nat)
    (P : List (Nat × Nat)) : List (Nat × Nat) :=
  P.filter (fun kv => decide (i ∈ probeList cfg n seeds kv.1))

/-- The abstraction invariant of the dictionary: every bucket holds the xor
of the keys, the xor of the values and the number of the present pairs
routed to it. -/
def Inv2 (cfg : Cfg) (n : Nat) (seeds : List Nat) (S : IBF2)
    (P : List (Nat × Nat)) : Prop :=
  S.seeds = seeds ∧ S.buckets.length = n ∧ S.count = P.length ∧
  P.length < cfg.m ∧
  ∀ i, i < n →
    bget2 S.buckets i =
      ⟨xorSum ((routedPairs cfg n seeds i P).map Prod.fst),
        xorSum ((routedPairs cfg n seeds i P).map Prod.snd),
        (routedPairs cfg n seeds i P).length⟩

/-! ## `listAll` as a method call on the receiver object

The C++ `listAll` is a `const` method: its body copies `*this` into a local
`copy`, runs the peeling loop (whose `remove` calls mutate `copy` only), and
returns the result.  The state-transformer embeddings below return the
method's result together with the receiver state as it stands after the
call. -/

/-- The set variant's `listAll` as a state transformer on the receiver:
the peeling loop runs on the local copy, and the receiver is returned as the
post-call state. -/
def listAllOp (cfg : Cfg) (S : IBF) : Option (List Nat) × IBF :=
  let copy := S
  let r := decodeGo cfg (copy.buckets.length * (cfg.m - 1) + 2) copy []
  (if !r.2.2.1 || r.2.1.length ≠ copy.count then none else some r.2.1, S)

/-- The dictionary variant's `listAll` as a state transformer on the
receiver. -/
def listAllOp2 (cfg : Cfg) (S : IBF2) : Option (List (Nat × Nat)) × IBF2 :=
  let copy := S
  let r := decodeGo2 cfg (copy.buckets.length * (cfg.m - 1) + 2) copy []
  (if !r.2.2.1 || r.2.1.length ≠ copy.count then none else some r.2.1, S)

/-! ## The constructor's seed-generation loop

The constructor draws `K` seeds from the random engine; each draw is a
do-while loop that redraws while the candidate collides with a previously
accepted seed.  The randomness source is embedded as a stream
`Nat → Nat` indexed by the draw position, and the do-while loop as a fueled
recursion (`none` = the loop is still running when the fuel runs out; a
result independent of all sufficiently large fuels is the loop's true
outcome).  Crucially, mirroring the source, `already_exists` is initialized
`false` once per accepted seed, and the body only ever or-accumulates into
it (`already_exists |= seeds[j] == rand_seed`) — it is never reset between
iterations of the do-while. -/

/-- The `do { rand_seed = dist(rng); for (j < i) already_exists |= ...; }
while (already_exists)` loop: `t` is the stream position, `already` the
accumulator as of entry to the body.  Returns the accepted seed and the new
stream position. -/
def drawLoop (stream : Nat → Nat) (prev : List Nat) :
    Nat → Nat → Bool → Option (Nat × Nat)
  | 0, _, _ => none
  | fuel + 1, t, already =>
      let r := stream t
      let already' := already || prev.contains r
      if already' then drawLoop stream prev fuel (t + 1) already'
      else some (r, t + 1)

/-- The outer `for (i < K)` loop of the constructor: accept `K` seeds in
turn, each via `drawLoop` against the seeds accepted so far. -/
def genSeedsGo (stream : Nat → Nat) (fuel : Nat) :
    Nat → Nat → List Nat → Option (List Nat)
  | 0, _, acc => some acc.reverse
  | i + 1, t, acc =>
      match drawLoop stream acc fuel t false with
      | none => none
      | some (r, t') => genSeedsGo stream fuel i t' (r :: acc)

/-- Randomness stream witnessing the seed-loop divergence: the first draw
yields `7` (accepted as `seeds[0]`), the second draw collides with it, and
every later draw is fresh (distinct from `7` and from each other). -/
def c5stream : Nat → Nat
  | 0 => 7
  | 1 => 7
  | t => t + 100

/-! ## Basic glue lemmas for evaluating concrete traces

Term-level evaluation of a 256-step fold would nest accumulator thunks too
deeply for the elaborator, so concrete runs are evaluated in chunks, glued by
the following lemmas. -/

/-- Folding a pure-insert trace acts on the two components independently:
the state receives the inserts, the present-key list receives the keys in
reverse order. -/
theorem foldl_step_ins (cfg : Cfg) (S : IBF) (P : List Nat) (ks : List Nat) :
    List.foldl (step cfg) (S, P) (ks.map Op.ins) =
      (insFold cfg S ks, ks.reverse ++ P) := by
  induction ks generalizing S P with
  | nil => simp [insFold]
  | cons k rest ih =>
      simp only [List.map_cons, List.foldl_cons, step, insFold, List.reverse_cons]
      rw [ih]
      simp [insFold]

/-- The peeling scan over a split index list is the composition of the scans
over the two halves. -/
theorem scanGo_append (cfg : Cfg) (l1 l2 : List Nat) (S : IBF) (res : List Nat)
    (fin ch : Bool) :
    scanGo cfg (l1 ++ l2) S res fin ch =
      scanGo cfg l2 (scanGo cfg l1 S res fin ch).1
        (scanGo cfg l1 S res fin ch).2.1
        (scanGo cfg l1 S res fin ch).2.2.1
        (scanGo cfg l1 S res fin ch).2.2.2 := by
  induction l1 generalizing S res fin ch with
  | nil => rfl
  | cons i l1' ih =>
      simp only [List.cons_append, scanGo]
      split
      · exact ih ..
      · split
        · exact ih ..
        · exact ih ..

/-- Chain form of `List.foldl_append` for `insFold`. -/
theorem insFold_append_eq {cfg : Cfg} {S S1 : IBF} {a b : List Nat}
    (h : insFold cfg S a = S1) : insFold cfg S (a ++ b) = insFold cfg S1 b := by
  unfold insFold at h ⊢
  rw [List.foldl_append, h]

/-- Chain form of `scanGo_append`. -/
theorem scanGo_append_eq {cfg : Cfg} {l1 l2 : List Nat} {S S1 : IBF}
    {res res1 : List Nat} {fin ch fin1 ch1 : Bool}
    (h : scanGo cfg l1 S res fin ch = (S1, res1, fin1, ch1)) :
    scanGo cfg (l1 ++ l2) S res fin ch = scanGo cfg l2 S1 res1 fin1 ch1 := by
  rw [scanGo_append, h]

/-- If the first pass of the decode loop ends with `finished = true`, the
loop exits regardless of the remaining pass budget. -/
theorem decodeGo_succ_exit (cfg : Cfg) (fuel : Nat) (S S' : IBF)
    (res res' : List Nat) (ch : Bool)
    (h : scanGo cfg (List.range S.buckets.length) S res true false =
      (S', res', true, ch)) :
    decodeGo cfg (fuel + 1) S res = (S', res', true, true) := by
  simp [decodeGo, h]

end ibf

namespace ibf

-- GEN_THMS_BEGIN
-- Chunked evaluation of the C2/C6/C3 counterexample traces.

set_option maxRecDepth 4000 in
theorem c2range_split : List.range 256 = c2r1 ++ (c2r2 ++ (c2r3 ++ c2r4)) := by
  decide

set_option maxRecDepth 4000 in
theorem c2chunk1 : insFold cfg8 (empty [0, 1, 2] 1) c2r1 = c2st1 := by decide
set_option maxRecDepth 4000 in
theorem c2chunk2 : insFold cfg8 c2st1 c2r2 = c2st2 := by decide
set_option maxRecDepth 4000 in
theorem c2chunk3 : insFold cfg8 c2st2 c2r3 = c2st3 := by decide
set_option maxRecDepth 4000 in
theorem c2chunk4 : insFold cfg8 c2st3 c2r4 = c2st4 := by decide

theorem c2insFold : insFold cfg8 (empty [0, 1, 2] 1) (List.range 256) = c2st4 := by
  rw [c2range_split, insFold_append_eq c2chunk1, insFold_append_eq c2chunk2,
    insFold_append_eq c2chunk3, c2chunk4]

theorem c2state_eq : c2state = (c2st4, (List.range 256).reverse) := by
  unfold c2state runP c2trace
  rw [foldl_step_ins]
  simp only [Prod.mk.injEq, List.append_nil]
  exact ⟨c2insFold, trivial⟩


theorem c6chunk : insFold cfg8 c2st4 [256] = c6stF := by decide

theorem c6insFold : insFold cfg8 (empty [0, 1, 2] 1) (List.range 257) = c6stF := by
  have h : (257 : Nat) = 256 + 1 := rfl
  rw [h, List.range_succ, insFold_append_eq c2insFold, c6chunk]

theorem c6state_eq : c6state = (c6stF, (List.range 257).reverse) := by
  unfold c6state runP c6trace
  rw [foldl_step_ins]
  simp only [Prod.mk.injEq, List.append_nil]
  exact ⟨c6insFold, trivial⟩


set_option maxRecDepth 4000 in
theorem c3keys_split : c3keys = c3k1 ++ (c3k2 ++ (c3k3 ++ (c3k4 ++ c3k5))) := by
  decide


set_option maxRecDepth 4000 in
theorem c3ichunk1 : insFold c3cfg (empty c3seeds 257) c3k1 = c3stI1 := by decide
set_option maxRecDepth 4000 in
theorem c3ichunk2 : insFold c3cfg c3stI1 c3k2 = c3stI2 := by decide
set_option maxRecDepth 4000 in
theorem c3ichunk3 : insFold c3cfg c3stI2 c3k3 = c3stI3 := by decide
set_option maxRecDepth 4000 in
theorem c3ichunk4 : insFold c3cfg c3stI3 c3k4 = c3stI4 := by decide
set_option maxRecDepth 4000 in
theorem c3ichunk5 : insFold c3cfg c3stI4 c3k5 = c3stI5 := by decide

theorem c3insFold : insFold c3cfg (empty c3seeds 257) c3keys = c3stI5 := by
  rw [c3keys_split, insFold_append_eq c3ichunk1, insFold_append_eq c3ichunk2,
    insFold_append_eq c3ichunk3, insFold_append_eq c3ichunk4, c3ichunk5]


set_option maxRecDepth 4000 in
theorem c3rem : remove c3cfg 1358 c3stI5 = (true, c3stRem) := by decide

set_option maxRecDepth 4000 in
theorem c3step_rem :
    step c3cfg (c3stI5, c3keys.reverse) (Op.rem 1358) = (c3stRem, c3keys.reverse) := by
  decide

theorem c3state_eq : c3state = (c3stRem, c3keys.reverse) := by
  unfold c3state runP c3trace
  rw [List.foldl_append, foldl_step_ins]
  rw [c3insFold]
  simp only [List.append_nil]
  simp only [List.foldl_cons, List.foldl_nil]
  exact c3step_rem


set_option maxRecDepth 4000 in
theorem c3range_split :
    List.range 257 = c3r1 ++ (c3r2 ++ (c3r3 ++ (c3r4 ++ (c3r5 ++ (c3r6 ++ (c3r7 ++ (c3r8 ++ c3r9))))))) := by
  decide

set_option maxRecDepth 4000 in
theorem c3schunk1 :
    scanGo c3cfg c3r1 c3stRem [] true false = (c3sS1, c3res1, true, true) := by
  decide

set_option maxRecDepth 4000 in
theorem c3schunk2 :
    scanGo c3cfg c3r2 c3sS1 c3res1 true true = (c3sS2, c3res2, true, true) := by
  decide

set_option maxRecDepth 4000 in
theorem c3schunk3 :
    scanGo c3cfg c3r3 c3sS2 c3res2 true true = (c3sS3, c3res3, true, true) := by
  decide

set_option maxRecDepth 4000 in
theorem c3schunk4 :
    scanGo c3cfg c3r4 c3sS3 c3res3 true true = (c3sS4, c3res4, true, true) := by
  decide

set_option maxRecDepth 4000 in
theorem c3schunk5 :
    scanGo c3cfg c3r5 c3sS4 c3res4 true true = (c3sS5, c3res5, true, true) := by
  decide

set_option maxRecDepth 4000 in
theorem c3schunk6 :
    scanGo c3cfg c3r6 c3sS5 c3res5 true true = (c3sS6, c3res6, true, true) := by
  decide

set_option maxRecDepth 4000 in
theorem c3schunk7 :
    scanGo c3cfg c3r7 c3sS6 c3res6 true true = (c3sS7, c3res7, true, true) := by
  decide

set_option maxRecDepth 4000 in
theorem c3schunk8 :
    scanGo c3cfg c3r8 c3sS7 c3res7 true true = (c3sS8, c3res8, true, true) := by
  decide

set_option maxRecDepth 4000 in
theorem c3schunk9 :
    scanGo c3cfg c3r9 c3sS8 c3res8 true true = (c3sS9, c3res9, true, false) := by
  decide

theorem c3scan_full :
    scanGo c3cfg (List.range 257) c3stRem [] true false = (c3sS9, c3res9, true, false) := by
  rw [c3range_split, scanGo_append_eq c3schunk1, scanGo_append_eq c3schunk2,
    scanGo_append_eq c3schunk3, scanGo_append_eq c3schunk4, scanGo_append_eq c3schunk5,
    scanGo_append_eq c3schunk6, scanGo_append_eq c3schunk7, scanGo_append_eq c3schunk8,
    c3schunk9]

set_option maxRecDepth 4000 in
theorem c3_listAll_eq : listAll c3cfg c3stRem = some c3res9 := by
  have hlen : c3stRem.buckets.length = 257 := by decide
  have hscan : scanGo c3cfg (List.range c3stRem.buckets.length) c3stRem [] true false
      = (c3sS9, c3res9, true, false) := by
    rw [hlen]; exact c3scan_full
  have hdec : decodeGo c3cfg (c3stRem.buckets.length * (c3cfg.m - 1) + 2) c3stRem []
      = (c3sS9, c3res9, true, true) := by
    have hfuel : c3stRem.buckets.length * (c3cfg.m - 1) + 2 = 65536 + 1 := by decide
    rw [hfuel]
    exact decodeGo_succ_exit _ _ _ _ _ _ _ hscan
  unfold listAll
  rw [hdec]
  decide

-- GEN_THMS_END

end ibf

/-! ## List and xor utilities -/

namespace ibf

/-- xor over a permuted list. -/
theorem xorSum_perm {l l' : List Nat} (h : l.Perm l') : xorSum l = xorSum l' := by
  induction h with
  | nil => rfl
  | cons a _ ih => simp only [xorSum, List.foldr_cons] at ih ⊢; rw [ih]
  | swap a b l =>
      simp only [xorSum, List.foldr_cons]
      rw [← Nat.xor_assoc, Nat.xor_comm b a, Nat.xor_assoc]
  | trans _ _ ih1 ih2 => exact ih1.trans ih2

theorem xorSum_cons (a : Nat) (l : List Nat) : xorSum (a :: l) = a ^^^ xorSum l := rfl

/-- Reading a set position. -/
theorem bget_set_self {bs : List Bucket} {i : Nat} (v : Bucket) (h : i < bs.length) :
    bget (bs.set i v) i = v := by
  induction bs generalizing i with
  | nil => simp at h
  | cons b tl ih =>
      cases i with
      | zero => rfl
      | succ j =>
          simp only [List.set, bget, List.getD_cons_succ] at ih ⊢
          exact ih (by simpa using h)

/-- Reading an unset position. -/
theorem bget_set_ne {bs : List Bucket} {i j : Nat} (v : Bucket) (h : i ≠ j) :
    bget (bs.set i v) j = bget bs j := by
  induction bs generalizing i j with
  | nil => rfl
  | cons b tl ih =>
      cases i with
      | zero =>
          cases j with
          | zero => exact absurd rfl h
          | succ j' => rfl
      | succ i' =>
          cases j with
          | zero => rfl
          | succ j' =>
              simp only [List.set, bget, List.getD_cons_succ]
              exact ih (fun hc => h (by rw [hc]))

/-- In-range positions relate `getElem?` and `bget`. -/
theorem get?_eq_bget {bs : List Bucket} {i : Nat} (h : i < bs.length) :
    bs[i]? = some (bget bs i) := by
  induction bs generalizing i with
  | nil => simp at h
  | cons b tl ih =>
      cases i with
      | zero => simp [bget]
      | succ j =>
          simp only [List.getElem?_cons_succ, bget, List.getD_cons_succ]
          exact ih (by simpa using h)

/-- Out-of-range positions read `none`. -/
theorem get?_none_of_le {bs : List Bucket} {i : Nat} (h : bs.length ≤ i) :
    bs[i]? = none := by
  induction bs generalizing i with
  | nil => simp
  | cons b tl ih =>
      cases i with
      | zero => simp at h
      | succ j =>
          simp only [List.getElem?_cons_succ]
          exact ih (by simpa using h)

/-- A `bget` on the all-zero directory. -/
theorem bget_replicate (n i : Nat) : bget (List.replicate n ⟨0, 0⟩) i = ⟨0, 0⟩ := by
  induction n generalizing i with
  | zero => cases i <;> rfl
  | succ n ih =>
      cases i with
      | zero => rfl
      | succ j => simp only [List.replicate, bget, List.getD_cons_succ]; exact ih j

/-- Probe indices land in the directory. -/
theorem probe_lt {cfg : Cfg} {n : Nat} {seeds : List Nat} {k : Nat} (hn : 0 < n) :
    ∀ x ∈ probeList cfg n seeds k, x < n := by
  intro x hx
  obtain ⟨s, -, rfl⟩ := List.mem_map.mp hx
  exact Nat.mod_lt _ hn

/-- Erasing a key not selected by the filter leaves the filter unchanged. -/
theorem filter_erase_neg {p : Nat → Bool} {k : Nat} (hp : p k = false) :
    ∀ P : List Nat, (P.erase k).filter p = P.filter p := by
  intro P
  induction P with
  | nil => rfl
  | cons a tl ih =>
      by_cases hak : a = k
      · subst hak
        rw [List.erase_cons_head, List.filter_cons_of_neg (by simpa using hp)]
      · rw [List.erase_cons_tail (by simpa using hak), List.filter_cons,
          List.filter_cons, ih]

/-! ## Effect of the mutation loop -/

theorem touchLoop_length (f : Bucket → Bucket) :
    ∀ (idxs seen : List Nat) (bs : List Bucket),
      (touchLoop f idxs seen bs).length = bs.length := by
  intro idxs
  induction idxs with
  | nil => intro seen bs; rfl
  | cons i rest ih =>
      intro seen bs
      simp only [touchLoop]
      split
      · exact ih ..
      · rw [ih, List.length_set]

/-- The mutation loop applies `f` exactly once to each listed index not
already seen, and touches nothing else. -/
theorem touchLoop_get (f : Bucket → Bucket) :
    ∀ (idxs seen : List Nat) (bs : List Bucket) (j : Nat),
      (∀ x ∈ idxs, x < bs.length) →
      bget (touchLoop f idxs seen bs) j =
        if j ∈ idxs ∧ j ∉ seen then f (bget bs j) else bget bs j := by
  intro idxs
  induction idxs with
  | nil => intro seen bs j _; simp [touchLoop]
  | cons i rest ih =>
      intro seen bs j hidx
      simp only [touchLoop]
      by_cases hseen : i ∈ seen
      · rw [if_pos hseen, ih seen bs j (fun x hx => hidx x (List.mem_cons_of_mem _ hx))]
        by_cases hj : j = i
        · subst hj
          simp [hseen]
        · simp [hj]
      · rw [if_neg hseen,
          ih _ _ j (fun x hx => by
            rw [List.length_set]; exact hidx x (List.mem_cons_of_mem _ hx))]
        by_cases hj : j = i
        · subst hj
          rw [bget_set_self _ (hidx j (List.mem_cons_self ..))]
          simp [hseen]
        · rw [bget_set_ne _ (fun hc => hj hc.symm)]
          simp [hj]

/-! ## Effect of insert and remove on the state -/

theorem insert_seeds (cfg : Cfg) (k : Nat) (S : IBF) :
    (insert cfg k S).seeds = S.seeds := rfl

theorem insert_count (cfg : Cfg) (k : Nat) (S : IBF) :
    (insert cfg k S).count = S.count + 1 := rfl

theorem insert_length (cfg : Cfg) (k : Nat) (S : IBF) :
    (insert cfg k S).buckets.length = S.buckets.length :=
  touchLoop_length ..

/-- Per-bucket effect of `insert`. -/
theorem insert_bget (cfg : Cfg) (k : Nat) (S : IBF) (j : Nat)
    (hn : 0 < S.buckets.length) :
    bget (insert cfg k S).buckets j =
      if j ∈ probeList cfg S.buckets.length S.seeds k then
        ⟨(bget S.buckets j).cumulative_key ^^^ k, ((bget S.buckets j).count + 1) % cfg.m⟩
      else bget S.buckets j := by
  show bget (touchLoop _ _ [] _) j = _
  rw [touchLoop_get _ _ _ _ _ (probe_lt hn)]
  simp

/-- `remove` on a key whose membership query does not answer `exists`
fails and leaves the state untouched. -/
theorem remove_not_found (cfg : Cfg) (k : Nat) (S : IBF)
    (h : contains cfg S k ≠ some .found) :
    remove cfg k S = (false, S) := by
  rw [remove, if_neg h]

/-- `remove` on a key whose membership query answers `exists` succeeds,
with the per-bucket xor-and-decrement effect. -/
theorem remove_found (cfg : Cfg) (k : Nat) (S : IBF)
    (h : contains cfg S k = some .found) :
    remove cfg k S =
      (true,
        { S with
          buckets := touchLoop
            (fun b => ⟨b.cumulative_key ^^^ k, (b.count + (cfg.m - 1)) % cfg.m⟩)
            (probeList cfg S.buckets.length S.seeds k) [] S.buckets
          count := S.count - 1 }) := by
  rw [remove, if_pos h]

/-! ## The membership scan under the invariant -/

/-- xor is self-cancelling on the right. -/
theorem xor_cancel (a b : Nat) : (a ^^^ b) ^^^ a = b := by
  rw [Nat.xor_comm a b, Nat.xor_assoc, Nat.xor_self, Nat.xor_zero]

/-- A `found` answer comes from a probed singleton bucket holding the key. -/
theorem containsGo_found_elim {cfg : Cfg} {n : Nat} {bs : List Bucket} {k : Nat} :
    ∀ {ss : List Nat} {mi : Bool},
      containsGo cfg n bs k ss mi = some .found →
      ∃ s ∈ ss, ∃ b, bs[hash_index cfg n k s]? = some b ∧
        b.count = 1 ∧ k = b.cumulative_key := by
  intro ss
  induction ss with
  | nil => intro mi h; cases mi <;> simp [containsGo] at h
  | cons s rest ih =>
      intro mi h
      cases hb : bs[hash_index cfg n k s]? with
      | none => simp [containsGo, hb] at h
      | some b =>
          simp only [containsGo, hb] at h
          by_cases hc : b.count = 1
          · refine ⟨s, List.mem_cons_self .., b, hb, hc, ?_⟩
            rw [if_pos hc] at h
            by_cases hk : k = b.cumulative_key
            · exact hk
            · rw [if_neg hk] at h; simp at h
          · rw [if_neg hc] at h
            obtain ⟨s', hs', hrest⟩ := ih h
            exact ⟨s', List.mem_cons_of_mem _ hs', hrest⟩

/-- A singleton bucket of an encoded state holds exactly one present key. -/
theorem Inv_singleton {cfg : Cfg} {n : Nat} {seeds : List Nat} {S : IBF}
    {P : List Nat} (h : Inv cfg n seeds S P) {i : Nat} (hi : i < n)
    (hc : (bget S.buckets i).count = 1) :
    ∃ x, routedKeys cfg n seeds i P = [x] ∧
      (bget S.buckets i).cumulative_key = x ∧ x ∈ P ∧
      i ∈ probeList cfg n seeds x := by
  obtain ⟨-, -, -, -, hb⟩ := h
  simp only [hb i hi] at hc ⊢
  obtain ⟨x, hx⟩ := List.length_eq_one.mp hc
  have hxm : x ∈ routedKeys cfg n seeds i P := by
    rw [hx]; exact List.mem_singleton_self x
  obtain ⟨hxP, hxp⟩ := List.mem_filter.mp hxm
  exact ⟨x, hx, by rw [hx]; simp [xorSum], hxP, of_decide_eq_true hxp⟩

/-- A present key routed to `i` appears in the routed list. -/
theorem mem_routed {cfg : Cfg} {n : Nat} {seeds : List Nat} {i k : Nat}
    {P : List Nat} (hkP : k ∈ P) (hip : i ∈ probeList cfg n seeds k) :
    k ∈ routedKeys cfg n seeds i P :=
  List.mem_filter.mpr ⟨hkP, decide_eq_true hip⟩

/-- Under the invariant, the scan over any nonempty suffix of the seeds never
answers `not_found` for a present key, and never aborts. -/
theorem containsGo_present {cfg : Cfg} {n : Nat} {seeds : List Nat} {S : IBF}
    {P : List Nat} {k : Nat} (h : Inv cfg n seeds S P) (hn : 0 < n)
    (hkP : k ∈ P) :
    ∀ (ss : List Nat), (∀ s ∈ ss, s ∈ seeds) → ∀ (mi : Bool),
      (mi = true ∨ ss ≠ []) →
      containsGo cfg n S.buckets k ss mi ≠ some .not_found ∧
      containsGo cfg n S.buckets k ss mi ≠ none := by
  obtain ⟨hse, hlen, hcnt, hml, hb⟩ := h
  intro ss
  induction ss with
  | nil =>
      rintro - mi (hmi | hne)
      · subst hmi; simp [containsGo]
      · simp at hne
  | cons s rest ih =>
      intro hsub mi _
      have hidx : hash_index cfg n k s < n := Nat.mod_lt _ hn
      have hprobe : hash_index cfg n k s ∈ probeList cfg n seeds k :=
        List.mem_map.mpr ⟨s, hsub s (List.mem_cons_self ..), rfl⟩
      have hget := @get?_eq_bget S.buckets (hash_index cfg n k s)
        (by rw [hlen]; exact hidx)
      have hmem := mem_routed hkP hprobe
      have hcount : (bget S.buckets (hash_index cfg n k s)).count =
          (routedKeys cfg n seeds (hash_index cfg n k s) P).length := by
        rw [hb _ hidx]
      by_cases hc1 : (bget S.buckets (hash_index cfg n k s)).count = 1
      · obtain ⟨x, hx, hcum, -, -⟩ :=
          Inv_singleton ⟨hse, hlen, hcnt, hml, hb⟩ hidx hc1
        have hkx : k = x := by rw [hx] at hmem; simpa using hmem
        subst hkx
        simp only [containsGo, hget, if_pos hc1, hcum]
        simp
      · have hge : 1 ≤ (bget S.buckets (hash_index cfg n k s)).count := by
          rw [hcount]
          exact List.length_pos.mpr (List.ne_nil_of_mem hmem)
        have hgt : (bget S.buckets (hash_index cfg n k s)).count > 1 := by
          omega
        simp only [containsGo, hget, if_neg hc1]
        apply ih (fun x hx => hsub x (List.mem_cons_of_mem _ hx))
        left
        simp [hgt]

/-- A `found` answer is only given for present keys. -/
theorem contains_found_mem {cfg : Cfg} {n : Nat} {seeds : List Nat} {S : IBF}
    {P : List Nat} {k : Nat} (h : Inv cfg n seeds S P)
    (hf : contains cfg S k = some .found) : k ∈ P := by
  obtain ⟨s, -, b, hget, hc1, hcum⟩ := containsGo_found_elim hf
  obtain ⟨hse, hlen, hcnt, hml, hb⟩ := h
  have hidx : hash_index cfg S.buckets.length k s < S.buckets.length := by
    by_cases hlt : hash_index cfg S.buckets.length k s < S.buckets.length
    · exact hlt
    · rw [get?_none_of_le (Nat.le_of_not_lt hlt)] at hget
      cases hget
  have hbv : b = bget S.buckets (hash_index cfg S.buckets.length k s) := by
    have := @get?_eq_bget S.buckets _ hidx
    rw [this] at hget
    exact (Option.some_injective _ hget).symm
  rw [hlen] at hidx hbv
  have hc1' : (bget S.buckets (hash_index cfg n k s)).count = 1 := by
    rw [← hbv]; exact hc1
  obtain ⟨x, -, hcum', hxP, -⟩ :=
    Inv_singleton ⟨hse, hlen, hcnt, hml, hb⟩ hidx hc1'
  have : k = x := by rw [hcum, hbv, hcum']
  rw [this]; exact hxP

/-- With a singleton among the scanned probes, the scan answers exactly:
`exists` for a present key, `not_found` for an absent one. -/
theorem containsGo_singleton_exact {cfg : Cfg} {n : Nat} {seeds : List Nat}
    {S : IBF} {P : List Nat} {k : Nat} (h : Inv cfg n seeds S P) (hn : 0 < n) :
    ∀ (ss : List Nat), (∀ s ∈ ss, s ∈ seeds) → ∀ (mi : Bool),
      (∃ s ∈ ss, (bget S.buckets (hash_index cfg n k s)).count = 1) →
      containsGo cfg n S.buckets k ss mi =
        some (if k ∈ P then .found else .not_found) := by
  intro ss
  induction ss with
  | nil => rintro - mi ⟨s, hs, -⟩; simp at hs
  | cons s rest ih =>
      rintro hsub mi ⟨s', hs', hc'⟩
      have hidx : hash_index cfg n k s < n := Nat.mod_lt _ hn
      have hget := @get?_eq_bget S.buckets (hash_index cfg n k s)
        (by rw [h.2.1]; exact hidx)
      by_cases hc1 : (bget S.buckets (hash_index cfg n k s)).count = 1
      · obtain ⟨x, hx, hcum, hxP, -⟩ := Inv_singleton h hidx hc1
        simp only [containsGo, hget, if_pos hc1, hcum]
        by_cases hkP : k ∈ P
        · have hprobe : hash_index cfg n k s ∈ probeList cfg n seeds k :=
            List.mem_map.mpr ⟨s, hsub s (List.mem_cons_self ..), rfl⟩
          have hmem := mem_routed hkP hprobe
          have hkx : k = x := by rw [hx] at hmem; simpa using hmem
          simp [hkx, hxP]
        · have hkx : k ≠ x := fun hc => hkP (hc ▸ hxP)
          simp [hkx, hkP]
      · rcases List.mem_cons.mp hs' with rfl | hs'rest
        · exact absurd hc' hc1
        · simp only [containsGo, hget, if_neg hc1]
          exact ih (fun x hx => hsub x (List.mem_cons_of_mem _ hx)) _
            ⟨s', hs'rest, hc'⟩

/-! ## Preservation of the invariant -/

theorem Inv_empty (cfg : Cfg) (n : Nat) (seeds : List Nat) (hm : 0 < cfg.m) :
    Inv cfg n seeds (empty seeds n) [] := by
  refine ⟨rfl, by simp [empty], rfl, hm, ?_⟩
  intro i hi
  show bget (List.replicate n ⟨0, 0⟩) i = _
  rw [bget_replicate]
  simp [routedKeys, xorSum]

theorem Inv_insert {cfg : Cfg} {n : Nat} {seeds : List Nat} {S : IBF}
    {P : List Nat} (k : Nat) (hn : 0 < n) (h : Inv cfg n seeds S P)
    (hm : P.length + 1 < cfg.m) : Inv cfg n seeds (insert cfg k S) (k :: P) := by
  obtain ⟨hse, hlen, hcnt, -, hb⟩ := h
  refine ⟨hse, by rw [insert_length, hlen], by rw [insert_count, hcnt]; rfl,
    by simpa using hm, ?_⟩
  intro i hi
  rw [insert_bget cfg k S i (by rw [hlen]; exact hn), hse, hlen, hb i hi]
  by_cases hip : i ∈ probeList cfg n seeds k
  · rw [if_pos hip]
    have hfc : routedKeys cfg n seeds i (k :: P) = k :: routedKeys cfg n seeds i P := by
      simp [routedKeys, List.filter_cons, hip]
    rw [hfc]
    simp only [Bucket.mk.injEq, xorSum_cons, List.length_cons]
    refine ⟨Nat.xor_comm .., ?_⟩
    have hle : (routedKeys cfg n seeds i P).length ≤ P.length :=
      List.length_filter_le ..
    exact Nat.mod_eq_of_lt (by omega)
  · rw [if_neg hip]
    have hfc : routedKeys cfg n seeds i (k :: P) = routedKeys cfg n seeds i P := by
      simp [routedKeys, List.filter_cons, hip]
    rw [hfc]

theorem Inv_remove_found {cfg : Cfg} {n : Nat} {seeds : List Nat} {S : IBF}
    {P : List Nat} (k : Nat) (hn : 0 < n) (h : Inv cfg n seeds S P)
    (hf : contains cfg S k = some .found) :
    (remove cfg k S).1 = true ∧
    Inv cfg n seeds (remove cfg k S).2 (P.erase k) := by
  have hkP := contains_found_mem h hf
  obtain ⟨hse, hlen, hcnt, hml, hb⟩ := h
  have hP1 : 1 ≤ P.length := List.length_pos.mpr (List.ne_nil_of_mem hkP)
  have hm2 : 2 ≤ cfg.m := by omega
  rw [remove_found cfg k S hf]
  refine ⟨rfl, hse, by simp [touchLoop_length, hlen],
    by simp [hcnt, List.length_erase_of_mem hkP],
    by rw [List.length_erase_of_mem hkP]; omega, ?_⟩
  intro i hi
  show bget (touchLoop _ _ [] S.buckets) i = _
  rw [touchLoop_get _ _ _ _ _ (probe_lt (by rw [hlen]; exact hn)), hse, hlen,
    hb i hi]
  have hperm : P.Perm (k :: P.erase k) := List.perm_cons_erase hkP
  by_cases hip : i ∈ probeList cfg n seeds k
  · rw [if_pos (by simpa using hip)]
    have hfp : (routedKeys cfg n seeds i P).Perm
        (k :: routedKeys cfg n seeds i (P.erase k)) := by
      have h2 := hperm.filter (fun x => decide (i ∈ probeList cfg n seeds x))
      rw [List.filter_cons, if_pos (by simpa using decide_eq_true hip)] at h2
      exact h2
    have hxor := xorSum_perm hfp
    have hlenp := hfp.length_eq
    simp only [Bucket.mk.injEq]
    constructor
    · rw [hxor, xorSum_cons, xor_cancel]
    · rw [hlenp, List.length_cons]
      have hle : (routedKeys cfg n seeds i (P.erase k)).length ≤ (P.erase k).length :=
        List.length_filter_le ..
      rw [List.length_erase_of_mem hkP] at hle
      have harith : (routedKeys cfg n seeds i (P.erase k)).length + 1 + (cfg.m - 1)
          = (routedKeys cfg n seeds i (P.erase k)).length + cfg.m := by omega
      rw [harith, Nat.add_mod_right, Nat.mod_eq_of_lt (by omega)]
  · rw [if_neg (by simpa using hip)]
    have : routedKeys cfg n seeds i (P.erase k) = routedKeys cfg n seeds i P :=
      filter_erase_neg (by simpa using decide_eq_false hip) P
    rw [this]

/-- One client operation preserves the invariant. -/
theorem Inv_step {cfg : Cfg} {n : Nat} {seeds : List Nat} {S : IBF}
    {P : List Nat} (op : Op) (hn : 0 < n) (h : Inv cfg n seeds S P)
    (hm : P.length + insCount [op] < cfg.m) :
    Inv cfg n seeds (step cfg (S, P) op).1 (step cfg (S, P) op).2 := by
  cases op with
  | ins k =>
      simp only [step]
      exact Inv_insert k hn h (by simpa [insCount, insKeys] using hm)
  | rem k =>
      simp only [step]
      by_cases hf : contains cfg S k = some .found
      · obtain ⟨h1, h2⟩ := Inv_remove_found k hn h hf
        rw [h1]
        simpa using h2
      · rw [remove_not_found cfg k S hf]
        simpa using h

/-- Running any trace from an encoded state preserves the invariant, as long
as the inserts cannot overflow a bucket counter. -/
theorem foldl_step_inv {cfg : Cfg} {n : Nat} {seeds : List Nat} :
    ∀ (t : List Op) (S : IBF) (P : List Nat), 0 < n →
      Inv cfg n seeds S P → P.length + insCount t < cfg.m →
      Inv cfg n seeds (List.foldl (step cfg) (S, P) t).1
        (List.foldl (step cfg) (S, P) t).2 := by
  intro t
  induction t with
  | nil => intro S P _ h _; exact h
  | cons op rest ih =>
      intro S P hn h hm
      have hstep := Inv_step op hn h (by
        cases op <;> simp [insCount, insKeys] at hm ⊢ <;> omega)
      have hlen : (step cfg (S, P) op).2.length ≤ P.length + insCount [op] := by
        cases op with
        | ins k => simp [step, insCount, insKeys]
        | rem k =>
            simp only [step, insCount, insKeys, List.length_nil, Nat.add_zero]
            split
            · exact Nat.le_trans (List.length_erase_le ..) (Nat.le_refl _)
            · exact Nat.le_refl _
      rw [List.foldl_cons]
      have := ih (step cfg (S, P) op).1 (step cfg (S, P) op).2 hn hstep (by
        cases op <;> simp [insCount, insKeys] at hm hlen ⊢ <;> omega)
      simpa using this

/-- The invariant holds after every trace from a freshly constructed filter
with fewer inserts than the counter modulus. -/
theorem runP_inv (cfg : Cfg) (seeds : List Nat) (n : Nat) (t : List Op)
    (hn : 0 < n) (hm : insCount t < cfg.m) :
    Inv cfg n seeds (runP cfg (empty seeds n) t).1
      (runP cfg (empty seeds n) t).2 := by
  have hm0 : 0 < cfg.m := by omega
  exact foldl_step_inv t (empty seeds n) [] hn (Inv_empty cfg n seeds hm0)
    (by simpa using hm)

/-! ## The peeling decode under the invariant -/

/-- If every bucket reads empty, no key is present. -/
theorem routed_all_empty {cfg : Cfg} {n : Nat} {seeds : List Nat} {P : List Nat}
    (hn : 0 < n) (hs : seeds ≠ [])
    (h : ∀ i ∈ List.range n, routedKeys cfg n seeds i P = []) : P = [] := by
  cases hP : P with
  | nil => rfl
  | cons x xs =>
      exfalso
      cases hseeds : seeds with
      | nil => exact hs hseeds
      | cons s ss =>
          have hx : x ∈ P := by rw [hP]; exact List.mem_cons_self ..
          have hidx : hash_index cfg n x s < n := Nat.mod_lt _ hn
          have hip : x ∈ routedKeys cfg n seeds (hash_index cfg n x s) P :=
            mem_routed hx
              (List.mem_map.mpr ⟨s, by rw [hseeds]; exact List.mem_cons_self .., rfl⟩)
          rw [h _ (List.mem_range.mpr hidx)] at hip
          simp at hip

/-- The peeling scan preserves the decode invariant: the state remains the
encoding of a shrinking present-key list, the recovered list collects exactly
the peeled keys, and a scan that keeps `finished` true empties every visited
bucket. -/
theorem scanGo_spec {cfg : Cfg} {n : Nat} {seeds : List Nat} (hn : 0 < n)
    (hs : seeds ≠ []) :
    ∀ (idxs : List Nat) (S : IBF) (P res : List Nat) (fin ch : Bool)
      (base : List Nat),
      (∀ i ∈ idxs, i < n) →
      Inv cfg n seeds S P → P.Nodup → res.Nodup →
      (∀ x ∈ res, x ∉ P) → base.Perm (res ++ P) →
      ∃ P', Inv cfg n seeds (scanGo cfg idxs S res fin ch).1 P' ∧
        P'.Nodup ∧ P'.Sublist P ∧
        (scanGo cfg idxs S res fin ch).2.1.Nodup ∧
        (∀ x ∈ (scanGo cfg idxs S res fin ch).2.1, x ∉ P') ∧
        base.Perm ((scanGo cfg idxs S res fin ch).2.1 ++ P') ∧
        ((scanGo cfg idxs S res fin ch).2.2.1 = true →
          fin = true ∧ ∀ i ∈ idxs, routedKeys cfg n seeds i P' = []) := by
  intro idxs
  induction idxs with
  | nil =>
      intro S P res fin ch base _ hI hPnd hrnd hdisj hbase
      exact ⟨P, hI, hPnd, List.Sublist.refl P, hrnd, hdisj, hbase,
        fun hf => ⟨hf, by simp⟩⟩
  | cons i rest ih =>
      intro S P res fin ch base hidx hI hPnd hrnd hdisj hbase
      have hiltn : i < n := hidx i (List.mem_cons_self ..)
      by_cases h0 : (bget S.buckets i).count = 0
      · have hri : routedKeys cfg n seeds i P = [] := by
          have hb := hI.2.2.2.2 i hiltn
          rw [hb] at h0
          exact List.eq_nil_of_length_eq_zero h0
        simp only [scanGo, if_pos h0]
        obtain ⟨P', g1, g2, g3, g4, g5, g6, g7⟩ :=
          ih S P res fin ch base (fun j hj => hidx j (List.mem_cons_of_mem _ hj))
            hI hPnd hrnd hdisj hbase
        refine ⟨P', g1, g2, g3, g4, g5, g6, fun hf => ?_⟩
        obtain ⟨hfin, hall⟩ := g7 hf
        refine ⟨hfin, fun j hj => ?_⟩
        rcases List.mem_cons.mp hj with rfl | hjr
        · have hsub := g3.filter (fun x => decide (j ∈ probeList cfg n seeds x))
          rw [show P.filter (fun x => decide (j ∈ probeList cfg n seeds x)) =
              routedKeys cfg n seeds j P from rfl, hri] at hsub
          exact List.sublist_nil.mp hsub
        · exact hall j hjr
      · by_cases h1c : (bget S.buckets i).count > 1
        · simp only [scanGo, if_neg h0, if_pos h1c]
          obtain ⟨P', g1, g2, g3, g4, g5, g6, g7⟩ :=
            ih S P res false ch base (fun j hj => hidx j (List.mem_cons_of_mem _ hj))
              hI hPnd hrnd hdisj hbase
          refine ⟨P', g1, g2, g3, g4, g5, g6, fun hf => ?_⟩
          obtain ⟨hfin, -⟩ := g7 hf
          cases hfin
        · have hc1 : (bget S.buckets i).count = 1 := by omega
          obtain ⟨x, hx, hcum, hxP, hxprobe⟩ := Inv_singleton hI hiltn hc1
          have hfound : contains cfg S x = some .found := by
            unfold contains
            rw [hI.1, hI.2.1]
            rw [containsGo_singleton_exact hI hn seeds (fun s hs' => hs') false ?sing]
            · simp [hxP]
            case sing =>
              obtain ⟨s, hsseed, hsidx⟩ := List.mem_map.mp hxprobe
              exact ⟨s, hsseed, by rw [hsidx]; exact hc1⟩
          obtain ⟨hremt, hremI⟩ := Inv_remove_found x hn hI hfound
          have hxnotres : x ∉ res := fun hc => hdisj x hc hxP
          have hres' : (res ++ [x]).Nodup := by
            rw [List.nodup_append]
            refine ⟨hrnd, List.nodup_singleton x, fun a ha hax => ?_⟩
            have : a = x := by simpa using hax
            exact hxnotres (this ▸ ha)
          have hdisj' : ∀ y ∈ res ++ [x], y ∉ P.erase x := by
            intro y hy
            rcases List.mem_append.mp hy with hyr | hyx
            · exact fun hc => hdisj y hyr (List.mem_of_mem_erase hc)
            · have : y = x := by simpa using hyx
              subst this
              intro hc
              exact absurd rfl ((hPnd.mem_erase_iff.mp hc).1)
          have hbase' : base.Perm ((res ++ [x]) ++ P.erase x) := by
            have h1 : P.Perm (x :: P.erase x) := List.perm_cons_erase hxP
            have h2 : base.Perm (res ++ x :: P.erase x) := hbase.trans (h1.append_left res)
            simpa [List.append_assoc] using h2
          simp only [scanGo, if_neg h0, if_neg h1c, hcum, resInsert, if_neg hxnotres,
            hremt]
          obtain ⟨P', g1, g2, g3, g4, g5, g6, g7⟩ :=
            ih (remove cfg x S).2 (P.erase x) (res ++ [x]) fin true base
              (fun j hj => hidx j (List.mem_cons_of_mem _ hj)) hremI
              (hPnd.erase x) hres' hdisj' hbase'
          refine ⟨P', g1, g2, g3.trans (List.erase_sublist ..), g4, g5, g6,
            fun hf => ?_⟩
          obtain ⟨hfin, hall⟩ := g7 hf
          refine ⟨hfin, fun j hj => ?_⟩
          rcases List.mem_cons.mp hj with rfl | hjr
          · have hre : routedKeys cfg n seeds j (P.erase x) = [] := by
              have hperm : P.Perm (x :: P.erase x) := List.perm_cons_erase hxP
              have h2 : (routedKeys cfg n seeds j P).Perm
                  (x :: routedKeys cfg n seeds j (P.erase x)) := by
                have h3 := hperm.filter (fun y => decide (j ∈ probeList cfg n seeds y))
                rw [List.filter_cons, if_pos (by simpa using decide_eq_true hxprobe)] at h3
                exact h3
              rw [hx] at h2
              have hl2 : (1 : Nat) = (routedKeys cfg n seeds j (P.erase x)).length + 1 := by
                simpa using h2.length_eq
              exact List.eq_nil_of_length_eq_zero (by omega)
            have hsub := g3.filter (fun y => decide (j ∈ probeList cfg n seeds y))
            rw [show (P.erase x).filter (fun y => decide (j ∈ probeList cfg n seeds y)) =
                routedKeys cfg n seeds j (P.erase x) from rfl, hre] at hsub
            exact List.sublist_nil.mp hsub
          · exact hall j hjr

/-- A decode run whose loop exits with `finished = true` has recovered
exactly the present keys. -/
theorem decodeGo_spec {cfg : Cfg} {n : Nat} {seeds : List Nat} (hn : 0 < n)
    (hs : seeds ≠ []) :
    ∀ (fuel : Nat) (S : IBF) (P res base : List Nat),
      Inv cfg n seeds S P → P.Nodup → res.Nodup → (∀ x ∈ res, x ∉ P) →
      base.Perm (res ++ P) →
      (decodeGo cfg fuel S res).2.2.1 = true →
      (decodeGo cfg fuel S res).2.1.Perm base := by
  intro fuel
  induction fuel with
  | zero =>
      intro S P res base _ _ _ _ _ hfin
      simp [decodeGo] at hfin
  | succ fuel ih =>
      intro S P res base hI hPnd hrnd hdisj hbase
      have hlen : S.buckets.length = n := hI.2.1
      obtain ⟨S1, res1, fin1, ch1, hpass⟩ :
          ∃ a b c d, scanGo cfg (List.range S.buckets.length) S res true false
            = (a, b, c, d) := ⟨_, _, _, _, rfl⟩
      obtain ⟨P1, g1, g2, g3, g4, g5, g6, g7⟩ :=
        scanGo_spec hn hs (List.range S.buckets.length) S P res true false base
          (fun j hj => by rw [← hlen]; exact List.mem_range.mp hj)
          hI hPnd hrnd hdisj hbase
      simp only [hpass] at g1 g4 g5 g6 g7
      simp only [decodeGo, hpass]
      by_cases hexit : (fin1 || !ch1) = true
      · rw [if_pos hexit]
        intro hfin
        have hfin1 : fin1 = true := hfin
        obtain ⟨-, hall⟩ := g7 hfin1
        have hP1nil : P1 = [] :=
          routed_all_empty hn hs (fun i hi =>
            hall i (by rw [hlen]; exact hi))
        rw [hP1nil] at g6
        show res1.Perm base
        simpa using g6.symm
      · rw [if_neg hexit]
        exact ih S1 P1 res1 base g1 g2 g4 g5 g6

/-- A successful `listAll` means: the loop exited with `finished`, the result
is the loop's accumulator, and its length matched the logical count. -/
theorem listAll_some_elim {cfg : Cfg} {S : IBF} {res : List Nat}
    (h : listAll cfg S = some res) :
    (decodeGo cfg (S.buckets.length * (cfg.m - 1) + 2) S []).2.1 = res ∧
    (decodeGo cfg (S.buckets.length * (cfg.m - 1) + 2) S []).2.2.1 = true ∧
    res.length = S.count := by
  simp only [listAll] at h
  by_cases hfin :
      (decodeGo cfg (S.buckets.length * (cfg.m - 1) + 2) S []).2.2.1 = true
  · by_cases hl :
        (decodeGo cfg (S.buckets.length * (cfg.m - 1) + 2) S []).2.1.length = S.count
    · rw [if_neg (by simp [hfin, hl])] at h
      have hr := Option.some_injective _ h
      exact ⟨hr, hfin, hr ▸ hl⟩
    · rw [if_pos (by simp [hfin, hl])] at h
      cases h
  · have hfin' :
        (decodeGo cfg (S.buckets.length * (cfg.m - 1) + 2) S []).2.2.1 = false :=
      Bool.not_eq_true _ |>.mp hfin
    rw [if_pos (by simp [hfin'])] at h
    cases h

/-- Traces whose inserted keys are pairwise distinct keep the present-key
list duplicate-free. -/
theorem foldl_step_nodup {cfg : Cfg} :
    ∀ (t : List Op) (S : IBF) (P : List Nat),
      P.Nodup → (insKeys t).Nodup → (∀ x ∈ insKeys t, x ∉ P) →
      (List.foldl (step cfg) (S, P) t).2.Nodup := by
  intro t
  induction t with
  | nil => intro S P h _ _; exact h
  | cons op rest ih =>
      intro S P hP hK hF
      rw [List.foldl_cons]
      cases op with
      | ins k =>
          have hkk : k ∉ insKeys rest ∧ (insKeys rest).Nodup := by
            simpa [insKeys] using hK
          refine ih _ _ ?_ hkk.2 ?_
          · exact List.nodup_cons.mpr ⟨hF k (by simp [insKeys]), hP⟩
          · intro x hx
            simp only [List.mem_cons]
            rintro (rfl | hxP)
            · exact hkk.1 hx
            · exact hF x (by simp [insKeys, hx]) hxP
      | rem k =>
          refine ih _ _ ?_ (by simpa [insKeys] using hK) ?_
          · show (if (remove cfg k S).1 = true then P.erase k else P).Nodup
            split
            · exact hP.erase k
            · exact hP
          · intro x hx
            have hxF := hF x (by simpa [insKeys] using hx)
            show x ∉ (if (remove cfg k S).1 = true then P.erase k else P)
            split
            · exact fun hc => hxF (List.mem_of_mem_erase hc)
            · exact hxF

/-! ## Termination of the decode loop

Potential argument: every successful `remove` zeroes its singleton evidence
bucket (a drop of `m - 1` in the potential `psi`) and can raise each of the
at most `K - 1` other touched buckets by at most 1, so for `K < m` every pass
that keeps the loop going strictly decreases `psi`. -/

theorem bget_mem {bs : List Bucket} {i : Nat} (h : i < bs.length) :
    bget bs i ∈ bs := by
  induction bs generalizing i with
  | nil => simp at h
  | cons b tl ih =>
      cases i with
      | zero => exact List.mem_cons_self ..
      | succ j =>
          simp only [bget, List.getD_cons_succ]
          exact List.mem_cons_of_mem _ (ih (by simpa using h))

/-- Effect of one decrement on a bucket's potential term. -/
theorem psi_term_le {m c : Nat} (hm : 2 ≤ m) (hc : c < m) :
    (m - (c + (m - 1)) % m) % m ≤ (m - c) % m + 1 := by
  rcases Nat.eq_zero_or_pos c with rfl | hcpos
  · have h1 : (0 + (m - 1)) % m = m - 1 := by
      rw [Nat.zero_add]; exact Nat.mod_eq_of_lt (by omega)
    have h2 : m - (m - 1) = 1 := by omega
    rw [h1, h2, Nat.mod_eq_of_lt (show (1 : Nat) < m by omega), Nat.sub_zero,
      Nat.mod_self]
  · have h1 : (c + (m - 1)) % m = c - 1 := by
      have h2 : c + (m - 1) = (c - 1) + m := by omega
      rw [h2, Nat.add_mod_right]
      exact Nat.mod_eq_of_lt (by omega)
    rw [h1]
    rcases Nat.eq_or_lt_of_le hcpos with h1c | h2c
    · have h3 : c - 1 = 0 := by omega
      rw [h3, Nat.sub_zero, Nat.mod_self]
      exact Nat.zero_le _
    · rw [Nat.mod_eq_of_lt (show m - (c - 1) < m by omega),
        Nat.mod_eq_of_lt (show m - c < m by omega)]
      omega

theorem remove_seeds (cfg : Cfg) (k : Nat) (S : IBF) :
    (remove cfg k S).2.seeds = S.seeds := by
  unfold remove; split <;> rfl

theorem remove_length (cfg : Cfg) (k : Nat) (S : IBF) :
    (remove cfg k S).2.buckets.length = S.buckets.length := by
  unfold remove; split
  · exact touchLoop_length ..
  · rfl

/-- The buckets of a successful `remove`. -/
theorem remove_buckets_found (cfg : Cfg) (k : Nat) (S : IBF)
    (hf : contains cfg S k = some .found) :
    (remove cfg k S).2.buckets = touchLoop
      (fun b => ⟨b.cumulative_key ^^^ k, (b.count + (cfg.m - 1)) % cfg.m⟩)
      (probeList cfg S.buckets.length S.seeds k) [] S.buckets := by
  rw [remove_found cfg k S hf]

/-- Properties closed under `f` survive the mutation loop. -/
theorem touchLoop_wf {p : Bucket → Prop} {f : Bucket → Bucket}
    (hf : ∀ b, p (f b)) :
    ∀ (idxs seen : List Nat) (bs : List Bucket),
      (∀ b ∈ bs, p b) → ∀ b ∈ touchLoop f idxs seen bs, p b := by
  intro idxs
  induction idxs with
  | nil => intro seen bs h; exact h
  | cons i rest ih =>
      intro seen bs h
      simp only [touchLoop]
      split
      · exact ih seen bs h
      · refine ih _ _ (fun b hb => ?_)
        rcases List.mem_or_eq_of_mem_set hb with hb' | rfl
        · exact h b hb'
        · exact hf _

theorem remove_wf {cfg : Cfg} (k : Nat) (S : IBF) (hm : 0 < cfg.m)
    (hw : ∀ b ∈ S.buckets, b.count < cfg.m) :
    ∀ b ∈ (remove cfg k S).2.buckets, b.count < cfg.m := by
  unfold remove; split
  · exact touchLoop_wf (fun b => Nat.mod_lt _ hm) _ _ _ hw
  · exact hw

/-- A successful `remove` strictly decreases the decode potential, provided
the probe count is below the counter modulus. -/
theorem psi_remove_lt {cfg : Cfg} {S : IBF} {k : Nat}
    (hm : 2 ≤ cfg.m) (hK : S.seeds.length < cfg.m)
    (hw : ∀ b ∈ S.buckets, b.count < cfg.m)
    (hrem : (remove cfg k S).1 = true) :
    psi cfg.m (remove cfg k S).2.buckets < psi cfg.m S.buckets := by
  by_cases hf : contains cfg S k = some .found
  case neg => rw [remove_not_found cfg k S hf] at hrem; cases hrem
  have hf' : containsGo cfg S.buckets.length S.buckets k S.seeds false
      = some .found := hf
  obtain ⟨s0, hs0, b0, hget0, hc0, hcum0⟩ := containsGo_found_elim hf'
  have hi0lt : hash_index cfg S.buckets.length k s0 < S.buckets.length := by
    by_cases h : hash_index cfg S.buckets.length k s0 < S.buckets.length
    · exact h
    · rw [get?_none_of_le (Nat.le_of_not_lt h)] at hget0; cases hget0
  have hn : 0 < S.buckets.length := by omega
  have hb0 : b0 = bget S.buckets (hash_index cfg S.buckets.length k s0) := by
    rw [get?_eq_bget hi0lt] at hget0
    exact (Option.some_injective _ hget0).symm
  rw [remove_buckets_found cfg k S hf]
  set B' : List Bucket := touchLoop
    (fun b => ⟨b.cumulative_key ^^^ k, (b.count + (cfg.m - 1)) % cfg.m⟩)
    (probeList cfg S.buckets.length S.seeds k) [] S.buckets with hB'
  set i0 := hash_index cfg S.buckets.length k s0 with hi0def
  have hlenB : B'.length = S.buckets.length := touchLoop_length ..
  have heff : ∀ j, j < S.buckets.length →
      bget B' j =
      if j ∈ probeList cfg S.buckets.length S.seeds k then
        ⟨(bget S.buckets j).cumulative_key ^^^ k,
          ((bget S.buckets j).count + (cfg.m - 1)) % cfg.m⟩
      else bget S.buckets j := by
    intro j hj
    rw [hB', touchLoop_get _ _ _ _ _ (probe_lt hn)]
    simp
  simp only [psi, hlenB]
  set T : Finset Nat := (probeList cfg S.buckets.length S.seeds k).toFinset with hT
  have hi0T : i0 ∈ T := List.mem_toFinset.mpr (List.mem_map.mpr ⟨s0, hs0, rfl⟩)
  have hTsub : T ⊆ Finset.range S.buckets.length := fun j hj =>
    Finset.mem_range.mpr (probe_lt hn j (List.mem_toFinset.mp hj))
  have hsplit1 :
      (∑ i ∈ Finset.range S.buckets.length, (cfg.m - (bget B' i).count) % cfg.m)
      = (∑ i ∈ Finset.range S.buckets.length \ T,
          (cfg.m - (bget B' i).count) % cfg.m)
        + ∑ i ∈ T, (cfg.m - (bget B' i).count) % cfg.m :=
    (Finset.sum_sdiff hTsub).symm
  have hsplit2 :
      (∑ i ∈ Finset.range S.buckets.length,
        (cfg.m - (bget S.buckets i).count) % cfg.m)
      = (∑ i ∈ Finset.range S.buckets.length \ T,
          (cfg.m - (bget S.buckets i).count) % cfg.m)
        + ∑ i ∈ T, (cfg.m - (bget S.buckets i).count) % cfg.m :=
    (Finset.sum_sdiff hTsub).symm
  have houts :
      (∑ i ∈ Finset.range S.buckets.length \ T,
        (cfg.m - (bget B' i).count) % cfg.m)
      = ∑ i ∈ Finset.range S.buckets.length \ T,
          (cfg.m - (bget S.buckets i).count) % cfg.m :=
    Finset.sum_congr rfl (fun j hj => by
      obtain ⟨hjr, hjT⟩ := Finset.mem_sdiff.mp hj
      rw [heff j (Finset.mem_range.mp hjr),
        if_neg (fun hc => hjT (List.mem_toFinset.mpr hc))])
  have hsp1 : (∑ i ∈ T, (cfg.m - (bget B' i).count) % cfg.m)
      = ((cfg.m - (bget B' i0).count) % cfg.m)
        + ∑ i ∈ T.erase i0, (cfg.m - (bget B' i).count) % cfg.m :=
    (Finset.add_sum_erase T _ hi0T).symm
  have hsp2 : (∑ i ∈ T, (cfg.m - (bget S.buckets i).count) % cfg.m)
      = ((cfg.m - (bget S.buckets i0).count) % cfg.m)
        + ∑ i ∈ T.erase i0, (cfg.m - (bget S.buckets i).count) % cfg.m :=
    (Finset.add_sum_erase T _ hi0T).symm
  have hc0' : (bget S.buckets i0).count = 1 := by rw [← hb0]; exact hc0
  have hg0' : (cfg.m - (bget B' i0).count) % cfg.m = 0 := by
    rw [heff i0 hi0lt, if_pos (List.mem_toFinset.mp hi0T)]
    show (cfg.m - ((bget S.buckets i0).count + (cfg.m - 1)) % cfg.m) % cfg.m = 0
    rw [hc0']
    have h1 : 1 + (cfg.m - 1) = cfg.m := by omega
    rw [h1, Nat.mod_self, Nat.sub_zero, Nat.mod_self]
  have hg0 : (cfg.m - (bget S.buckets i0).count) % cfg.m = cfg.m - 1 := by
    rw [hc0']
    exact Nat.mod_eq_of_lt (by omega)
  have hbound : ∀ j ∈ T.erase i0,
      (cfg.m - (bget B' j).count) % cfg.m ≤
        (cfg.m - (bget S.buckets j).count) % cfg.m + 1 := by
    intro j hj
    have hjp := List.mem_toFinset.mp (Finset.mem_of_mem_erase hj)
    have hjlt := probe_lt hn j hjp
    rw [heff j hjlt, if_pos hjp]
    show (cfg.m - ((bget S.buckets j).count + (cfg.m - 1)) % cfg.m) % cfg.m ≤ _
    exact psi_term_le hm (hw _ (bget_mem hjlt))
  have hsum_le : (∑ j ∈ T.erase i0, (cfg.m - (bget B' j).count) % cfg.m)
      ≤ (∑ j ∈ T.erase i0, (cfg.m - (bget S.buckets j).count) % cfg.m)
        + (T.erase i0).card := by
    calc (∑ j ∈ T.erase i0, (cfg.m - (bget B' j).count) % cfg.m)
        ≤ ∑ j ∈ T.erase i0, ((cfg.m - (bget S.buckets j).count) % cfg.m + 1) :=
          Finset.sum_le_sum hbound
      _ = _ := by rw [Finset.sum_add_distrib, Finset.sum_const, smul_eq_mul, mul_one]
  have hcard : (T.erase i0).card = T.card - 1 := Finset.card_erase_of_mem hi0T
  have hcard1 : 1 ≤ T.card := Finset.card_pos.mpr ⟨_, hi0T⟩
  have hcardK : T.card ≤ S.seeds.length := by
    have h1 := List.toFinset_card_le (probeList cfg S.buckets.length S.seeds k)
    have h2 : (probeList cfg S.buckets.length S.seeds k).length = S.seeds.length := by
      simp [probeList]
    rw [hT]
    omega
  omega

/-- A scan started with `finished = false` ends with `finished = false`. -/
theorem scanGo_fin_false {cfg : Cfg} :
    ∀ (idxs : List Nat) (S : IBF) (res : List Nat) (ch : Bool),
      (scanGo cfg idxs S res false ch).2.2.1 = false := by
  intro idxs
  induction idxs with
  | nil => intro S res ch; rfl
  | cons i rest ih =>
      intro S res ch
      simp only [scanGo]
      split
      · exact ih ..
      · split
        · exact ih ..
        · exact ih ..

/-- State-level facts about one peeling pass: seeds and length are
preserved, counter well-formedness is preserved, the potential never
increases, and a pass reporting `has_changed` from a cold start strictly
decreases the potential. -/
theorem scanGo_state {cfg : Cfg} (hm : 2 ≤ cfg.m) :
    ∀ (idxs : List Nat) (S : IBF) (res : List Nat) (fin ch : Bool),
      S.seeds.length < cfg.m → (∀ b ∈ S.buckets, b.count < cfg.m) →
      (scanGo cfg idxs S res fin ch).1.seeds = S.seeds ∧
      (scanGo cfg idxs S res fin ch).1.buckets.length = S.buckets.length ∧
      (∀ b ∈ (scanGo cfg idxs S res fin ch).1.buckets, b.count < cfg.m) ∧
      psi cfg.m (scanGo cfg idxs S res fin ch).1.buckets ≤ psi cfg.m S.buckets ∧
      ((scanGo cfg idxs S res fin ch).2.2.2 = true →
        ch = true ∨
        psi cfg.m (scanGo cfg idxs S res fin ch).1.buckets < psi cfg.m S.buckets) := by
  intro idxs
  induction idxs with
  | nil =>
      intro S res fin ch hK hw
      exact ⟨rfl, rfl, hw, Nat.le_refl _, fun h => Or.inl h⟩
  | cons i rest ih =>
      intro S res fin ch hK hw
      by_cases h0 : (bget S.buckets i).count = 0
      · simp only [scanGo, if_pos h0]
        exact ih S res fin ch hK hw
      · by_cases h1c : (bget S.buckets i).count > 1
        · simp only [scanGo, if_neg h0, if_pos h1c]
          exact ih S res false ch hK hw
        · simp only [scanGo, if_neg h0, if_neg h1c]
          by_cases hrem : (remove cfg (bget S.buckets i).cumulative_key S).1 = true
          · have hdrop := psi_remove_lt hm hK hw hrem
            have hse := remove_seeds cfg (bget S.buckets i).cumulative_key S
            have hwf := remove_wf (bget S.buckets i).cumulative_key S
              (by omega) hw
            obtain ⟨a1, a2, a3, a4, a5⟩ :=
              ih (remove cfg (bget S.buckets i).cumulative_key S).2
                (resInsert res (bget S.buckets i).cumulative_key) fin true
                (by rw [hse]; exact hK) hwf
            rw [hrem]
            refine ⟨a1.trans hse,
              a2.trans (remove_length cfg (bget S.buckets i).cumulative_key S),
              a3, Nat.le_trans a4 (Nat.le_of_lt hdrop),
              fun _ => Or.inr (Nat.lt_of_le_of_lt a4 hdrop)⟩
          · have hfail : remove cfg (bget S.buckets i).cumulative_key S
                = (false, S) := by
              by_cases hf : contains cfg S (bget S.buckets i).cumulative_key
                  = some .found
              · exfalso
                apply hrem
                rw [remove_found _ _ _ hf]
              · exact remove_not_found _ _ _ hf
            rw [hfail]
            obtain ⟨a1, a2, a3, a4, a5⟩ :=
              ih S (resInsert res (bget S.buckets i).cumulative_key) fin false
                hK hw
            refine ⟨a1, a2, a3, a4, fun h4 => ?_⟩
            rcases a5 h4 with h5 | h5
            · cases h5
            · exact Or.inr h5

/-- With pass budget exceeding the potential, the decode loop reaches its
exit condition. -/
theorem decodeGo_exits {cfg : Cfg} (hm : 2 ≤ cfg.m) :
    ∀ (fuel : Nat) (S : IBF) (res : List Nat),
      S.seeds.length < cfg.m → (∀ b ∈ S.buckets, b.count < cfg.m) →
      psi cfg.m S.buckets < fuel →
      (decodeGo cfg fuel S res).2.2.2 = true := by
  intro fuel
  induction fuel with
  | zero => intro S res _ _ h; exact absurd h (Nat.not_lt_zero _)
  | succ fuel ih =>
      intro S res hK hw hfuel
      obtain ⟨S1, res1, fin1, ch1, hpass⟩ :
          ∃ a b c d, scanGo cfg (List.range S.buckets.length) S res true false
            = (a, b, c, d) := ⟨_, _, _, _, rfl⟩
      obtain ⟨a1, a2, a3, a4, a5⟩ :=
        scanGo_state hm (List.range S.buckets.length) S res true false hK hw
      simp only [hpass] at a1 a2 a3 a4 a5
      simp only [decodeGo, hpass]
      by_cases hexit : (fin1 || !ch1) = true
      · rw [if_pos hexit]
      · rw [if_neg hexit]
        have hch : ch1 = true := by
          cases ch1
          · simp at hexit
          · rfl
        have hstrict : psi cfg.m S1.buckets < psi cfg.m S.buckets := by
          rcases a5 hch with h5 | h5
          · cases h5
          · exact h5
        exact ih S1 res1 (by rw [a1]; exact hK) a3 (by omega)

/-- The potential is bounded by `directory size * (m - 1)`. -/
theorem psi_le (m : Nat) (bs : List Bucket) : psi m bs ≤ bs.length * (m - 1) := by
  unfold psi
  calc ∑ i ∈ Finset.range bs.length, (m - (bget bs i).count) % m
      ≤ ∑ _i ∈ Finset.range bs.length, (m - 1) := by
        refine Finset.sum_le_sum (fun i _ => ?_)
        rcases Nat.eq_zero_or_pos m with rfl | hmp
        · simp
        · have := Nat.mod_lt (m - (bget bs i).count) hmp
          omega
    _ = bs.length * (m - 1) := by
        rw [Finset.sum_const, Finset.card_range, smul_eq_mul]

/-- A scan over buckets none of which is a singleton changes nothing, and
reports unfinished as soon as one visited bucket is ambiguous. -/
theorem scanGo_stuck {cfg : Cfg} :
    ∀ (idxs : List Nat) (S : IBF) (res : List Nat) (fin ch : Bool),
      (∀ i ∈ idxs, (bget S.buckets i).count ≠ 1) →
      (scanGo cfg idxs S res fin ch).1 = S ∧
      (scanGo cfg idxs S res fin ch).2.1 = res ∧
      (scanGo cfg idxs S res fin ch).2.2.2 = ch ∧
      ((∃ i ∈ idxs, (bget S.buckets i).count > 1) →
        (scanGo cfg idxs S res fin ch).2.2.1 = false) := by
  intro idxs
  induction idxs with
  | nil =>
      intro S res fin ch h
      exact ⟨rfl, rfl, rfl, fun ⟨i, hi, _⟩ => absurd hi (List.not_mem_nil i)⟩
  | cons i rest ih =>
      intro S res fin ch h
      have hi1 : (bget S.buckets i).count ≠ 1 := h i (List.mem_cons_self ..)
      by_cases h0 : (bget S.buckets i).count = 0
      · simp only [scanGo, if_pos h0]
        obtain ⟨b1, b2, b3, b4⟩ :=
          ih S res fin ch (fun j hj => h j (List.mem_cons_of_mem _ hj))
        refine ⟨b1, b2, b3, fun ⟨j, hj, hjgt⟩ => ?_⟩
        rcases List.mem_cons.mp hj with rfl | hjr
        · omega
        · exact b4 ⟨j, hjr, hjgt⟩
      · have hgt : (bget S.buckets i).count > 1 := by omega
        simp only [scanGo, if_neg h0, if_pos hgt]
        obtain ⟨b1, b2, b3, -⟩ :=
          ih S res false ch (fun j hj => h j (List.mem_cons_of_mem _ hj))
        exact ⟨b1, b2, b3, fun _ => scanGo_fin_false ..⟩

/-- The scan never answers `exists` when every probed bucket is ambiguous. -/
theorem containsGo_allgt {cfg : Cfg} {n : Nat} {bs : List Bucket} {k : Nat} :
    ∀ (ss : List Nat) (mi : Bool),
      (∀ s ∈ ss, ∃ b, bs[hash_index cfg n k s]? = some b ∧ b.count > 1) →
      (mi = true ∨ ss ≠ []) →
      containsGo cfg n bs k ss mi = some .might_exist := by
  intro ss
  induction ss with
  | nil =>
      rintro mi - (hmi | hne)
      · subst hmi; simp [containsGo]
      · simp at hne
  | cons s rest ih =>
      intro mi hbig _
      obtain ⟨b, hget, hgt⟩ := hbig s (List.mem_cons_self ..)
      simp only [containsGo, hget, if_neg (by omega : ¬ b.count = 1)]
      refine ih _ (fun s' hs' => hbig s' (List.mem_cons_of_mem _ hs')) (Or.inl ?_)
      simp [hgt]

end ibf

/-! ## Lemmas on the dictionary variant and the seed-generation loop -/

namespace ibf

/-- Field-wise equality of filter states. -/
theorem IBF_fields_eq {S T : IBF} (h1 : S.seeds = T.seeds)
    (h2 : S.buckets = T.buckets) (h3 : S.count = T.count) : S = T := by
  cases S; cases T; simp_all

/-- Field-wise equality of dictionary states. -/
theorem IBF2_fields_eq {S T : IBF2} (h1 : S.seeds = T.seeds)
    (h2 : S.buckets = T.buckets) (h3 : S.count = T.count) : S = T := by
  cases S; cases T; simp_all

/-- In-range positions of a dictionary directory read `some`. -/
theorem get2?_eq_bget2 {bs : List Bucket2} {i : Nat} (h : i < bs.length) :
    bs[i]? = some (bget2 bs i) := by
  induction bs generalizing i with
  | nil => simp at h
  | cons b tl ih =>
      cases i with
      | zero => simp [bget2]
      | succ j =>
          simp only [List.getElem?_cons_succ, bget2, List.getD_cons_succ]
          exact ih (by simpa using h)

/-- A `bget2` on the all-zero dictionary directory. -/
theorem bget2_replicate (n i : Nat) :
    bget2 (List.replicate n ⟨0, 0, 0⟩) i = ⟨0, 0, 0⟩ := by
  induction n generalizing i with
  | zero => cases i <;> rfl
  | succ n ih =>
      cases i with
      | zero => rfl
      | succ j => simp only [List.replicate, bget2, List.getD_cons_succ]; exact ih j

/-- `touchLoop2` preserves the directory length. -/
theorem touchLoop2_length (f : Bucket2 → Bucket2) :
    ∀ (idxs seen : List Nat) (bs : List Bucket2),
      (touchLoop2 f idxs seen bs).length = bs.length := by
  intro idxs
  induction idxs with
  | nil => intro seen bs; rfl
  | cons i rest ih =>
      intro seen bs
      simp only [touchLoop2]
      split
      · exact ih ..
      · rw [ih, List.length_set]

/-- Writing a dictionary bucket then reading it back. -/
theorem bget2_set_self {bs : List Bucket2} {i : Nat} (v : Bucket2)
    (h : i < bs.length) : bget2 (bs.set i v) i = v := by
  induction bs generalizing i with
  | nil => simp at h
  | cons b tl ih =>
      cases i with
      | zero => rfl
      | succ j =>
          simp only [List.set, bget2, List.getD_cons_succ] at ih ⊢
          exact ih (by simpa using h)

/-- Writing a dictionary bucket leaves the others unchanged. -/
theorem bget2_set_ne {bs : List Bucket2} {i j : Nat} (v : Bucket2) (h : i ≠ j) :
    bget2 (bs.set i v) j = bget2 bs j := by
  induction bs generalizing i j with
  | nil => rfl
  | cons b tl ih =>
      cases i with
      | zero =>
          cases j with
          | zero => exact absurd rfl h
          | succ j' => rfl
      | succ i' =>
          cases j with
          | zero => rfl
          | succ j' =>
              simp only [List.set, bget2, List.getD_cons_succ] at ih ⊢
              exact ih (fun hc => h (by omega))

/-- The dictionary mutation loop applies `f` exactly once to each listed
index not already seen, and touches nothing else. -/
theorem touchLoop2_get (f : Bucket2 → Bucket2) :
    ∀ (idxs seen : List Nat) (bs : List Bucket2) (j : Nat),
      (∀ x ∈ idxs, x < bs.length) →
      bget2 (touchLoop2 f idxs seen bs) j =
        if j ∈ idxs ∧ j ∉ seen then f (bget2 bs j) else bget2 bs j := by
  intro idxs
  induction idxs with
  | nil => intro seen bs j _; simp [touchLoop2]
  | cons i rest ih =>
      intro seen bs j hidx
      simp only [touchLoop2]
      by_cases hseen : i ∈ seen
      · rw [if_pos hseen, ih seen bs j (fun x hx => hidx x (List.mem_cons_of_mem _ hx))]
        by_cases hj : j = i
        · subst hj
          simp [hseen]
        · simp [hj]
      · rw [if_neg hseen,
          ih _ _ j (fun x hx => by
            rw [List.length_set]; exact hidx x (List.mem_cons_of_mem _ hx))]
        by_cases hj : j = i
        · subst hj
          rw [bget2_set_self _ (hidx j (List.mem_cons_self ..))]
          simp [hseen]
        · rw [bget2_set_ne _ (fun hc => hj hc.symm)]
          simp [hj]

/-! ## Effect of the dictionary's insert and remove on the state -/

theorem insert2_seeds (cfg : Cfg) (k v : Nat) (S : IBF2) :
    (insert2 cfg k v S).seeds = S.seeds := rfl

theorem insert2_count (cfg : Cfg) (k v : Nat) (S : IBF2) :
    (insert2 cfg k v S).count = S.count + 1 := rfl

theorem insert2_length (cfg : Cfg) (k v : Nat) (S : IBF2) :
    (insert2 cfg k v S).buckets.length = S.buckets.length :=
  touchLoop2_length ..

/-- Per-bucket effect of the dictionary's `insert`. -/
theorem insert2_bget (cfg : Cfg) (k v : Nat) (S : IBF2) (j : Nat)
    (hn : 0 < S.buckets.length) :
    bget2 (insert2 cfg k v S).buckets j =
      if j ∈ probeList cfg S.buckets.length S.seeds k then
        ⟨(bget2 S.buckets j).cumulative_key ^^^ k,
          (bget2 S.buckets j).cumulative_value ^^^ v,
          ((bget2 S.buckets j).count + 1) % cfg.m⟩
      else bget2 S.buckets j := by
  show bget2 (touchLoop2 _ _ [] _) j = _
  rw [touchLoop2_get _ _ _ _ _ (probe_lt hn)]
  simp

/-- With a non-empty directory, `get` never hits the undefined-behaviour
bucket access: every probe index is in range. -/
theorem getGo2_ne_none {cfg : Cfg} {n : Nat} {bs : List Bucket2} {key : Nat}
    (hlen : bs.length = n) (hn : 0 < n) :
    ∀ ss : List Nat, getGo2 cfg n bs key ss ≠ none := by
  intro ss
  induction ss with
  | nil => simp [getGo2]
  | cons s rest ih =>
      have hidx : hash_index cfg n key s < bs.length := by
        rw [hlen]; exact Nat.mod_lt _ hn
      simp only [getGo2, get2?_eq_bget2 hidx]
      split
      · simp
      · exact ih

/-- The dictionary's `remove` on a key whose `get` fails leaves the state
untouched. -/
theorem remove2_fail (cfg : Cfg) (k : Nat) (S : IBF2)
    (h : ∀ v, get2 cfg S k ≠ some (some v)) :
    remove2 cfg k S = (false, S) := by
  unfold remove2
  rcases hg : get2 cfg S k with _ | (_ | v)
  · rfl
  · rfl
  · exact absurd hg (h v)

/-- The dictionary's `remove` on a key whose `get` recovers a value
succeeds, with the per-bucket xor-and-decrement effect. -/
theorem remove2_found (cfg : Cfg) (k : Nat) (S : IBF2) (v : Nat)
    (h : get2 cfg S k = some (some v)) :
    remove2 cfg k S =
      (true,
        { S with
          buckets := touchLoop2
            (fun b => ⟨b.cumulative_key ^^^ k, b.cumulative_value ^^^ v,
              (b.count + (cfg.m - 1)) % cfg.m⟩)
            (probeList cfg S.buckets.length S.seeds k) [] S.buckets
          count := S.count - 1 }) := by
  unfold remove2
  rw [h]

/-- A filter directory whose every position reads the zero bucket is the
all-zero directory. -/
theorem list_eq_replicate_of_bget {bs : List Bucket} {n : Nat}
    (hlen : bs.length = n) (h : ∀ j, bget bs j = ⟨0, 0⟩) :
    bs = List.replicate n ⟨0, 0⟩ := by
  induction bs generalizing n with
  | nil => simp [← hlen]
  | cons b tl ih =>
      cases n with
      | zero => simp at hlen
      | succ m =>
          have hb : b = ⟨0, 0⟩ := h 0
          have htl : tl = List.replicate m ⟨0, 0⟩ :=
            ih (by simpa using hlen) (fun j => h (j + 1))
          rw [hb, htl, List.replicate_succ]

/-- A dictionary directory whose every position reads the zero bucket is the
all-zero directory. -/
theorem list2_eq_replicate_of_bget2 {bs : List Bucket2} {n : Nat}
    (hlen : bs.length = n) (h : ∀ j, bget2 bs j = ⟨0, 0, 0⟩) :
    bs = List.replicate n ⟨0, 0, 0⟩ := by
  induction bs generalizing n with
  | nil => simp [← hlen]
  | cons b tl ih =>
      cases n with
      | zero => simp at hlen
      | succ m =>
          have hb : b = ⟨0, 0, 0⟩ := h 0
          have htl : tl = List.replicate m ⟨0, 0, 0⟩ :=
            ih (by simpa using hlen) (fun j => h (j + 1))
          rw [hb, htl, List.replicate_succ]

/-! ## The latched redraw loop -/

/-- Once `already_exists` is `true` on entry to the do-while body, it stays
`true` forever: the loop never exits, for any fuel. -/
theorem drawLoop_latched (stream : Nat → Nat) (prev : List Nat) :
    ∀ (fuel t : Nat), drawLoop stream prev fuel t true = none := by
  intro fuel
  induction fuel with
  | zero => intro t; rfl
  | succ f ih => intro t; simp [drawLoop, ih]

/-- Unfolding equation of the outer seed loop. -/
theorem genSeedsGo_succ (stream : Nat → Nat) (fuel i t : Nat) (acc : List Nat) :
    genSeedsGo stream fuel (i + 1) t acc =
      match drawLoop stream acc fuel t false with
      | none => none
      | some rt => genSeedsGo stream fuel i rt.2 (rt.1 :: acc) := by
  cases h : drawLoop stream acc fuel t false with
  | none => simp [genSeedsGo, h]
  | some rt =>
      cases rt with
      | mk r t' => simp [genSeedsGo, h]

/-! ## The dictionary's abstract view and its preservation

Mirror of the set variant's invariant development for `IBF2`: every bucket
accumulates the xor of the keys, the xor of the values and the number of the
routed present pairs. -/

/-- Out-of-range positions of a dictionary directory read `none`. -/
theorem get2?_none_of_le {bs : List Bucket2} {i : Nat} (h : bs.length ≤ i) :
    bs[i]? = none := by
  induction bs generalizing i with
  | nil => simp
  | cons b tl ih =>
      cases i with
      | zero => simp at h
      | succ j =>
          simp only [List.getElem?_cons_succ]
          exact ih (by simpa using h)

/-- Erasing a pair not selected by the filter leaves the filter unchanged. -/
theorem filter_erase_neg2 {p : Nat × Nat → Bool} {k : Nat × Nat}
    (hp : p k = false) :
    ∀ P : List (Nat × Nat), (P.erase k).filter p = P.filter p := by
  intro P
  induction P with
  | nil => rfl
  | cons a tl ih =>
      by_cases hak : a = k
      · subst hak
        rw [List.erase_cons_head, List.filter_cons_of_neg (by simpa using hp)]
      · rw [List.erase_cons_tail (by simpa using hak), List.filter_cons,
          List.filter_cons, ih]

/-- A pair list is a permutation of any of its members consed onto the list
with that member erased. -/
theorem perm_cons_erase_pair {a : Nat × Nat} {l : List (Nat × Nat)}
    (h : a ∈ l) : l.Perm (a :: l.erase a) := by
  induction l with
  | nil => simp at h
  | cons b tl ih =>
      by_cases hab : b = a
      · subst hab
        rw [List.erase_cons_head]
      · rw [List.erase_cons_tail (by simpa using hab)]
        rcases List.mem_cons.mp h with rfl | htl
        · exact absurd rfl hab
        · exact ((ih htl).cons b).trans (List.Perm.swap a b (tl.erase a))

/-- A present pair whose key routes to `i` appears in the routed list. -/
theorem mem_routed2 {cfg : Cfg} {n : Nat} {seeds : List Nat} {i : Nat}
    {x : Nat × Nat} {P : List (Nat × Nat)} (hkP : x ∈ P)
    (hip : i ∈ probeList cfg n seeds x.1) :
    x ∈ routedPairs cfg n seeds i P :=
  List.mem_filter.mpr ⟨hkP, decide_eq_true hip⟩

/-- A singleton bucket of an encoded dictionary holds exactly one present
pair: its key and value accumulators read that pair. -/
theorem Inv2_singleton {cfg : Cfg} {n : Nat} {seeds : List Nat} {S : IBF2}
    {P : List (Nat × Nat)} (h : Inv2 cfg n seeds S P) {i : Nat} (hi : i < n)
    (hc : (bget2 S.buckets i).count = 1) :
    ∃ x, routedPairs cfg n seeds i P = [x] ∧
      (bget2 S.buckets i).cumulative_key = x.1 ∧
      (bget2 S.buckets i).cumulative_value = x.2 ∧ x ∈ P ∧
      i ∈ probeList cfg n seeds x.1 := by
  obtain ⟨-, -, -, -, hb⟩ := h
  simp only [hb i hi] at hc ⊢
  obtain ⟨x, hx⟩ := List.length_eq_one.mp hc
  have hxm : x ∈ routedPairs cfg n seeds i P := by
    rw [hx]; exact List.mem_singleton_self x
  obtain ⟨hxP, hxp⟩ := List.mem_filter.mp hxm
  exact ⟨x, hx, by rw [hx]; simp [xorSum], by rw [hx]; simp [xorSum], hxP,
    of_decide_eq_true hxp⟩

/-- A `get` that recovers a value does so through a singleton probe bucket
matching the key, returning that bucket's value accumulator. -/
theorem getGo2_found_elim {cfg : Cfg} {n : Nat} {bs : List Bucket2} {k v : Nat} :
    ∀ {ss : List Nat},
      getGo2 cfg n bs k ss = some (some v) →
      ∃ s ∈ ss, ∃ b, bs[hash_index cfg n k s]? = some b ∧
        b.count = 1 ∧ k = b.cumulative_key ∧ v = b.cumulative_value := by
  intro ss
  induction ss with
  | nil => intro h; simp [getGo2] at h
  | cons s rest ih =>
      intro h
      cases hb : bs[hash_index cfg n k s]? with
      | none => simp [getGo2, hb] at h
      | some b =>
          simp only [getGo2, hb] at h
          by_cases hc : b.count = 1
          · rw [if_pos hc] at h
            by_cases hk : k = b.cumulative_key
            · rw [if_pos hk] at h
              refine ⟨s, List.mem_cons_self .., b, hb, hc, hk, ?_⟩
              have h1 := Option.some_injective _ h
              exact (Option.some_injective _ h1).symm
            · rw [if_neg hk] at h
              simp at h
          · rw [if_neg hc] at h
            obtain ⟨s', hs', hrest⟩ := ih h
            exact ⟨s', List.mem_cons_of_mem _ hs', hrest⟩

/-- A recovered value belongs to a present pair: `get(k) = v` on an encoded
dictionary implies `(k, v)` is currently inserted — no corrupted values. -/
theorem get2_found_mem {cfg : Cfg} {n : Nat} {seeds : List Nat} {S : IBF2}
    {P : List (Nat × Nat)} {k v : Nat} (h : Inv2 cfg n seeds S P)
    (hf : get2 cfg S k = some (some v)) : (k, v) ∈ P := by
  obtain ⟨s, -, b, hget, hc1, hcum, hval⟩ := getGo2_found_elim hf
  obtain ⟨hse, hlen, hcnt, hml, hb⟩ := h
  have hidx : hash_index cfg S.buckets.length k s < S.buckets.length := by
    by_cases hlt : hash_index cfg S.buckets.length k s < S.buckets.length
    · exact hlt
    · rw [get2?_none_of_le (Nat.le_of_not_lt hlt)] at hget
      cases hget
  have hbv : b = bget2 S.buckets (hash_index cfg S.buckets.length k s) := by
    have := @get2?_eq_bget2 S.buckets _ hidx
    rw [this] at hget
    exact (Option.some_injective _ hget).symm
  rw [hlen] at hidx hbv
  have hc1' : (bget2 S.buckets (hash_index cfg n k s)).count = 1 := by
    rw [← hbv]; exact hc1
  obtain ⟨x, -, hcum', hval', hxP, -⟩ :=
    Inv2_singleton ⟨hse, hlen, hcnt, hml, hb⟩ hidx hc1'
  have hkx : k = x.1 := by rw [hcum, hbv, hcum']
  have hvx : v = x.2 := by rw [hval, hbv, hval']
  rw [hkx, hvx]
  exact hxP

/-- With a singleton among the scanned probes of a present pair's key, `get`
recovers exactly that pair's value. -/
theorem getGo2_present_singleton {cfg : Cfg} {n : Nat} {seeds : List Nat}
    {S : IBF2} {P : List (Nat × Nat)} {x : Nat × Nat}
    (h : Inv2 cfg n seeds S P) (hn : 0 < n) (hxP : x ∈ P) :
    ∀ (ss : List Nat), (∀ s ∈ ss, s ∈ seeds) →
      (∃ s ∈ ss, (bget2 S.buckets (hash_index cfg n x.1 s)).count = 1) →
      getGo2 cfg n S.buckets x.1 ss = some (some x.2) := by
  intro ss
  induction ss with
  | nil => rintro - ⟨s, hs, -⟩; simp at hs
  | cons s rest ih =>
      rintro hsub ⟨s', hs', hc'⟩
      have hidx : hash_index cfg n x.1 s < n := Nat.mod_lt _ hn
      have hget := @get2?_eq_bget2 S.buckets (hash_index cfg n x.1 s)
        (by rw [h.2.1]; exact hidx)
      by_cases hc1 : (bget2 S.buckets (hash_index cfg n x.1 s)).count = 1
      · obtain ⟨y, hy, hcum, hval, hyP, -⟩ := Inv2_singleton h hidx hc1
        have hprobe : hash_index cfg n x.1 s ∈ probeList cfg n seeds x.1 :=
          List.mem_map.mpr ⟨s, hsub s (List.mem_cons_self ..), rfl⟩
        have hmem := mem_routed2 hxP hprobe
        have hxy : x = y := by rw [hy] at hmem; simpa using hmem
        subst hxy
        simp only [getGo2, hget, if_pos hc1, hcum, hval]
        simp
      · rcases List.mem_cons.mp hs' with rfl | hs'rest
        · exact absurd hc' hc1
        · simp only [getGo2, hget, if_neg hc1]
          exact ih (fun z hz => hsub z (List.mem_cons_of_mem _ hz))
            ⟨s', hs'rest, hc'⟩

/-! ## Preservation of the dictionary invariant -/

theorem Inv2_empty (cfg : Cfg) (n : Nat) (seeds : List Nat) (hm : 0 < cfg.m) :
    Inv2 cfg n seeds (empty2 seeds n) [] := by
  refine ⟨rfl, by simp [empty2], rfl, hm, ?_⟩
  intro i hi
  show bget2 (List.replicate n ⟨0, 0, 0⟩) i = _
  rw [bget2_replicate]
  simp [routedPairs, xorSum]

theorem Inv2_insert {cfg : Cfg} {n : Nat} {seeds : List Nat} {S : IBF2}
    {P : List (Nat × Nat)} (k v : Nat) (hn : 0 < n) (h : Inv2 cfg n seeds S P)
    (hm : P.length + 1 < cfg.m) :
    Inv2 cfg n seeds (insert2 cfg k v S) ((k, v) :: P) := by
  obtain ⟨hse, hlen, hcnt, -, hb⟩ := h
  refine ⟨hse, by rw [insert2_length, hlen], by rw [insert2_count, hcnt]; rfl,
    by simpa using hm, ?_⟩
  intro i hi
  rw [insert2_bget cfg k v S i (by rw [hlen]; exact hn), hse, hlen, hb i hi]
  by_cases hip : i ∈ probeList cfg n seeds k
  · rw [if_pos hip]
    have hfc : routedPairs cfg n seeds i ((k, v) :: P) =
        (k, v) :: routedPairs cfg n seeds i P := by
      simp [routedPairs, List.filter_cons, hip]
    rw [hfc]
    simp only [Bucket2.mk.injEq, List.map_cons, xorSum_cons, List.length_cons]
    refine ⟨Nat.xor_comm .., Nat.xor_comm .., ?_⟩
    have hle : (routedPairs cfg n seeds i P).length ≤ P.length :=
      List.length_filter_le ..
    exact Nat.mod_eq_of_lt (by omega)
  · rw [if_neg hip]
    have hfc : routedPairs cfg n seeds i ((k, v) :: P) =
        routedPairs cfg n seeds i P := by
      simp [routedPairs, List.filter_cons, hip]
    rw [hfc]

theorem Inv2_remove_found {cfg : Cfg} {n : Nat} {seeds : List Nat} {S : IBF2}
    {P : List (Nat × Nat)} (k v : Nat) (hn : 0 < n) (h : Inv2 cfg n seeds S P)
    (hf : get2 cfg S k = some (some v)) :
    (remove2 cfg k S).1 = true ∧
    Inv2 cfg n seeds (remove2 cfg k S).2 (P.erase (k, v)) := by
  have hkP : (k, v) ∈ P := get2_found_mem h hf
  obtain ⟨hse, hlen, hcnt, hml, hb⟩ := h
  have hP1 : 1 ≤ P.length := List.length_pos.mpr (List.ne_nil_of_mem hkP)
  have hm2 : 2 ≤ cfg.m := by omega
  rw [remove2_found cfg k S v hf]
  refine ⟨rfl, hse, by simp [touchLoop2_length, hlen],
    by simp [hcnt, List.length_erase_of_mem hkP],
    by rw [List.length_erase_of_mem hkP]; omega, ?_⟩
  intro i hi
  show bget2 (touchLoop2 _ _ [] S.buckets) i = _
  rw [touchLoop2_get _ _ _ _ _ (probe_lt (by rw [hlen]; exact hn)), hse, hlen,
    hb i hi]
  have hperm : P.Perm ((k, v) :: P.erase (k, v)) := perm_cons_erase_pair hkP
  by_cases hip : i ∈ probeList cfg n seeds k
  · rw [if_pos (by simpa using hip)]
    have hfp : (routedPairs cfg n seeds i P).Perm
        ((k, v) :: routedPairs cfg n seeds i (P.erase (k, v))) := by
      have h2 := hperm.filter (fun x => decide (i ∈ probeList cfg n seeds x.1))
      rw [List.filter_cons, if_pos (by simpa using decide_eq_true hip)] at h2
      exact h2
    have hxor1 := xorSum_perm ((hfp.map Prod.fst))
    have hxor2 := xorSum_perm ((hfp.map Prod.snd))
    have hlenp := hfp.length_eq
    simp only [Bucket2.mk.injEq]
    refine ⟨?_, ?_, ?_⟩
    · rw [hxor1]
      simp only [List.map_cons]
      rw [xorSum_cons, xor_cancel]
    · rw [hxor2]
      simp only [List.map_cons]
      rw [xorSum_cons, xor_cancel]
    · rw [hlenp, List.length_cons]
      have hle : (routedPairs cfg n seeds i (P.erase (k, v))).length ≤
          (P.erase (k, v)).length :=
        List.length_filter_le ..
      rw [List.length_erase_of_mem hkP] at hle
      have harith : (routedPairs cfg n seeds i (P.erase (k, v))).length + 1
          + (cfg.m - 1)
          = (routedPairs cfg n seeds i (P.erase (k, v))).length + cfg.m := by
        omega
      rw [harith, Nat.add_mod_right, Nat.mod_eq_of_lt (by omega)]
  · rw [if_neg (by simpa using hip)]
    have hre : routedPairs cfg n seeds i (P.erase (k, v)) =
        routedPairs cfg n seeds i P :=
      filter_erase_neg2 (by simpa using decide_eq_false hip) P
    rw [hre]

/-- One dictionary client operation preserves the invariant. -/
theorem Inv2_step {cfg : Cfg} {n : Nat} {seeds : List Nat} {S : IBF2}
    {P : List (Nat × Nat)} (op : Op2) (hn : 0 < n) (h : Inv2 cfg n seeds S P)
    (hm : P.length + insCount2 [op] < cfg.m) :
    Inv2 cfg n seeds (step2 cfg (S, P) op).1 (step2 cfg (S, P) op).2 := by
  cases op with
  | ins k v =>
      simp only [step2]
      exact Inv2_insert k v hn h (by simpa [insCount2, insKeys2] using hm)
  | rem k =>
      rcases hg : get2 cfg S k with _ | (_ | v)
      · have hstep : step2 cfg (S, P) (.rem k) = (S, P) := by
          simp [step2, hg, remove2_fail cfg k S (by simp [hg])]
        rw [hstep]
        exact h
      · have hstep : step2 cfg (S, P) (.rem k) = (S, P) := by
          simp [step2, hg, remove2_fail cfg k S (by simp [hg])]
        rw [hstep]
        exact h
      · have hstep : step2 cfg (S, P) (.rem k) =
            ((remove2 cfg k S).2, P.erase (k, v)) := by
          simp [step2, hg]
        rw [hstep]
        obtain ⟨-, h2⟩ := Inv2_remove_found k v hn h hg
        exact h2

/-- Running any dictionary trace from an encoded state preserves the
invariant, as long as the inserts cannot overflow a bucket counter. -/
theorem foldl_step2_inv {cfg : Cfg} {n : Nat} {seeds : List Nat} :
    ∀ (t : List Op2) (S : IBF2) (P : List (Nat × Nat)), 0 < n →
      Inv2 cfg n seeds S P → P.length + insCount2 t < cfg.m →
      Inv2 cfg n seeds (List.foldl (step2 cfg) (S, P) t).1
        (List.foldl (step2 cfg) (S, P) t).2 := by
  intro t
  induction t with
  | nil => intro S P _ h _; exact h
  | cons op rest ih =>
      intro S P hn h hm
      have hstep := Inv2_step op hn h (by
        cases op <;> simp [insCount2, insKeys2] at hm ⊢ <;> omega)
      have hlen : (step2 cfg (S, P) op).2.length ≤ P.length + insCount2 [op] := by
        cases op with
        | ins k v => simp [step2, insCount2, insKeys2]
        | rem k =>
            rcases hg : get2 cfg S k with _ | (_ | v)
            · simp [step2, hg, insCount2, insKeys2]
            · simp [step2, hg, insCount2, insKeys2]
            · simp only [step2, hg, insCount2, insKeys2, List.length_nil,
                Nat.add_zero]
              exact Nat.le_trans (List.length_erase_le ..) (Nat.le_refl _)
      rw [List.foldl_cons]
      have := ih (step2 cfg (S, P) op).1 (step2 cfg (S, P) op).2 hn hstep (by
        cases op <;> simp [insCount2, insKeys2] at hm hlen ⊢ <;> omega)
      simpa using this

/-- The invariant holds after every dictionary trace from a freshly
constructed dictionary with fewer inserts than the counter modulus. -/
theorem runP2_inv (cfg : Cfg) (seeds : List Nat) (n : Nat) (t : List Op2)
    (hn : 0 < n) (hm : insCount2 t < cfg.m) :
    Inv2 cfg n seeds (runP2 cfg (empty2 seeds n) t).1
      (runP2 cfg (empty2 seeds n) t).2 := by
  have hm0 : 0 < cfg.m := by omega
  exact foldl_step2_inv t (empty2 seeds n) [] hn (Inv2_empty cfg n seeds hm0)
    (by simpa using hm)

/-- Traces whose inserted pairs are pairwise distinct keep the present-pair
list duplicate-free. -/
theorem foldl_step2_nodup {cfg : Cfg} :
    ∀ (t : List Op2) (S : IBF2) (P : List (Nat × Nat)),
      P.Nodup → (insKeys2 t).Nodup → (∀ x ∈ insKeys2 t, x ∉ P) →
      (List.foldl (step2 cfg) (S, P) t).2.Nodup := by
  intro t
  induction t with
  | nil => intro S P h _ _; exact h
  | cons op rest ih =>
      intro S P hP hK hF
      rw [List.foldl_cons]
      cases op with
      | ins k v =>
          have hkk : (k, v) ∉ insKeys2 rest ∧ (insKeys2 rest).Nodup := by
            simpa [insKeys2] using hK
          refine ih _ _ ?_ hkk.2 ?_
          · exact List.nodup_cons.mpr ⟨hF (k, v) (by simp [insKeys2]), hP⟩
          · intro x hx
            simp only [List.mem_cons]
            rintro (rfl | hxP)
            · exact hkk.1 hx
            · exact hF x (by simp [insKeys2, hx]) hxP
      | rem k =>
          have hkey : (insKeys2 rest).Nodup := by simpa [insKeys2] using hK
          have hF' : ∀ x ∈ insKeys2 rest, x ∉ P := fun x hx =>
            hF x (by simpa [insKeys2] using hx)
          rcases hg : get2 cfg S k with _ | (_ | v)
          · have hstep : step2 cfg (S, P) (.rem k) = (S, P) := by
              simp [step2, hg, remove2_fail cfg k S (by simp [hg])]
            rw [hstep]
            exact ih S P hP hkey hF'
          · have hstep : step2 cfg (S, P) (.rem k) = (S, P) := by
              simp [step2, hg, remove2_fail cfg k S (by simp [hg])]
            rw [hstep]
            exact ih S P hP hkey hF'
          · have hstep : step2 cfg (S, P) (.rem k) =
                ((remove2 cfg k S).2, P.erase (k, v)) := by
              simp [step2, hg]
            rw [hstep]
            exact ih _ _ (hP.erase (k, v)) hkey
              (fun x hx hc => hF' x hx (List.mem_of_mem_erase hc))

/-! ## The dictionary's peeling decode under the invariant -/

/-- If every bucket reads empty, no pair is present. -/
theorem routed_all_empty2 {cfg : Cfg} {n : Nat} {seeds : List Nat}
    {P : List (Nat × Nat)} (hn : 0 < n) (hs : seeds ≠ [])
    (h : ∀ i ∈ List.range n, routedPairs cfg n seeds i P = []) : P = [] := by
  cases hP : P with
  | nil => rfl
  | cons x xs =>
      exfalso
      cases hseeds : seeds with
      | nil => exact hs hseeds
      | cons s ss =>
          have hx : x ∈ P := by rw [hP]; exact List.mem_cons_self ..
          have hidx : hash_index cfg n x.1 s < n := Nat.mod_lt _ hn
          have hip : x ∈ routedPairs cfg n seeds (hash_index cfg n x.1 s) P :=
            mem_routed2 hx
              (List.mem_map.mpr ⟨s, by rw [hseeds]; exact List.mem_cons_self .., rfl⟩)
          rw [h _ (List.mem_range.mpr hidx)] at hip
          simp at hip

/-- The dictionary peeling scan preserves the decode invariant: the state
remains the encoding of a shrinking present-pair list, the recovered vector
collects exactly the peeled pairs, and a scan that keeps `finished` true
empties every visited bucket. -/
theorem scanGo2_spec {cfg : Cfg} {n : Nat} {seeds : List Nat} (hn : 0 < n)
    (hs : seeds ≠ []) :
    ∀ (idxs : List Nat) (S : IBF2) (P res : List (Nat × Nat)) (fin ch : Bool)
      (base : List (Nat × Nat)),
      (∀ i ∈ idxs, i < n) →
      Inv2 cfg n seeds S P → P.Nodup → res.Nodup →
      (∀ x ∈ res, x ∉ P) → base.Perm (res ++ P) →
      ∃ P', Inv2 cfg n seeds (scanGo2 cfg idxs S res fin ch).1 P' ∧
        P'.Nodup ∧ P'.Sublist P ∧
        (scanGo2 cfg idxs S res fin ch).2.1.Nodup ∧
        (∀ x ∈ (scanGo2 cfg idxs S res fin ch).2.1, x ∉ P') ∧
        base.Perm ((scanGo2 cfg idxs S res fin ch).2.1 ++ P') ∧
        ((scanGo2 cfg idxs S res fin ch).2.2.1 = true →
          fin = true ∧ ∀ i ∈ idxs, routedPairs cfg n seeds i P' = []) := by
  intro idxs
  induction idxs with
  | nil =>
      intro S P res fin ch base _ hI hPnd hrnd hdisj hbase
      exact ⟨P, hI, hPnd, List.Sublist.refl P, hrnd, hdisj, hbase,
        fun hf => ⟨hf, by simp⟩⟩
  | cons i rest ih =>
      intro S P res fin ch base hidx hI hPnd hrnd hdisj hbase
      have hiltn : i < n := hidx i (List.mem_cons_self ..)
      by_cases h0 : (bget2 S.buckets i).count = 0
      · have hri : routedPairs cfg n seeds i P = [] := by
          have hb := hI.2.2.2.2 i hiltn
          rw [hb] at h0
          exact List.eq_nil_of_length_eq_zero h0
        simp only [scanGo2, if_pos h0]
        obtain ⟨P', g1, g2, g3, g4, g5, g6, g7⟩ :=
          ih S P res fin ch base (fun j hj => hidx j (List.mem_cons_of_mem _ hj))
            hI hPnd hrnd hdisj hbase
        refine ⟨P', g1, g2, g3, g4, g5, g6, fun hf => ?_⟩
        obtain ⟨hfin, hall⟩ := g7 hf
        refine ⟨hfin, fun j hj => ?_⟩
        rcases List.mem_cons.mp hj with rfl | hjr
        · have hsub := g3.filter (fun y => decide (j ∈ probeList cfg n seeds y.1))
          rw [show P.filter (fun y => decide (j ∈ probeList cfg n seeds y.1)) =
              routedPairs cfg n seeds j P from rfl, hri] at hsub
          exact List.sublist_nil.mp hsub
        · exact hall j hjr
      · by_cases h1c : (bget2 S.buckets i).count > 1
        · simp only [scanGo2, if_neg h0, if_pos h1c]
          obtain ⟨P', g1, g2, g3, g4, g5, g6, g7⟩ :=
            ih S P res false ch base (fun j hj => hidx j (List.mem_cons_of_mem _ hj))
              hI hPnd hrnd hdisj hbase
          refine ⟨P', g1, g2, g3, g4, g5, g6, fun hf => ?_⟩
          obtain ⟨hfin, -⟩ := g7 hf
          cases hfin
        · have hc1 : (bget2 S.buckets i).count = 1 := by omega
          obtain ⟨x, hx, hcum, hval, hxP, hxprobe⟩ := Inv2_singleton hI hiltn hc1
          have hfound : get2 cfg S x.1 = some (some x.2) := by
            unfold get2
            rw [hI.1, hI.2.1]
            refine getGo2_present_singleton hI hn hxP seeds (fun s hs' => hs') ?_
            obtain ⟨s, hsseed, hsidx⟩ := List.mem_map.mp hxprobe
            exact ⟨s, hsseed, by rw [hsidx]; exact hc1⟩
          obtain ⟨hremt, hremI⟩ := Inv2_remove_found x.1 x.2 hn hI hfound
          have hxP' : (x.1, x.2) ∈ P := hxP
          have hxnotres : (x.1, x.2) ∉ res := fun hc => hdisj (x.1, x.2) hc hxP'
          have hres' : (res ++ [(x.1, x.2)]).Nodup := by
            rw [List.nodup_append]
            refine ⟨hrnd, List.nodup_singleton (x.1, x.2), fun a ha hax => ?_⟩
            have haxx : a = (x.1, x.2) := by simpa using hax
            exact hxnotres (haxx ▸ ha)
          have hdisj' : ∀ y ∈ res ++ [(x.1, x.2)], y ∉ P.erase (x.1, x.2) := by
            intro y hy
            rcases List.mem_append.mp hy with hyr | hyx
            · exact fun hc => hdisj y hyr (List.mem_of_mem_erase hc)
            · have hyxx : y = (x.1, x.2) := by simpa using hyx
              subst hyxx
              intro hc
              exact absurd rfl ((hPnd.mem_erase_iff.mp hc).1)
          have hbase' : base.Perm ((res ++ [(x.1, x.2)]) ++ P.erase (x.1, x.2)) := by
            have h1 : P.Perm ((x.1, x.2) :: P.erase (x.1, x.2)) :=
              perm_cons_erase_pair hxP'
            have h2 : base.Perm (res ++ (x.1, x.2) :: P.erase (x.1, x.2)) :=
              hbase.trans (h1.append_left res)
            simpa [List.append_assoc] using h2
          simp only [scanGo2, if_neg h0, if_neg h1c, hcum, hval, hremt]
          obtain ⟨P', g1, g2, g3, g4, g5, g6, g7⟩ :=
            ih (remove2 cfg x.1 S).2 (P.erase (x.1, x.2)) (res ++ [(x.1, x.2)])
              fin true base
              (fun j hj => hidx j (List.mem_cons_of_mem _ hj)) hremI
              (hPnd.erase (x.1, x.2)) hres' hdisj' hbase'
          refine ⟨P', g1, g2, g3.trans (List.erase_sublist ..), g4, g5, g6,
            fun hf => ?_⟩
          obtain ⟨hfin, hall⟩ := g7 hf
          refine ⟨hfin, fun j hj => ?_⟩
          rcases List.mem_cons.mp hj with rfl | hjr
          · have hre : routedPairs cfg n seeds j (P.erase (x.1, x.2)) = [] := by
              have hperm : P.Perm ((x.1, x.2) :: P.erase (x.1, x.2)) :=
                perm_cons_erase_pair hxP'
              have h2 : (routedPairs cfg n seeds j P).Perm
                  ((x.1, x.2) :: routedPairs cfg n seeds j (P.erase (x.1, x.2))) := by
                have h3 := hperm.filter
                  (fun y => decide (j ∈ probeList cfg n seeds y.1))
                rw [List.filter_cons,
                  if_pos (by simpa using decide_eq_true hxprobe)] at h3
                exact h3
              rw [hx] at h2
              have hl2 : (1 : Nat) =
                  (routedPairs cfg n seeds j (P.erase (x.1, x.2))).length + 1 := by
                simpa using h2.length_eq
              exact List.eq_nil_of_length_eq_zero (by omega)
            have hsub := g3.filter (fun y => decide (j ∈ probeList cfg n seeds y.1))
            rw [show (P.erase (x.1, x.2)).filter
                (fun y => decide (j ∈ probeList cfg n seeds y.1)) =
                routedPairs cfg n seeds j (P.erase (x.1, x.2)) from rfl, hre] at hsub
            exact List.sublist_nil.mp hsub
          · exact hall j hjr

/-- A dictionary decode run whose loop exits with `finished = true` has
recovered exactly the present key/value pairs. -/
theorem decodeGo2_spec {cfg : Cfg} {n : Nat} {seeds : List Nat} (hn : 0 < n)
    (hs : seeds ≠ []) :
    ∀ (fuel : Nat) (S : IBF2) (P res base : List (Nat × Nat)),
      Inv2 cfg n seeds S P → P.Nodup → res.Nodup → (∀ x ∈ res, x ∉ P) →
      base.Perm (res ++ P) →
      (decodeGo2 cfg fuel S res).2.2.1 = true →
      (decodeGo2 cfg fuel S res).2.1.Perm base := by
  intro fuel
  induction fuel with
  | zero =>
      intro S P res base _ _ _ _ _ hfin
      simp [decodeGo2] at hfin
  | succ fuel ih =>
      intro S P res base hI hPnd hrnd hdisj hbase
      have hlen : S.buckets.length = n := hI.2.1
      obtain ⟨S1, res1, fin1, ch1, hpass⟩ :
          ∃ a b c d, scanGo2 cfg (List.range S.buckets.length) S res true false
            = (a, b, c, d) := ⟨_, _, _, _, rfl⟩
      obtain ⟨P1, g1, g2, g3, g4, g5, g6, g7⟩ :=
        scanGo2_spec hn hs (List.range S.buckets.length) S P res true false base
          (fun j hj => by rw [← hlen]; exact List.mem_range.mp hj)
          hI hPnd hrnd hdisj hbase
      simp only [hpass] at g1 g4 g5 g6 g7
      simp only [decodeGo2, hpass]
      by_cases hexit : (fin1 || !ch1) = true
      · rw [if_pos hexit]
        intro hfin
        have hfin1 : fin1 = true := hfin
        obtain ⟨-, hall⟩ := g7 hfin1
        have hP1nil : P1 = [] :=
          routed_all_empty2 hn hs (fun i hi =>
            hall i (by rw [hlen]; exact hi))
        rw [hP1nil] at g6
        show res1.Perm base
        simpa using g6.symm
      · rw [if_neg hexit]
        exact ih S1 P1 res1 base g1 g2 g4 g5 g6

/-- A successful dictionary `listAll` means: the loop exited with
`finished`, the result is the loop's accumulator, and its length matched
the logical count. -/
theorem listAll2_some_elim {cfg : Cfg} {S : IBF2} {res : List (Nat × Nat)}
    (h : listAll2 cfg S = some res) :
    (decodeGo2 cfg (S.buckets.length * (cfg.m - 1) + 2) S []).2.1 = res ∧
    (decodeGo2 cfg (S.buckets.length * (cfg.m - 1) + 2) S []).2.2.1 = true ∧
    res.length = S.count := by
  simp only [listAll2] at h
  by_cases hfin :
      (decodeGo2 cfg (S.buckets.length * (cfg.m - 1) + 2) S []).2.2.1 = true
  · by_cases hl :
        (decodeGo2 cfg (S.buckets.length * (cfg.m - 1) + 2) S []).2.1.length
          = S.count
    · rw [if_neg (by simp [hfin, hl])] at h
      have hr := Option.some_injective _ h
      exact ⟨hr, hfin, hr ▸ hl⟩
    · rw [if_pos (by simp [hfin, hl])] at h
      cases h
  · have hfin' :
        (decodeGo2 cfg (S.buckets.length * (cfg.m - 1) + 2) S []).2.2.1 = false :=
      Bool.not_eq_true _ |>.mp hfin
    rw [if_pos (by simp [hfin'])] at h
    cases h

end ibf

/-! ## Claim theorems -/

namespace ibf

/-- Claim C1, counterexample: with the default `K = 3` instantiation, a
`contains` query on a zero-size directory evaluates `hash % 0` and indexes an
empty bucket vector — undefined behaviour, modelled as `none` — instead of
returning `not_found` as the claim states. -/
theorem C1_counterexample :
    contains cfg8 (empty [0, 1, 2] 0) 0 ≠ some .not_found ∧
    contains cfg8 (empty [0, 1, 2] 0) 0 = none := by
  decide

/-- Claim C1, amended: an instance constructed with `directory_size == 0` has
`size() = 0` and `directory_size() = 0`, but `contains` does not return
`not_found`: each probe computes `hash % 0` (undefined behaviour in C++,
modelled as a failed bucket access), so the empty directory is not valid for
queries. -/
theorem C1_empty_directory (cfg : Cfg) (seeds : List Nat) (k : Nat)
    (hs : seeds ≠ []) :
    size (empty seeds 0) = 0 ∧ directory_size (empty seeds 0) = 0 ∧
    contains cfg (empty seeds 0) k = none := by
  refine ⟨rfl, rfl, ?_⟩
  cases seeds with
  | nil => exact absurd rfl hs
  | cons s rest => simp [contains, containsGo, empty]

/-- Witness for `C1_empty_directory` at a concrete configuration. -/
theorem C1_empty_directory_witness :
    size (empty [0, 1, 2] 0) = 0 ∧ directory_size (empty [0, 1, 2] 0) = 0 ∧
    contains cfg8 (empty [0, 1, 2] 0) 7 = none :=
  C1_empty_directory cfg8 [0, 1, 2] 7 (by decide)

/-- Claim C2, amended: over any instantiation (`cfg.m` is the bucket-counter
modulus, `2^16` for the default `uint16_t`), for every structure reachable
from an empty directory of non-zero size by a trace with fewer than `cfg.m`
inserts, and every key currently inserted and not removed, `contains` neither
answers `not_found` nor fails. -/
theorem C2_no_false_negatives (cfg : Cfg) (seeds : List Nat) (n : Nat)
    (t : List Op) (k : Nat) (hn : 0 < n) (hs : seeds ≠ [])
    (hm : insCount t < cfg.m)
    (hk : k ∈ (runP cfg (empty seeds n) t).2) :
    contains cfg (runP cfg (empty seeds n) t).1 k ≠ some .not_found ∧
    contains cfg (runP cfg (empty seeds n) t).1 k ≠ none := by
  have hinv := runP_inv cfg seeds n t hn hm
  unfold contains
  rw [hinv.1, hinv.2.1]
  exact containsGo_present hinv hn hk seeds (fun s hs' => hs') false (Or.inr hs)

/-- Witness for `C2_no_false_negatives` at a concrete trace. -/
theorem C2_no_false_negatives_witness :
    contains cfg8 (runP cfg8 (empty [0, 1, 2] 1) [Op.ins 3]).1 3 ≠
      some .not_found ∧
    contains cfg8 (runP cfg8 (empty [0, 1, 2] 1) [Op.ins 3]).1 3 ≠ none :=
  C2_no_false_negatives cfg8 [0, 1, 2] 1 [Op.ins 3] 3 (by decide) (by decide)
    (by decide) (by decide)

/-- Claim C6, amended: on every structure reachable by a trace with fewer
than `cfg.m` inserts, if any probe bucket of `k` has `count == 1` at query
time then `contains k` returns the exact truth: `exists` if `k` is currently
inserted, `not_found` otherwise. -/
theorem C6_singleton_exact (cfg : Cfg) (seeds : List Nat) (n : Nat)
    (t : List Op) (k : Nat) (hn : 0 < n) (hm : insCount t < cfg.m)
    (hsing : ∃ s ∈ seeds,
      (bget (runP cfg (empty seeds n) t).1.buckets (hash_index cfg n k s)).count
        = 1) :
    contains cfg (runP cfg (empty seeds n) t).1 k =
      some (if k ∈ (runP cfg (empty seeds n) t).2 then .found else .not_found) := by
  have hinv := runP_inv cfg seeds n t hn hm
  unfold contains
  rw [hinv.1, hinv.2.1]
  exact containsGo_singleton_exact hinv hn seeds (fun s hs' => hs') _ hsing

/-- Witness for `C6_singleton_exact` at a concrete trace. -/
theorem C6_singleton_exact_witness :
    contains cfg8 (runP cfg8 (empty [0, 1, 2] 1) [Op.ins 3]).1 3 =
      some (if 3 ∈ (runP cfg8 (empty [0, 1, 2] 1) [Op.ins 3]).2 then .found
        else .not_found) :=
  C6_singleton_exact cfg8 [0, 1, 2] 1 [Op.ins 3] 3 (by decide) (by decide)
    ⟨0, by decide, by decide⟩

/-- Claim C3, amended: on every structure reachable by inserts of
pairwise-distinct keys and successful removes, with fewer inserts than the
bucket-counter modulus, a successful `listAll` returns exactly the present
content, of length exactly `size()`: in the set variant a permutation of
the currently-inserted keys, in the dictionary variant a permutation of the
currently-inserted key/value pairs — no extras, no omissions, no corrupted
values. -/
theorem C3_decode_exact (cfg : Cfg) (seeds : List Nat) (n : Nat)
    (t : List Op) (res : List Nat) (t2 : List Op2) (res2 : List (Nat × Nat))
    (hn : 0 < n) (hs : seeds ≠ [])
    (hm : insCount t < cfg.m) (hnd : (insKeys t).Nodup)
    (hres : listAll cfg (runP cfg (empty seeds n) t).1 = some res)
    (hm2 : insCount2 t2 < cfg.m) (hnd2 : ((insKeys2 t2).map Prod.fst).Nodup)
    (hres2 : listAll2 cfg (runP2 cfg (empty2 seeds n) t2).1 = some res2) :
    (res.Perm (runP cfg (empty seeds n) t).2 ∧
      res.length = size (runP cfg (empty seeds n) t).1) ∧
    (res2.Perm (runP2 cfg (empty2 seeds n) t2).2 ∧
      res2.length = size2 (runP2 cfg (empty2 seeds n) t2).1) := by
  constructor
  · have hinv := runP_inv cfg seeds n t hn hm
    have hnodup : (runP cfg (empty seeds n) t).2.Nodup :=
      foldl_step_nodup t (empty seeds n) [] List.nodup_nil hnd (by simp)
    obtain ⟨hr1, hr2, hr3⟩ := listAll_some_elim hres
    have hperm := decodeGo_spec hn hs _ (runP cfg (empty seeds n) t).1
      (runP cfg (empty seeds n) t).2 [] (runP cfg (empty seeds n) t).2
      hinv hnodup List.nodup_nil (by simp) (by simp) hr2
    rw [hr1] at hperm
    exact ⟨hperm, by rw [hr3]; rfl⟩
  · have hinv := runP2_inv cfg seeds n t2 hn hm2
    have hnodup : (runP2 cfg (empty2 seeds n) t2).2.Nodup :=
      foldl_step2_nodup t2 (empty2 seeds n) [] List.nodup_nil
        (List.Nodup.of_map Prod.fst hnd2) (by simp)
    obtain ⟨hr1, hr2, hr3⟩ := listAll2_some_elim hres2
    have hperm := decodeGo2_spec hn hs _ (runP2 cfg (empty2 seeds n) t2).1
      (runP2 cfg (empty2 seeds n) t2).2 [] (runP2 cfg (empty2 seeds n) t2).2
      hinv hnodup List.nodup_nil (by simp) (by simp) hr2
    rw [hr1] at hperm
    exact ⟨hperm, by rw [hr3]; rfl⟩

/-- Witness for `C3_decode_exact` at concrete traces with successful decodes
in both variants. -/
theorem C3_decode_exact_witness :
    (([1, 2] : List Nat).Perm
        (runP cfg8 (empty [0, 1] 4) [Op.ins 1, Op.ins 2]).2 ∧
      ([1, 2] : List Nat).length =
        size (runP cfg8 (empty [0, 1] 4) [Op.ins 1, Op.ins 2]).1) ∧
    (([(1, 10), (2, 20)] : List (Nat × Nat)).Perm
        (runP2 cfg8 (empty2 [0, 1] 4) [Op2.ins 1 10, Op2.ins 2 20]).2 ∧
      ([(1, 10), (2, 20)] : List (Nat × Nat)).length =
        size2 (runP2 cfg8 (empty2 [0, 1] 4) [Op2.ins 1 10, Op2.ins 2 20]).1) :=
  C3_decode_exact cfg8 [0, 1] 4 [Op.ins 1, Op.ins 2] [1, 2]
    [Op2.ins 1 10, Op2.ins 2 20] [(1, 10), (2, 20)]
    (by decide) (by decide) (by decide) (by decide) (by decide)
    (by decide) (by decide) (by decide)

/-- Claim C9: the peeling loop of `listAll` reaches its exit condition within
the pass budget the embedding allots, on every bucket-directory state whose
counters are in the counter type's range, for every instantiation with fewer
probes than the counter modulus (`K = 3` and `m = 2^16` in the default
configuration).  The measure: every continuing pass strictly decreases
`psi`. -/
theorem C9_decode_terminates (cfg : Cfg) (S : IBF) (hm : 2 ≤ cfg.m)
    (hK : S.seeds.length < cfg.m) (hw : ∀ b ∈ S.buckets, b.count < cfg.m) :
    (decodeGo cfg (S.buckets.length * (cfg.m - 1) + 2) S []).2.2.2 = true :=
  decodeGo_exits hm _ S [] hK hw (by
    have := psi_le cfg.m S.buckets
    omega)

/-- Witness for `C9_decode_terminates` on a concrete state. -/
theorem C9_decode_terminates_witness :
    (decodeGo cfg8 ((empty [0, 1, 2] 4).buckets.length * (cfg8.m - 1) + 2)
      (empty [0, 1, 2] 4) []).2.2.2 = true :=
  C9_decode_terminates cfg8 (empty [0, 1, 2] 4) (by decide) (by decide)
    (by decide)

/-- Claim C10: inserting the same key twice into an otherwise-empty directory
of non-zero size gives `size() = 2`, `contains = might_exist`, a failing
`remove` that leaves the state unchanged, a failing `listAll`, and every
probe bucket of the key holding `⟨0, 2⟩` (key cancelled, counter 2). -/
theorem C10_duplicate_insert (cfg : Cfg) (seeds : List Nat) (n k : Nat)
    (hn : 0 < n) (hs : seeds ≠ []) (hm : 2 < cfg.m) :
    size (insert cfg k (insert cfg k (empty seeds n))) = 2 ∧
    contains cfg (insert cfg k (insert cfg k (empty seeds n))) k =
      some .might_exist ∧
    remove cfg k (insert cfg k (insert cfg k (empty seeds n))) =
      (false, insert cfg k (insert cfg k (empty seeds n))) ∧
    listAll cfg (insert cfg k (insert cfg k (empty seeds n))) = none ∧
    ∀ i ∈ probeList cfg n seeds k,
      bget (insert cfg k (insert cfg k (empty seeds n))).buckets i = ⟨0, 2⟩ := by
  have hinv : Inv cfg n seeds (insert cfg k (insert cfg k (empty seeds n))) [k, k] :=
    Inv_insert k hn
      (Inv_insert k hn (Inv_empty cfg n seeds (by omega)) (by simp; omega))
      (by simp; omega)
  have hroutedpos : ∀ i, i ∈ probeList cfg n seeds k →
      routedKeys cfg n seeds i [k, k] = [k, k] := by
    intro i hip
    simp [routedKeys, List.filter_cons, hip]
  have hroutedneg : ∀ i, i ∉ probeList cfg n seeds k →
      routedKeys cfg n seeds i [k, k] = [] := by
    intro i hip
    simp [routedKeys, List.filter_cons, hip]
  have hbuck : ∀ i ∈ probeList cfg n seeds k,
      bget (insert cfg k (insert cfg k (empty seeds n))).buckets i = ⟨0, 2⟩ := by
    intro i hip
    have hilt := probe_lt hn i hip
    rw [hinv.2.2.2.2 i hilt, hroutedpos i hip]
    simp [xorSum]
  have hcont : contains cfg (insert cfg k (insert cfg k (empty seeds n))) k =
      some .might_exist := by
    unfold contains
    rw [hinv.1, hinv.2.1]
    refine containsGo_allgt seeds false (fun s hsseed => ?_) (Or.inr hs)
    have hip : hash_index cfg n k s ∈ probeList cfg n seeds k :=
      List.mem_map.mpr ⟨s, hsseed, rfl⟩
    refine ⟨⟨0, 2⟩, ?_, by decide⟩
    rw [get?_eq_bget (by rw [hinv.2.1]; exact probe_lt hn _ hip), hbuck _ hip]
  have hstuck : ∀ i ∈ List.range
      (insert cfg k (insert cfg k (empty seeds n))).buckets.length,
      (bget (insert cfg k (insert cfg k (empty seeds n))).buckets i).count ≠ 1 := by
    intro i hi
    have hilt : i < n := by
      rw [← hinv.2.1]; exact List.mem_range.mp hi
    rw [hinv.2.2.2.2 i hilt]
    by_cases hip : i ∈ probeList cfg n seeds k
    · rw [hroutedpos i hip]; simp
    · rw [hroutedneg i hip]; simp
  obtain ⟨a, b, c, d, hsc⟩ :
      ∃ a b c d, scanGo cfg (List.range
        (insert cfg k (insert cfg k (empty seeds n))).buckets.length)
        (insert cfg k (insert cfg k (empty seeds n))) [] true false
        = (a, b, c, d) := ⟨_, _, _, _, rfl⟩
  obtain ⟨b1, b2, b3, b4⟩ := @scanGo_stuck cfg (List.range
      (insert cfg k (insert cfg k (empty seeds n))).buckets.length)
      (insert cfg k (insert cfg k (empty seeds n))) [] true false hstuck
  have hfirst : ∃ i ∈ List.range
      (insert cfg k (insert cfg k (empty seeds n))).buckets.length,
      (bget (insert cfg k (insert cfg k (empty seeds n))).buckets i).count > 1 := by
    obtain ⟨s, ss, hse⟩ := List.exists_cons_of_ne_nil hs
    have hsseed : s ∈ seeds := by rw [hse]; exact List.mem_cons_self s ss
    have hip : hash_index cfg n k s ∈ probeList cfg n seeds k :=
      List.mem_map.mpr ⟨s, hsseed, rfl⟩
    refine ⟨hash_index cfg n k s, ?_, ?_⟩
    · rw [hinv.2.1]
      exact List.mem_range.mpr (Nat.mod_lt _ hn)
    · rw [hbuck _ hip]
      decide
  simp only [hsc] at b1 b2 b3 b4
  have hc : c = false := b4 hfirst
  have hlistnone : listAll cfg (insert cfg k (insert cfg k (empty seeds n))) =
      none := by
    simp only [listAll]
    have h2 : (insert cfg k (insert cfg k (empty seeds n))).buckets.length *
        (cfg.m - 1) + 2 =
        ((insert cfg k (insert cfg k (empty seeds n))).buckets.length *
          (cfg.m - 1) + 1) + 1 := rfl
    rw [h2]
    simp only [decodeGo, hsc, hc, b3]
    simp
  refine ⟨hinv.2.2.1, hcont, remove_not_found _ _ _ (by rw [hcont]; simp),
    hlistnone, hbuck⟩

/-- Witness for `C10_duplicate_insert` at a concrete configuration. -/
theorem C10_duplicate_insert_witness :
    size (insert cfg8 5 (insert cfg8 5 (empty [0, 1, 2] 2))) = 2 ∧
    contains cfg8 (insert cfg8 5 (insert cfg8 5 (empty [0, 1, 2] 2))) 5 =
      some .might_exist ∧
    remove cfg8 5 (insert cfg8 5 (insert cfg8 5 (empty [0, 1, 2] 2))) =
      (false, insert cfg8 5 (insert cfg8 5 (empty [0, 1, 2] 2))) ∧
    listAll cfg8 (insert cfg8 5 (insert cfg8 5 (empty [0, 1, 2] 2))) = none ∧
    ∀ i ∈ probeList cfg8 2 [0, 1, 2] 5,
      bget (insert cfg8 5 (insert cfg8 5 (empty [0, 1, 2] 2))).buckets i =
        ⟨0, 2⟩ :=
  C10_duplicate_insert cfg8 [0, 1, 2] 2 5 (by decide) (by decide) (by decide)

set_option maxRecDepth 4000 in
/-- Claim C2, counterexample: in the `uint8_t` instantiation, after inserting
the 256 pairwise-distinct keys `0..255` into a directory of size 1, every
bucket counter has wrapped to 0; the inserted, never-removed key 5 is reported
`not_found`. -/
theorem C2_counterexample :
    5 ∈ c2state.2 ∧ contains cfg8 c2state.1 5 = some .not_found := by
  rw [c2state_eq]
  refine ⟨?_, by decide⟩
  simp [List.mem_reverse, List.mem_range]

set_option maxRecDepth 4000 in
/-- Claim C6, counterexample: after inserting the 257 pairwise-distinct keys
`0..256` into a directory of size 1, bucket 0 — a probe bucket of the
inserted key 0 — has `count = 1`, yet `contains 0` returns `not_found`. -/
theorem C6_counterexample :
    0 ∈ c6state.2 ∧
    0 ∈ probeList cfg8 c6state.1.buckets.length c6state.1.seeds 0 ∧
    (bget c6state.1.buckets 0).count = 1 ∧
    contains cfg8 c6state.1 0 = some .not_found := by
  rw [c6state_eq]
  refine ⟨?_, by decide, by decide, by decide⟩
  simp [List.mem_reverse, List.mem_range]

set_option maxRecDepth 4000 in
/-- Claim C3, counterexample: after `c3trace` (257 pairwise-distinct inserts
and one successful remove, in the `uint8_t` instantiation), `listAll`
*succeeds* — it returns a result that passes the final size check — yet the
result omits the still-present key 6211. -/
theorem C3_counterexample :
    6211 ∈ c3state.2 ∧
    (listAll c3cfg c3state.1).isSome = true ∧
    6211 ∉ (listAll c3cfg c3state.1).getD [] := by
  rw [c3state_eq]
  refine ⟨?_, ?_, ?_⟩
  · simp only [List.mem_reverse]
    decide
  · rw [c3_listAll_eq]; rfl
  · rw [c3_listAll_eq]
    decide

/-- Claim C4: on a non-empty directory, a failing `remove` leaves the state
(every bucket and the global count) unchanged, and `remove` fails exactly
when the key is not provably present — `contains != exists` in the set
variant, `get == nullopt` in the dictionary variant. -/
theorem C4_remove_atomic (cfg : Cfg) (S : IBF) (T : IBF2) (k : Nat)
    (hn : 0 < S.buckets.length) (hn2 : 0 < T.buckets.length) :
    ((remove cfg k S).1 = false → (remove cfg k S).2 = S) ∧
    ((remove cfg k S).1 = false ↔ contains cfg S k ≠ some .found) ∧
    ((remove2 cfg k T).1 = false → (remove2 cfg k T).2 = T) ∧
    ((remove2 cfg k T).1 = false ↔ get2 cfg T k = some none) := by
  refine ⟨?_, ?_, ?_, ?_⟩
  · intro h
    by_cases hc : contains cfg S k = some .found
    · rw [remove_found cfg k S hc] at h
      simp at h
    · rw [remove_not_found cfg k S hc]
  · by_cases hc : contains cfg S k = some .found
    · rw [remove_found cfg k S hc]
      simp [hc]
    · rw [remove_not_found cfg k S hc]
      simp [hc]
  · intro h
    rcases hg : get2 cfg T k with _ | hv
    · exact absurd hg (getGo2_ne_none rfl hn2 T.seeds)
    · rcases hv with _ | v
      · rw [remove2_fail cfg k T (by simp [hg])]
      · rw [remove2_found cfg k T v hg] at h
        simp at h
  · rcases hg : get2 cfg T k with _ | hv
    · exact absurd hg (getGo2_ne_none rfl hn2 T.seeds)
    · rcases hv with _ | v
      · rw [remove2_fail cfg k T (by simp [hg])]
        simp [hg]
      · rw [remove2_found cfg k T v hg]
        simp [hg]

/-- Witness for `C4_remove_atomic` on concrete states. -/
theorem C4_remove_atomic_witness :
    ((remove cfg8 5 (empty [0, 1, 2] 4)).1 = false →
      (remove cfg8 5 (empty [0, 1, 2] 4)).2 = empty [0, 1, 2] 4) ∧
    ((remove cfg8 5 (empty [0, 1, 2] 4)).1 = false ↔
      contains cfg8 (empty [0, 1, 2] 4) 5 ≠ some .found) ∧
    ((remove2 cfg8 5 (empty2 [0, 1, 2] 4)).1 = false →
      (remove2 cfg8 5 (empty2 [0, 1, 2] 4)).2 = empty2 [0, 1, 2] 4) ∧
    ((remove2 cfg8 5 (empty2 [0, 1, 2] 4)).1 = false ↔
      get2 cfg8 (empty2 [0, 1, 2] 4) 5 = some none) :=
  C4_remove_atomic cfg8 (empty [0, 1, 2] 4) (empty2 [0, 1, 2] 4) 5
    (by decide) (by decide)

/-- Claim C7: inserting a key (and value) into an otherwise-empty structure
with a non-empty directory and immediately removing it succeeds and restores
the exact pre-insert state — every bucket field and the global count — in
both variants. -/
theorem C7_insert_remove_roundtrip (cfg : Cfg) (seeds : List Nat) (n k v : Nat)
    (hn : 0 < n) (hs : seeds ≠ []) (hm : 1 < cfg.m) :
    remove cfg k (insert cfg k (empty seeds n)) = (true, empty seeds n) ∧
    remove2 cfg k (insert2 cfg k v (empty2 seeds n)) = (true, empty2 seeds n) := by
  obtain ⟨s, ss, hse⟩ := List.exists_cons_of_ne_nil hs
  constructor
  · have hlen0 : (empty seeds n).buckets.length = n := by simp [empty]
    have hsee0 : (empty seeds n).seeds = seeds := rfl
    have hS1len : (insert cfg k (empty seeds n)).buckets.length = n := by
      rw [insert_length, hlen0]
    have hb0 : ∀ j, bget (empty seeds n).buckets j = ⟨0, 0⟩ :=
      fun j => bget_replicate n j
    have hS1b : ∀ j, bget (insert cfg k (empty seeds n)).buckets j =
        if j ∈ probeList cfg n seeds k then ⟨k, 1⟩ else ⟨0, 0⟩ := by
      intro j
      rw [insert_bget cfg k _ j (by rw [hlen0]; exact hn), hlen0, hsee0, hb0 j]
      by_cases hip : j ∈ probeList cfg n seeds k
      · rw [if_pos hip, if_pos hip]
        have h1 : (0 + 1) % cfg.m = 1 := by
          rw [Nat.zero_add]
          exact Nat.mod_eq_of_lt hm
        simp [h1]
      · rw [if_neg hip, if_neg hip]
    have hcont : contains cfg (insert cfg k (empty seeds n)) k = some .found := by
      have hidx : hash_index cfg n k s <
          (insert cfg k (empty seeds n)).buckets.length := by
        rw [hS1len]; exact Nat.mod_lt _ hn
      have hmem : hash_index cfg n k s ∈ probeList cfg n seeds k :=
        List.mem_map.mpr ⟨s, by rw [hse]; exact List.mem_cons_self s ss, rfl⟩
      have hbs := hS1b (hash_index cfg n k s)
      rw [if_pos hmem] at hbs
      show containsGo cfg (insert cfg k (empty seeds n)).buckets.length
        (insert cfg k (empty seeds n)).buckets k
        (insert cfg k (empty seeds n)).seeds false = some .found
      rw [show (insert cfg k (empty seeds n)).seeds = s :: ss from hse, hS1len]
      simp only [containsGo, get?_eq_bget hidx, hbs]
      simp
    rw [remove_found cfg k _ hcont]
    simp only [Prod.mk.injEq, true_and]
    refine IBF_fields_eq rfl ?_ rfl
    have hplen : ∀ x ∈ probeList cfg
        (insert cfg k (empty seeds n)).buckets.length
        (insert cfg k (empty seeds n)).seeds k,
        x < (insert cfg k (empty seeds n)).buckets.length := by
      intro x hx
      rw [hS1len] at hx ⊢
      exact probe_lt hn x hx
    have hTb : ∀ j, bget (touchLoop
        (fun b => ⟨b.cumulative_key ^^^ k, (b.count + (cfg.m - 1)) % cfg.m⟩)
        (probeList cfg (insert cfg k (empty seeds n)).buckets.length
          (insert cfg k (empty seeds n)).seeds k) []
        (insert cfg k (empty seeds n)).buckets) j = ⟨0, 0⟩ := by
      intro j
      rw [touchLoop_get _ _ _ _ _ hplen,
        show probeList cfg (insert cfg k (empty seeds n)).buckets.length
          (insert cfg k (empty seeds n)).seeds k = probeList cfg n seeds k from by
          rw [hS1len, insert_seeds, hsee0]]
      by_cases hip : j ∈ probeList cfg n seeds k
      · rw [if_pos ⟨hip, by simp⟩, hS1b j, if_pos hip]
        have h2m : (1 + (cfg.m - 1)) % cfg.m = 0 := by
          have hmm : 1 + (cfg.m - 1) = cfg.m := by omega
          rw [hmm, Nat.mod_self]
        simp [h2m]
      · rw [if_neg (fun hcond => hip hcond.1), hS1b j, if_neg hip]
    exact list_eq_replicate_of_bget
      (by rw [touchLoop_length]; exact hS1len) hTb
  · have hlen0 : (empty2 seeds n).buckets.length = n := by simp [empty2]
    have hsee0 : (empty2 seeds n).seeds = seeds := rfl
    have hS1len : (insert2 cfg k v (empty2 seeds n)).buckets.length = n := by
      rw [insert2_length, hlen0]
    have hb0 : ∀ j, bget2 (empty2 seeds n).buckets j = ⟨0, 0, 0⟩ :=
      fun j => bget2_replicate n j
    have hS1b : ∀ j, bget2 (insert2 cfg k v (empty2 seeds n)).buckets j =
        if j ∈ probeList cfg n seeds k then ⟨k, v, 1⟩ else ⟨0, 0, 0⟩ := by
      intro j
      rw [insert2_bget cfg k v _ j (by rw [hlen0]; exact hn), hlen0, hsee0, hb0 j]
      by_cases hip : j ∈ probeList cfg n seeds k
      · rw [if_pos hip, if_pos hip]
        have h1 : (0 + 1) % cfg.m = 1 := by
          rw [Nat.zero_add]
          exact Nat.mod_eq_of_lt hm
        simp [h1]
      · rw [if_neg hip, if_neg hip]
    have hget : get2 cfg (insert2 cfg k v (empty2 seeds n)) k = some (some v) := by
      have hidx : hash_index cfg n k s <
          (insert2 cfg k v (empty2 seeds n)).buckets.length := by
        rw [hS1len]; exact Nat.mod_lt _ hn
      have hmem : hash_index cfg n k s ∈ probeList cfg n seeds k :=
        List.mem_map.mpr ⟨s, by rw [hse]; exact List.mem_cons_self s ss, rfl⟩
      have hbs := hS1b (hash_index cfg n k s)
      rw [if_pos hmem] at hbs
      show getGo2 cfg (insert2 cfg k v (empty2 seeds n)).buckets.length
        (insert2 cfg k v (empty2 seeds n)).buckets k
        (insert2 cfg k v (empty2 seeds n)).seeds = some (some v)
      rw [show (insert2 cfg k v (empty2 seeds n)).seeds = s :: ss from hse, hS1len]
      simp only [getGo2, get2?_eq_bget2 hidx, hbs]
      simp
    rw [remove2_found cfg k _ v hget]
    simp only [Prod.mk.injEq, true_and]
    refine IBF2_fields_eq rfl ?_ rfl
    have hplen : ∀ x ∈ probeList cfg
        (insert2 cfg k v (empty2 seeds n)).buckets.length
        (insert2 cfg k v (empty2 seeds n)).seeds k,
        x < (insert2 cfg k v (empty2 seeds n)).buckets.length := by
      intro x hx
      rw [hS1len] at hx ⊢
      exact probe_lt hn x hx
    have hTb : ∀ j, bget2 (touchLoop2
        (fun b => ⟨b.cumulative_key ^^^ k, b.cumulative_value ^^^ v,
          (b.count + (cfg.m - 1)) % cfg.m⟩)
        (probeList cfg (insert2 cfg k v (empty2 seeds n)).buckets.length
          (insert2 cfg k v (empty2 seeds n)).seeds k) []
        (insert2 cfg k v (empty2 seeds n)).buckets) j = ⟨0, 0, 0⟩ := by
      intro j
      rw [touchLoop2_get _ _ _ _ _ hplen,
        show probeList cfg (insert2 cfg k v (empty2 seeds n)).buckets.length
          (insert2 cfg k v (empty2 seeds n)).seeds k = probeList cfg n seeds k from by
          rw [hS1len, insert2_seeds, hsee0]]
      by_cases hip : j ∈ probeList cfg n seeds k
      · rw [if_pos ⟨hip, by simp⟩, hS1b j, if_pos hip]
        have h2m : (1 + (cfg.m - 1)) % cfg.m = 0 := by
          have hmm : 1 + (cfg.m - 1) = cfg.m := by omega
          rw [hmm, Nat.mod_self]
        simp [h2m]
      · rw [if_neg (fun hcond => hip hcond.1), hS1b j, if_neg hip]
    exact list2_eq_replicate_of_bget2
      (by rw [touchLoop2_length]; exact hS1len) hTb

/-- Witness for `C7_insert_remove_roundtrip` on a concrete configuration. -/
theorem C7_insert_remove_roundtrip_witness :
    remove cfg8 5 (insert cfg8 5 (empty [0, 1, 2] 4)) =
      (true, empty [0, 1, 2] 4) ∧
    remove2 cfg8 5 (insert2 cfg8 5 9 (empty2 [0, 1, 2] 4)) =
      (true, empty2 [0, 1, 2] 4) :=
  C7_insert_remove_roundtrip cfg8 [0, 1, 2] 4 5 9 (by decide) (by decide)
    (by decide)

/-- Claim C8: `listAll` is a `const` method whose peeling mutates only a
private copy of the receiver.  As a state transformer on the receiver, the
call returns the receiver unchanged — every bucket and the global count —
whether the decode succeeds or fails, and its result is the pure decode, in
both variants. -/
theorem C8_listAll_frame (cfg : Cfg) (S : IBF) (T : IBF2) :
    (listAllOp cfg S).2 = S ∧ (listAllOp cfg S).1 = listAll cfg S ∧
    (listAllOp2 cfg T).2 = T ∧ (listAllOp2 cfg T).1 = listAll2 cfg T :=
  ⟨rfl, rfl, rfl, rfl⟩

/-- Claim C5, refuted (code bug): `already_exists` is never reset inside the
do-while body, so the first colliding draw latches it `true` and the
constructor redraws forever — even on a stream where the collision is
immediately followed by candidates distinct from every accepted seed (here:
draws 7, 7, 102, 103, …, with `K = 2`).  The embedded loop yields `none`
("still running") at every fuel, i.e. it diverges. -/
theorem C5_seed_loop_diverges :
    c5stream 2 ∉ [c5stream 0] ∧
    ∀ fuel : Nat, genSeedsGo c5stream fuel 2 0 [] = none := by
  refine ⟨by decide, ?_⟩
  intro fuel
  cases fuel with
  | zero => rfl
  | succ f =>
      have h1 : drawLoop c5stream [] (f + 1) 0 false = some (7, 1) := rfl
      have h2 : ∀ g, drawLoop c5stream [7] g 1 false = none := by
        intro g
        cases g with
        | zero => rfl
        | succ g' =>
            show drawLoop c5stream [7] g' 2 true = none
            exact drawLoop_latched c5stream [7] g' 2
      show genSeedsGo c5stream (f + 1) (1 + 1) 0 [] = none
      rw [genSeedsGo_succ, h1]
      show genSeedsGo c5stream (f + 1) (0 + 1) 1 [7] = none
      rw [genSeedsGo_succ, h2 (f + 1)]

end ibf
